import Mathlib

/-!
Yocto/RayTrace: the progressive renderer of `yocto_raytrace.cpp`.

A shallow embedding of the renderer's state machine (`make_state`,
`raytrace_samples`, `get_render`), of the shader selector `get_shader` and of
the shaders it selects.

Conventions of the embedding.

* `float` is a type parameter `F`; its arithmetic, the vector routines of the
  Yocto library, the random generator and the scene oracles (`intersect_bvh`,
  `eval_material`, ...) are the fields of one record `Lib F R B`, so every
  theorem holds for any behaviour of floating point and of the library.
* `int` is `Int`. The product `state.width * state.height`, which is the
  element count of the per-pixel vectors and the bound of the pixel loops, is
  wrapped to 32 bits (`int32`), as the two's-complement targets of the
  renderer compute it; the counters `samples` and `hits[idx]` stay below
  `params.samples` in every reachable state and are not wrapped.
* A call ends in a `Res`: it returns (`ok`), throws a C++ exception (`throw`),
  has no defined behaviour (`undef`: an index outside a vector, control falling
  off the end of a function) or exhausts the recursion fuel (`timeout`).
* A procedure that mutates an object in place returns the `Res` together with
  the object as the call left it.
-/

set_option autoImplicit false

namespace yocto

/-! ## Outcomes -/

/-- The classes of the C++ exceptions that the renderer can raise. -/
inductive exception where
  | runtime_error
  | invalid_argument
  | length_error
deriving DecidableEq, Repr

/-- How a call of the embedded C++ code ends. -/
inductive Res (α : Type) where
  | ok (a : α) : Res α
  | throw (e : exception) (msg : String) : Res α
  | undef : Res α
  | timeout : Res α
deriving DecidableEq, Repr

/-! ## Data model -/

/-- Two floats (`vec2f`). -/
structure vec2f (F : Type) where
  x : F
  y : F
deriving DecidableEq, Repr

/-- Three floats (`vec3f`). -/
structure vec3f (F : Type) where
  x : F
  y : F
  z : F
deriving DecidableEq, Repr

/-- Four floats (`vec4f`). -/
structure vec4f (F : Type) where
  x : F
  y : F
  z : F
  w : F
deriving DecidableEq, Repr

/-- A rigid frame (`frame3f`): three axes and an origin. -/
structure frame3f (F : Type) where
  x : vec3f F
  y : vec3f F
  z : vec3f F
  o : vec3f F
deriving DecidableEq, Repr

/-- A ray (`ray3f`): origin and direction. The fields `tmin` and `tmax` keep
their default values everywhere in this file and are left out. -/
structure ray3f (F : Type) where
  o : vec3f F
  d : vec3f F
deriving DecidableEq, Repr

/-- The fields of `camera_data` that the renderer reads. -/
structure camera_data (F : Type) where
  frame : frame3f F
  lens : F
  film : F
  aspect : F
deriving DecidableEq, Repr

/-- The fields of `instance_data` that the renderer reads. -/
structure instance_data (F : Type) where
  frame : frame3f F
  shape : Int
  material : Int
deriving DecidableEq, Repr

/-- The element arrays of `shape_data`; the shaders only test them for
emptiness. -/
structure shape_data where
  points : List Int
  lines : List (Int × Int)
  triangles : List (Int × Int × Int)
deriving DecidableEq, Repr

/-- Modelled from the spec: the declaration of `material_type` is in a header
that is not part of the sources. The five types the path tracer dispatches on,
and `other` for every further value of the open set. -/
inductive material_type where
  | matte
  | glossy
  | reflective
  | transparent
  | refractive
  | other (tag : Nat)
deriving DecidableEq, Repr

/-- The fields of `material_data` that the shaders read, and the opacity and
roughness from which the material oracle resolves a `material_point`. -/
structure material_data (F : Type) where
  type : material_type
  emission : vec3f F
  color : vec3f F
  opacity : F
  roughness : F
deriving DecidableEq, Repr

/-- The resolved material at a hit (`material_point`). -/
structure material_point (F : Type) where
  type : material_type
  emission : vec3f F
  color : vec3f F
  opacity : F
  roughness : F
deriving DecidableEq, Repr

/-- The arrays of `scene_data` that the renderer indexes. -/
structure scene_data (F : Type) where
  cameras : List (camera_data F)
  instances : List (instance_data F)
  shapes : List shape_data
  materials : List (material_data F)
deriving DecidableEq, Repr

/-- The answer of the intersection oracle (`bvh_intersection`). -/
structure bvh_intersection (F : Type) where
  instance_ : Int
  element : Int
  uv : vec2f F
  distance : F
  hit : Bool
deriving DecidableEq, Repr

/-- Modelled from the spec: the declaration of `raytrace_shader_type` is in
`yocto_raytrace.h`, which is not part of the sources. The eight tags that
`get_shader` names, and `other` for every further value of the enumeration's
underlying integer type. -/
inductive raytrace_shader_type where
  | matcap
  | raytrace
  | matte
  | eyelight
  | normal
  | texcoord
  | color
  | cellshading
  | other (tag : Nat)
deriving DecidableEq, Repr

/-- The fields of `raytrace_params` that the renderer reads. -/
structure raytrace_params where
  camera : Int
  resolution : Int
  shader : raytrace_shader_type
  samples : Int
  bounces : Int
  noparallel : Bool
deriving DecidableEq, Repr

/-- The render state (`raytrace_state`). -/
structure raytrace_state (F R : Type) where
  width : Int
  height : Int
  samples : Int
  image : List (vec4f F)
  hits : List Int
  rngs : List R
deriving DecidableEq, Repr

/-- An image buffer (`color_image`). -/
structure color_image (F : Type) where
  width : Int
  height : Int
  linear : Bool
  pixels : List (vec4f F)
deriving DecidableEq, Repr

/-! ## The library interface -/

/-- What the renderer takes from outside `yocto_raytrace.cpp`: float
arithmetic, the math, sampling and shading routines of the Yocto library, the
random generator, and the scene oracles. `F` is `float`, `R` is `rng_state`,
`B` is `bvh_scene`. -/
structure Lib (F R B : Type) where
  /-- The float with value `m * 10^(-e)`, for a literal such as `0.04`. -/
  dec : Nat → Nat → F
  /-- Conversion of an `int` to `float`. -/
  ofInt : Int → F
  /-- The conversion `(int)round(x)`. -/
  roundi : F → Int
  fadd : F → F → F
  fsub : F → F → F
  fmul : F → F → F
  fdiv : F → F → F
  fneg : F → F
  /-- The comparison `a < b`. -/
  flt : F → F → Bool
  /-- The comparison `a <= b`. -/
  fle : F → F → Bool
  /-- The comparison `a == b`. -/
  feq : F → F → Bool
  /-- The test `isfinite(x)` on one float. -/
  isfinite : F → Bool
  sqrt : F → F
  pow : F → F → F
  fmod : F → F → F
  smoothstep : F → F → F → F
  dot : vec3f F → vec3f F → F
  normalize : vec3f F → vec3f F
  orthonormalize : vec3f F → vec3f F → vec3f F
  reflect : vec3f F → vec3f F → vec3f F
  refract : vec3f F → vec3f F → F → vec3f F
  fresnel_schlick : vec3f F → vec3f F → vec3f F → vec3f F
  sample_hemisphere_cos : vec3f F → vec2f F → vec3f F
  sample_hemisphere_cospower : F → vec3f F → vec2f F → vec3f F
  transform_point : frame3f F → vec3f F → vec3f F
  transform_direction : frame3f F → vec3f F → vec3f F
  /-- The generator `make_rng(seed, seq)`. -/
  make_rng : Int → Int → R
  /-- The draw `rand1i(rng, n)`: the value and the advanced generator. -/
  rand1i : R → Int → Int × R
  /-- The draw `rand1f(rng)`: the value and the advanced generator. -/
  rand1f : R → F × R
  /-- The draw `rand2f(rng)`: the value and the advanced generator. -/
  rand2f : R → vec2f F × R
  intersect_bvh : B → scene_data F → ray3f F → bvh_intersection F
  eval_material : scene_data F → instance_data F → Int → vec2f F → material_point F
  eval_environment : scene_data F → vec3f F → vec3f F
  eval_normal : shape_data → Int → vec2f F → vec3f F
  eval_position : shape_data → Int → vec2f F → vec3f F
  eval_texcoord : shape_data → Int → vec2f F → vec2f F

/-- The read `v[i]` of a vector at an `int` index: `none` outside the
vector. -/
def index? {α : Type} (v : List α) (i : Int) : Option α :=
  if i < 0 then none else v[i.toNat]?

section Vectors

variable {F R B : Type} (L : Lib F R B)

/-- Modelled from the spec: the vector header of the library is not part of
the sources. Componentwise `a - b` on `vec3f`. -/
def sub3 (a b : vec3f F) : vec3f F :=
  ⟨L.fsub a.x b.x, L.fsub a.y b.y, L.fsub a.z b.z⟩

/-- Modelled from the spec: the vector header of the library is not part of
the sources. Componentwise `a + b` on `vec3f`. -/
def add3 (a b : vec3f F) : vec3f F :=
  ⟨L.fadd a.x b.x, L.fadd a.y b.y, L.fadd a.z b.z⟩

/-- Modelled from the spec: the vector header of the library is not part of
the sources. Componentwise `-a` on `vec3f`. -/
def neg3 (a : vec3f F) : vec3f F :=
  ⟨L.fneg a.x, L.fneg a.y, L.fneg a.z⟩

/-- Modelled from the spec: the vector header of the library is not part of
the sources. The comparison `a == b` on `vec3f`, componentwise. -/
def eq3 (a b : vec3f F) : Bool :=
  L.feq a.x b.x && L.feq a.y b.y && L.feq a.z b.z

/-- Modelled from the spec: the vector header of the library is not part of
the sources. Componentwise `a + b` on `vec4f`. -/
def add4 (a b : vec4f F) : vec4f F :=
  ⟨L.fadd a.x b.x, L.fadd a.y b.y, L.fadd a.z b.z, L.fadd a.w b.w⟩

/-- Modelled from the spec: the vector header of the library is not part of
the sources. Componentwise `a * b` on `vec4f`. -/
def mul4 (a b : vec4f F) : vec4f F :=
  ⟨L.fmul a.x b.x, L.fmul a.y b.y, L.fmul a.z b.z, L.fmul a.w b.w⟩

/-- Modelled from the spec: the vector header of the library is not part of
the sources. The product `a * s` of a `vec4f` and a float. -/
def scale4 (a : vec4f F) (s : F) : vec4f F :=
  ⟨L.fmul a.x s, L.fmul a.y s, L.fmul a.z s, L.fmul a.w s⟩

/-- Modelled from the spec: the vector header of the library is not part of
the sources. The product `s * a` of a float and a `vec4f`. -/
def lscale4 (s : F) (a : vec4f F) : vec4f F :=
  ⟨L.fmul s a.x, L.fmul s a.y, L.fmul s a.z, L.fmul s a.w⟩

/-- Modelled from the spec: the vector header of the library is not part of
the sources. The sum `a + s` of a `vec4f` and a float. -/
def offset4 (a : vec4f F) (s : F) : vec4f F :=
  ⟨L.fadd a.x s, L.fadd a.y s, L.fadd a.z s, L.fadd a.w s⟩

/-- Modelled from the spec: the vector header of the library is not part of
the sources. The test `isfinite(a)` on a `vec4f`: every component is
finite. -/
def isfinite4 (a : vec4f F) : Bool :=
  L.isfinite a.x && L.isfinite a.y && L.isfinite a.z && L.isfinite a.w

/-- Modelled from the spec: the colour header of the library is not part of
the sources. `rgb_to_rgba` appends alpha 1. -/
def rgb_to_rgba (a : vec3f F) : vec4f F :=
  ⟨a.x, a.y, a.z, L.ofInt 1⟩

/-- The value `{0, 0, 0, 0}`, also written `{0, 0, 0}` for a `vec4f`. -/
def zero4 : vec4f F :=
  ⟨L.ofInt 0, L.ofInt 0, L.ofInt 0, L.ofInt 0⟩

end Vectors

/-! ## Camera and shaders -/

section Shaders

variable {F R B : Type} (L : Lib F R B)

/-- The ray of `eval_camera` through the image-plane coordinate `uv`. -/
def eval_camera (camera : camera_data F) (uv : vec2f F) : ray3f F :=
  let film : vec2f F :=
    if L.fle (L.ofInt 1) camera.aspect
    then ⟨camera.film, L.fdiv camera.film camera.aspect⟩
    else ⟨L.fmul camera.film camera.aspect, camera.film⟩
  let q := L.transform_point camera.frame
    ⟨L.fmul film.x (L.fsub (L.dec 5 1) uv.x),
     L.fmul film.y (L.fsub uv.y (L.dec 5 1)), camera.lens⟩
  let e := L.transform_point camera.frame ⟨L.ofInt 0, L.ofInt 0, L.ofInt 0⟩
  ⟨e, L.normalize (sub3 L e q)⟩

/-- The signature `raytrace_shader_func`: the generator is passed by
reference, so a shader returns it next to the radiance. -/
abbrev raytrace_shader_func (F R B : Type) : Type :=
  scene_data F → B → ray3f F → Int → R → raytrace_params → Res (vec4f F × R)

/-- The normal that `shade_raytrace` shades with: towards the ray on points,
orthonormalized on lines, flipped to face the ray on triangles. -/
def facing_normal (shape : shape_data) (ray : ray3f F) (normal : vec3f F) : vec3f F :=
  if !shape.points.isEmpty then neg3 L ray.d
  else if !shape.lines.isEmpty then L.orthonormalize (neg3 L ray.d) normal
  else if !shape.triangles.isEmpty then
    (if L.flt (L.dot (neg3 L ray.d) normal) (L.ofInt 0) then neg3 L normal else normal)
  else normal

/-- The statement `barabozzo += weight * <recursive call>` followed by
`return barabozzo`, given how the recursive call ended. -/
def accumulate (barabozzo weight : vec4f F) : Res (vec4f F × R) → Res (vec4f F × R)
  | Res.ok (rad, rng) => Res.ok (add4 L barabozzo (mul4 L weight rad), rng)
  | Res.throw e msg => Res.throw e msg
  | Res.undef => Res.undef
  | Res.timeout => Res.timeout

/-- The statement `barabozzo += <recursive call>` followed by
`return barabozzo`, given how the recursive call ended. -/
def accumulate_plain (barabozzo : vec4f F) : Res (vec4f F × R) → Res (vec4f F × R)
  | Res.ok (rad, rng) => Res.ok (add4 L barabozzo rad, rng)
  | Res.throw e msg => Res.throw e msg
  | Res.undef => Res.undef
  | Res.timeout => Res.timeout

/-- The path tracer `shade_raytrace`. The first argument bounds the nesting of
recursive calls: a call that needs a deeper nesting ends in `timeout`. -/
def shade_raytrace : Nat → raytrace_shader_func F R B
  | 0, _, _, _, _, _, _ => Res.timeout
  | fuel + 1, scene, bvh, ray, bounce, rng, params =>
    let isec := L.intersect_bvh bvh scene ray
    if !isec.hit then
      let ciao := L.eval_environment scene ray.d
      Res.ok (⟨ciao.x, ciao.y, ciao.z, L.ofInt 0⟩, rng)
    else
    match index? scene.instances isec.instance_ with
    | none => Res.undef
    | some inst =>
    let material := L.eval_material scene inst isec.element isec.uv
    match index? scene.shapes inst.shape with
    | none => Res.undef
    | some shape =>
    let normal0 := L.transform_direction inst.frame (L.eval_normal shape isec.element isec.uv)
    let position := L.transform_point inst.frame (L.eval_position shape isec.element isec.uv)
    let radiance := material.emission
    let barabozzo : vec4f F := ⟨radiance.x, radiance.y, radiance.z, L.ofInt 0⟩
    let color := material.color
    let material2 : vec4f F := ⟨color.x, color.y, color.z, L.ofInt 0⟩
    let normal := facing_normal L shape ray normal0
    let (r0, rng1) := L.rand1f rng
    if L.flt r0 (L.fsub (L.ofInt 1) material.opacity) then
      shade_raytrace fuel scene bvh ⟨position, ray.d⟩ (bounce + 1) rng1 params
    else if bounce ≥ params.bounces then
      Res.ok (⟨radiance.x, radiance.y, radiance.z, L.ofInt 0⟩, rng1)
    else if material.type = material_type.matte then
      let (r2, rng2) := L.rand2f rng1
      let incoming := L.sample_hemisphere_cos normal r2
      accumulate L barabozzo (rgb_to_rgba L material.color)
        (shade_raytrace fuel scene bvh ⟨position, incoming⟩ (bounce + 1) rng2 params)
    else if material.type = material_type.reflective
        ∧ L.feq material.roughness (L.ofInt 0) = true then
      let incoming := L.reflect (neg3 L ray.d) normal
      let bla := L.fresnel_schlick material.color normal (neg3 L ray.d)
      let bla2 : vec4f F := ⟨bla.x, bla.y, bla.z, material2.w⟩
      accumulate L barabozzo bla2
        (shade_raytrace fuel scene bvh ⟨position, incoming⟩ (bounce + 1) rng1 params)
    else if material.type = material_type.reflective
        ∧ L.feq material.roughness (L.ofInt 0) = false then
      let exponent := L.fdiv (L.ofInt 2) (L.fmul material.roughness material.roughness)
      let (r2, rng2) := L.rand2f rng1
      let halfway := L.sample_hemisphere_cospower exponent normal r2
      let incoming := L.reflect (neg3 L ray.d) halfway
      let bla := L.fresnel_schlick material.color halfway (neg3 L ray.d)
      let bla2 : vec4f F := ⟨bla.x, bla.y, bla.z, material2.w⟩
      accumulate L barabozzo bla2
        (shade_raytrace fuel scene bvh ⟨position, incoming⟩ (bounce + 1) rng2 params)
    else if material.type = material_type.glossy then
      let exponent := L.fdiv (L.ofInt 2) (L.fmul material.roughness material.roughness)
      let (r2, rng2) := L.rand2f rng1
      let halfway := L.sample_hemisphere_cospower exponent normal r2
      let fresnel : vec3f F := ⟨L.dec 4 2, L.dec 4 2, L.dec 4 2⟩
      let f := L.fresnel_schlick fresnel halfway (neg3 L ray.d)
      let (r3, rng3) := L.rand1f rng2
      if L.flt r3 f.x then
        let incoming := L.reflect (neg3 L ray.d) halfway
        accumulate_plain L barabozzo
          (shade_raytrace fuel scene bvh ⟨position, incoming⟩ (bounce + 1) rng3 params)
      else
        let (r4, rng4) := L.rand2f rng3
        let incoming := L.sample_hemisphere_cos normal r4
        accumulate L barabozzo (rgb_to_rgba L material.color)
          (shade_raytrace fuel scene bvh ⟨position, incoming⟩ (bounce + 1) rng4 params)
    else if material.type = material_type.transparent then
      let fresnel : vec3f F := ⟨L.dec 4 2, L.dec 4 2, L.dec 4 2⟩
      let f := L.fresnel_schlick fresnel normal ray.d
      let (r3, rng3) := L.rand1f rng1
      if L.flt r3 f.x then
        let incoming := L.reflect (neg3 L ray.d) normal
        accumulate_plain L barabozzo
          (shade_raytrace fuel scene bvh ⟨position, incoming⟩ (bounce + 1) rng3 params)
      else
        let incoming := ray.d
        accumulate L barabozzo (rgb_to_rgba L material.color)
          (shade_raytrace fuel scene bvh ⟨position, incoming⟩ (bounce + 1) rng3 params)
    else if material.type = material_type.refractive then
      let fresnel : vec3f F := ⟨L.dec 4 2, L.dec 4 2, L.dec 4 2⟩
      let f := L.fresnel_schlick fresnel normal (neg3 L ray.d)
      let (r3, rng3) := L.rand1f rng1
      if L.flt r3 f.x then
        let incoming := L.reflect (neg3 L ray.d) normal
        accumulate_plain L barabozzo
          (shade_raytrace fuel scene bvh ⟨position, incoming⟩ (bounce + 1) rng3 params)
      else
        let exiting := L.flt (L.dot (neg3 L ray.d) normal) (L.ofInt 0)
        let refraction_ratio :=
          if exiting then L.fdiv (L.dec 10 1) (L.dec 58 2) else L.dec 58 2
        let normale := if exiting then neg3 L normal else normal
        let incoming := L.refract (neg3 L ray.d) normale refraction_ratio
        accumulate L barabozzo material2
          (shade_raytrace fuel scene bvh ⟨position, incoming⟩ (bounce + 1) rng3 params)
    else
      Res.undef

/-- The part of `shade_raytrace` after the opacity test, from
`if (bounce >= params.bounces)` to the end of the function: the depth cutoff
and the dispatch on the material type. `call` is the recursive call,
`material`, `position` and `normal` are the resolved material, the hit
position and the shading normal, and `rng1` is the generator as the opacity
test left it. -/
def shade_surface (call : raytrace_shader_func F R B) (scene : scene_data F) (bvh : B)
    (ray : ray3f F) (bounce : Int) (rng1 : R) (params : raytrace_params)
    (material : material_point F) (position normal : vec3f F) : Res (vec4f F × R) :=
  let radiance := material.emission
  let barabozzo : vec4f F := ⟨radiance.x, radiance.y, radiance.z, L.ofInt 0⟩
  let color := material.color
  let material2 : vec4f F := ⟨color.x, color.y, color.z, L.ofInt 0⟩
  if bounce ≥ params.bounces then
    Res.ok (⟨radiance.x, radiance.y, radiance.z, L.ofInt 0⟩, rng1)
  else if material.type = material_type.matte then
    let (r2, rng2) := L.rand2f rng1
    let incoming := L.sample_hemisphere_cos normal r2
    accumulate L barabozzo (rgb_to_rgba L material.color)
      (call scene bvh ⟨position, incoming⟩ (bounce + 1) rng2 params)
  else if material.type = material_type.reflective
      ∧ L.feq material.roughness (L.ofInt 0) = true then
    let incoming := L.reflect (neg3 L ray.d) normal
    let bla := L.fresnel_schlick material.color normal (neg3 L ray.d)
    let bla2 : vec4f F := ⟨bla.x, bla.y, bla.z, material2.w⟩
    accumulate L barabozzo bla2
      (call scene bvh ⟨position, incoming⟩ (bounce + 1) rng1 params)
  else if material.type = material_type.reflective
      ∧ L.feq material.roughness (L.ofInt 0) = false then
    let exponent := L.fdiv (L.ofInt 2) (L.fmul material.roughness material.roughness)
    let (r2, rng2) := L.rand2f rng1
    let halfway := L.sample_hemisphere_cospower exponent normal r2
    let incoming := L.reflect (neg3 L ray.d) halfway
    let bla := L.fresnel_schlick material.color halfway (neg3 L ray.d)
    let bla2 : vec4f F := ⟨bla.x, bla.y, bla.z, material2.w⟩
    accumulate L barabozzo bla2
      (call scene bvh ⟨position, incoming⟩ (bounce + 1) rng2 params)
  else if material.type = material_type.glossy then
    let exponent := L.fdiv (L.ofInt 2) (L.fmul material.roughness material.roughness)
    let (r2, rng2) := L.rand2f rng1
    let halfway := L.sample_hemisphere_cospower exponent normal r2
    let fresnel : vec3f F := ⟨L.dec 4 2, L.dec 4 2, L.dec 4 2⟩
    let f := L.fresnel_schlick fresnel halfway (neg3 L ray.d)
    let (r3, rng3) := L.rand1f rng2
    if L.flt r3 f.x then
      let incoming := L.reflect (neg3 L ray.d) halfway
      accumulate_plain L barabozzo
        (call scene bvh ⟨position, incoming⟩ (bounce + 1) rng3 params)
    else
      let (r4, rng4) := L.rand2f rng3
      let incoming := L.sample_hemisphere_cos normal r4
      accumulate L barabozzo (rgb_to_rgba L material.color)
        (call scene bvh ⟨position, incoming⟩ (bounce + 1) rng4 params)
  else if material.type = material_type.transparent then
    let fresnel : vec3f F := ⟨L.dec 4 2, L.dec 4 2, L.dec 4 2⟩
    let f := L.fresnel_schlick fresnel normal ray.d
    let (r3, rng3) := L.rand1f rng1
    if L.flt r3 f.x then
      let incoming := L.reflect (neg3 L ray.d) normal
      accumulate_plain L barabozzo
        (call scene bvh ⟨position, incoming⟩ (bounce + 1) rng3 params)
    else
      let incoming := ray.d
      accumulate L barabozzo (rgb_to_rgba L material.color)
        (call scene bvh ⟨position, incoming⟩ (bounce + 1) rng3 params)
  else if material.type = material_type.refractive then
    let fresnel : vec3f F := ⟨L.dec 4 2, L.dec 4 2, L.dec 4 2⟩
    let f := L.fresnel_schlick fresnel normal (neg3 L ray.d)
    let (r3, rng3) := L.rand1f rng1
    if L.flt r3 f.x then
      let incoming := L.reflect (neg3 L ray.d) normal
      accumulate_plain L barabozzo
        (call scene bvh ⟨position, incoming⟩ (bounce + 1) rng3 params)
    else
      let exiting := L.flt (L.dot (neg3 L ray.d) normal) (L.ofInt 0)
      let refraction_ratio :=
        if exiting then L.fdiv (L.dec 10 1) (L.dec 58 2) else L.dec 58 2
      let normale := if exiting then neg3 L normal else normal
      let incoming := L.refract (neg3 L ray.d) normale refraction_ratio
      accumulate L barabozzo material2
        (call scene bvh ⟨position, incoming⟩ (bounce + 1) rng3 params)
  else
    Res.undef

/-- The shader `shade_matte`. -/
def shade_matte : raytrace_shader_func F R B :=
  fun _ _ _ _ rng _ => Res.ok (zero4 L, rng)

/-- The shader `shade_eyelight`. -/
def shade_eyelight : raytrace_shader_func F R B :=
  fun scene bvh ray _ rng _ =>
    let isec := L.intersect_bvh bvh scene ray
    if !isec.hit then Res.ok (zero4 L, rng)
    else
    match index? scene.instances isec.instance_ with
    | none => Res.undef
    | some inst =>
    match index? scene.materials inst.material with
    | none => Res.undef
    | some material =>
    match index? scene.shapes inst.shape with
    | none => Res.undef
    | some shape =>
    let normal := L.transform_direction inst.frame (L.eval_normal shape isec.element isec.uv)
    let barabozzo : vec4f F :=
      ⟨material.color.x, material.color.y, material.color.z, L.ofInt 0⟩
    Res.ok (scale4 L barabozzo (L.dot normal (neg3 L ray.d)), rng)

/-- The shader `shade_normal`. -/
def shade_normal : raytrace_shader_func F R B :=
  fun scene bvh ray _ rng _ =>
    let isec := L.intersect_bvh bvh scene ray
    if !isec.hit then Res.ok (zero4 L, rng)
    else
    match index? scene.instances isec.instance_ with
    | none => Res.undef
    | some inst =>
    match index? scene.shapes inst.shape with
    | none => Res.undef
    | some shape =>
    let normal := L.transform_direction inst.frame (L.eval_normal shape isec.element isec.uv)
    let barabozzo : vec4f F := ⟨normal.x, normal.y, normal.z, L.ofInt 0⟩
    Res.ok (offset4 L (scale4 L barabozzo (L.dec 5 1)) (L.dec 5 1), rng)

/-- The shader `shade_texcoord`; it does not test `isec.hit`. -/
def shade_texcoord : raytrace_shader_func F R B :=
  fun scene bvh ray _ rng _ =>
    let isec := L.intersect_bvh bvh scene ray
    match index? scene.instances isec.instance_ with
    | none => Res.undef
    | some inst =>
    match index? scene.shapes inst.shape with
    | none => Res.undef
    | some shape =>
    let ciao := L.eval_texcoord shape isec.element isec.uv
    let barabozzo := L.fmod ciao.x (L.ofInt 1)
    let barabozzo2 := L.fmod ciao.y (L.ofInt 1)
    Res.ok (⟨barabozzo, barabozzo2, L.ofInt 0, L.ofInt 0⟩, rng)

/-- The shader `shade_color`. -/
def shade_color : raytrace_shader_func F R B :=
  fun scene bvh ray _ rng _ =>
    let isec := L.intersect_bvh bvh scene ray
    if !isec.hit then Res.ok (zero4 L, rng)
    else
    match index? scene.instances isec.instance_ with
    | none => Res.undef
    | some inst =>
    match index? scene.materials inst.material with
    | none => Res.undef
    | some material =>
    Res.ok (⟨material.color.x, material.color.y, material.color.z, L.ofInt 0⟩, rng)

/-- The shader `matcap`. -/
def matcap : raytrace_shader_func F R B :=
  fun scene bvh ray _ rng _ =>
    let isec := L.intersect_bvh bvh scene ray
    if !isec.hit then Res.ok (zero4 L, rng)
    else
    match index? scene.instances isec.instance_ with
    | none => Res.undef
    | some inst =>
    match index? scene.shapes inst.shape with
    | none => Res.undef
    | some shape =>
    let normal := L.transform_direction inst.frame (L.eval_normal shape isec.element isec.uv)
    let material := L.eval_material scene inst isec.element isec.uv
    if isec.element = 0 then Res.ok (rgb_to_rgba L material.color, rng)
    else
    let reflected := L.reflect (neg3 L ray.d) normal
    let m := L.fmul (L.ofInt 2) (L.sqrt (L.fadd (L.fadd
      (L.pow reflected.x (L.ofInt 2)) (L.pow reflected.y (L.ofInt 2)))
      (L.pow (L.fadd reflected.z (L.ofInt 1)) (L.ofInt 2))))
    let ciao := L.fadd
      (L.fdiv (L.fadd (L.fadd reflected.x reflected.y) reflected.z) m) (L.dec 5 1)
    let ciaociao : vec3f F := ⟨ciao, ciao, ciao⟩
    Res.ok (mul4 L (rgb_to_rgba L ciaociao) (rgb_to_rgba L material.color), rng)

/-- The shader `cellshading`. -/
def cellshading : raytrace_shader_func F R B :=
  fun scene bvh ray _ rng _ =>
    let isec := L.intersect_bvh bvh scene ray
    if !isec.hit then Res.ok (zero4 L, rng)
    else
    match index? scene.instances isec.instance_ with
    | none => Res.undef
    | some inst =>
    match index? scene.shapes inst.shape with
    | none => Res.undef
    | some shape =>
    let normal := L.transform_direction inst.frame (L.eval_normal shape isec.element isec.uv)
    match index? scene.materials inst.material with
    | none => Res.undef
    | some material =>
    let position := L.transform_point inst.frame (L.eval_position shape isec.element isec.uv)
    let shadow := L.ofInt 1
    let light : vec3f F := ⟨L.dec 4 1, L.dec 8 1, L.dec 8 1⟩
    let light_color : vec4f F := ⟨L.dec 85 2, L.dec 85 2, L.dec 5 1, L.ofInt 1⟩
    let ambient_color : vec4f F := ⟨L.dec 4 1, L.dec 4 1, L.dec 4 1, L.ofInt 1⟩
    let scalare := L.dot light normal
    let intersezione := L.intersect_bvh bvh scene ⟨position, light⟩
    match index? scene.instances intersezione.instance_ with
    | none => Res.undef
    | some instance2 =>
    match index? scene.materials instance2.material with
    | none => Res.undef
    | some materiale =>
    let zero : vec3f F := ⟨L.ofInt 0, L.ofInt 0, L.ofInt 0⟩
    let light_intensity := L.dec 8 1
    let luce := scale4 L light_color light_intensity
    let specular_color : vec4f F := ⟨L.dec 9 1, L.dec 9 1, L.dec 9 1, L.ofInt 1⟩
    let glossines : Int := 32
    let half_vector := L.normalize (add3 L light (neg3 L ray.d))
    let scalare2 := L.dot normal half_vector
    let specular_intensity :=
      L.pow (L.fmul scalare2 light_intensity) (L.ofInt (glossines * glossines))
    let specular_intensity_smooth :=
      L.smoothstep (L.dec 5 3) (L.dec 1 1) specular_intensity
    let specular := lscale4 L specular_intensity_smooth specular_color
    let rimDot := L.fsub (L.ofInt 1) (L.dot (neg3 L ray.d) normal)
    let RimThreShold := L.dec 1 1
    let RimAmount := L.dec 716 3
    let rimIntensity0 := L.fmul rimDot (L.pow scalare RimThreShold)
    let rim := L.smoothstep (L.fsub RimAmount (L.dec 1 2))
      (L.fadd RimAmount (L.dec 1 2)) rimIntensity0
    let drawn := L.rand1f rng
    let shadowed := intersezione.hit && eq3 L materiale.emission zero
    let shadow1 := if shadowed then drawn.1 else shadow
    let rng1 := if shadowed then drawn.2 else rng
    if isec.element = 0 then
      Res.ok (mul4 L (rgb_to_rgba L material.color) (scale4 L luce shadow1), rng1)
    else
      Res.ok (mul4 L (rgb_to_rgba L material.color)
        (offset4 L (add4 L (add4 L (scale4 L luce shadow1) ambient_color) specular) rim),
        rng1)

/-- The selector `get_shader`: the shader of a recognized tag, and the
exception `std::runtime_error("sampler unknown")` for any other tag. The first
argument is the recursion fuel handed to `shade_raytrace`. -/
def get_shader (fuel : Nat) (params : raytrace_params) : Res (raytrace_shader_func F R B) :=
  match params.shader with
  | raytrace_shader_type.matcap => Res.ok (matcap L)
  | raytrace_shader_type.raytrace => Res.ok (shade_raytrace L fuel)
  | raytrace_shader_type.matte => Res.ok (shade_matte L)
  | raytrace_shader_type.eyelight => Res.ok (shade_eyelight L)
  | raytrace_shader_type.normal => Res.ok (shade_normal L)
  | raytrace_shader_type.texcoord => Res.ok (shade_texcoord L)
  | raytrace_shader_type.color => Res.ok (shade_color L)
  | raytrace_shader_type.cellshading => Res.ok (cellshading L)
  | raytrace_shader_type.other _ => Res.throw exception.runtime_error "sampler unknown"

end Shaders

/-! ## Render state, scheduler and extractor -/

section Renderer

variable {F R B : Type} (L : Lib F R B)

/-- A value computed in 32-bit `int` arithmetic, wrapped to the range of
`int`. -/
def int32 (n : Int) : Int :=
  (n + 2 ^ 31) % 2 ^ 32 - 2 ^ 31

/-- The loop `for (auto& rng : state.rngs) rng = make_rng(961748941ull,
rand1i(rng_, 1 << 31) / 2 + 1)` over `n` slots, `rng_` being the master
generator. -/
def seed_rngs : Nat → R → List R
  | 0, _ => []
  | n + 1, rng_ =>
    let drawn := L.rand1i rng_ (int32 (1 * 2 ^ 31))
    L.make_rng 961748941 (Int.tdiv drawn.1 2 + 1) :: seed_rngs n drawn.2

/-- The initializer `make_state`. The element count `state.width *
state.height` is a product of two `int`s, computed in 32 bits. A negative
element count, converted to `size_t`, makes `vector::assign` throw
`std::length_error`; the text of its message is the standard library's and
stands here as `"vector"`. -/
def make_state (scene : scene_data F) (params : raytrace_params) : Res (raytrace_state F R) :=
  match index? scene.cameras params.camera with
  | none => Res.undef
  | some camera =>
    let width : Int :=
      if L.fle (L.ofInt 1) camera.aspect then params.resolution
      else L.roundi (L.fmul (L.ofInt params.resolution) camera.aspect)
    let height : Int :=
      if L.fle (L.ofInt 1) camera.aspect
      then L.roundi (L.fdiv (L.ofInt params.resolution) camera.aspect)
      else params.resolution
    if int32 (width * height) < 0 then Res.throw exception.length_error "vector"
    else
      let n := (int32 (width * height)).toNat
      Res.ok
        { width := width
          height := height
          samples := 0
          image := List.replicate n (zero4 L)
          hits := List.replicate n 0
          rngs := seed_rngs L n (L.make_rng 1301081 1) }

/-- The part shared by the three loop bodies of `raytrace_samples`, from
`auto ray = eval_camera(camera, {u, v})` to `state.hits[idx] += 1`; `rng` is
`state.rngs[idx]` as the jitter draws left it. -/
def trace_pixel (shader : raytrace_shader_func F R B) (scene : scene_data F) (bvh : B)
    (camera : camera_data F) (params : raytrace_params) (idx : Nat) (uv : vec2f F) (rng : R)
    (state : raytrace_state F R) : Res Unit × raytrace_state F R :=
  let ray := eval_camera L camera uv
  match shader scene bvh ray 0 rng params with
  | Res.ok (radiance, rng1) =>
    let radiance1 := if !isfinite4 L radiance then zero4 L else radiance
    match state.image[idx]?, state.hits[idx]? with
    | some pixel, some count =>
      (Res.ok (),
        { state with
          rngs := state.rngs.set idx rng1
          image := state.image.set idx (add4 L pixel radiance1)
          hits := state.hits.set idx (count + 1) })
    | _, _ => (Res.undef, state)
  | Res.throw e msg => (Res.throw e msg, state)
  | Res.undef => (Res.undef, state)
  | Res.timeout => (Res.timeout, state)

/-- The loop body of the branch `params.samples == 1`: the pixel is sampled at
its centre. -/
def pixel_center (shader : raytrace_shader_func F R B) (scene : scene_data F) (bvh : B)
    (camera : camera_data F) (params : raytrace_params) (idx : Nat)
    (state : raytrace_state F R) : Res Unit × raytrace_state F R :=
  match state.rngs[idx]? with
  | none => (Res.undef, state)
  | some rng =>
    let i := Int.tmod idx state.width
    let j := Int.tdiv idx state.width
    let u := L.fdiv (L.fadd (L.ofInt i) (L.dec 5 1)) (L.ofInt state.width)
    let v := L.fdiv (L.fadd (L.ofInt j) (L.dec 5 1)) (L.ofInt state.height)
    trace_pixel L shader scene bvh camera params idx ⟨u, v⟩ rng state

/-- The loop body of the other two branches: the pixel is sampled at a
position jittered by two draws from its own generator. -/
def pixel_jitter (shader : raytrace_shader_func F R B) (scene : scene_data F) (bvh : B)
    (camera : camera_data F) (params : raytrace_params) (idx : Nat)
    (state : raytrace_state F R) : Res Unit × raytrace_state F R :=
  match state.rngs[idx]? with
  | none => (Res.undef, state)
  | some rng =>
    let i := Int.tmod idx state.width
    let j := Int.tdiv idx state.width
    let du := L.rand1f rng
    let u := L.fdiv (L.fadd (L.ofInt i) du.1) (L.ofInt state.width)
    let dv := L.rand1f du.2
    let v := L.fdiv (L.fadd (L.ofInt j) dv.1) (L.ofInt state.height)
    trace_pixel L shader scene bvh camera params idx ⟨u, v⟩ dv.2 state

/-- Running a loop body on the pixel indices of a list, in the order of the
list; the first body that does not return ends the loop. -/
def for_pixels (body : Nat → raytrace_state F R → Res Unit × raytrace_state F R) :
    List Nat → raytrace_state F R → Res Unit × raytrace_state F R
  | [], state => (Res.ok (), state)
  | idx :: rest, state =>
    match body idx state with
    | (Res.ok (), state1) => for_pixels body rest state1
    | other => other

/-- Modelled from the spec: `parallel_for` is in a header that is not part of
the sources. The order in which a data-parallel fan-out over `n` indices runs
its bodies: some arrangement of `0, ..., n - 1`, with no guarantee on which. -/
structure Scheduler where
  order : Nat → List Nat
  perm : ∀ n, (order n).Perm (List.range n)

/-- The scheduler `raytrace_samples`. `sched` is the order `parallel_for`
happens to take and `fuel` the recursion fuel handed to `shade_raytrace`. The
bound `state.width * state.height` of the three loops is a product of two
`int`s, computed in 32 bits. -/
def raytrace_samples (sched : Scheduler) (fuel : Nat) (state : raytrace_state F R)
    (scene : scene_data F) (bvh : B) (params : raytrace_params) :
    Res Unit × raytrace_state F R :=
  if state.samples ≥ params.samples then (Res.ok (), state)
  else
    match index? scene.cameras params.camera with
    | none => (Res.undef, state)
    | some camera =>
      match get_shader L fuel params with
      | Res.throw e msg => (Res.throw e msg, state)
      | Res.undef => (Res.undef, state)
      | Res.timeout => (Res.timeout, state)
      | Res.ok shader =>
        let state1 := { state with samples := state.samples + 1 }
        let n := (int32 (state1.width * state1.height)).toNat
        if params.samples = 1 then
          for_pixels (pixel_center L shader scene bvh camera params) (List.range n) state1
        else if params.noparallel then
          for_pixels (pixel_jitter L shader scene bvh camera params) (List.range n) state1
        else
          for_pixels (pixel_jitter L shader scene bvh camera params) (sched.order n) state1

/-- The check `check_image`. -/
def check_image (image : color_image F) (width height : Int) (linear : Bool) : Res Unit :=
  if image.width ≠ width ∨ image.height ≠ height then
    Res.throw exception.invalid_argument "image should have the same size"
  else if image.linear ≠ linear then
    Res.throw exception.invalid_argument
      (if linear then "expected linear image" else "expected srgb image")
  else Res.ok ()

/-- The loop of the in-place `get_render` over the indices of a list:
`image.pixels[idx] = state.image[idx] * scale`. -/
def write_pixels (scale : F) (state : raytrace_state F R) :
    List Nat → color_image F → Res Unit × color_image F
  | [], image => (Res.ok (), image)
  | idx :: rest, image =>
    match state.image[idx]? with
    | none => (Res.undef, image)
    | some pixel =>
      if idx < image.pixels.length then
        write_pixels scale state rest
          { image with pixels := image.pixels.set idx (scale4 L pixel scale) }
      else (Res.undef, image)

/-- The in-place overload `get_render(image, state)`; the loop bound
`state.width * state.height` is a product of two `int`s, computed in 32
bits. -/
def get_render_inplace (image : color_image F) (state : raytrace_state F R) :
    Res Unit × color_image F :=
  match check_image image state.width state.height true with
  | Res.throw e msg => (Res.throw e msg, image)
  | Res.undef => (Res.undef, image)
  | Res.timeout => (Res.timeout, image)
  | Res.ok () =>
    let scale := L.fdiv (L.dec 10 1) (L.ofInt state.samples)
    write_pixels L scale state (List.range (int32 (state.width * state.height)).toNat) image

/-- Modelled from the spec: the image header of the library is not part of the
sources. `make_image(width, height, linear)` is an image of that size and tag
with `width * height` zero pixels, the count being a product of two `int`s as
in `make_state`; a negative count makes the vector constructor throw
`std::length_error`. -/
def make_image (width height : Int) (linear : Bool) : Res (color_image F) :=
  if int32 (width * height) < 0 then Res.throw exception.length_error "vector"
  else
    Res.ok
      { width := width
        height := height
        linear := linear
        pixels := List.replicate (int32 (width * height)).toNat (zero4 L) }

/-- The overload `get_render(state)` that returns a new image. -/
def get_render (state : raytrace_state F R) : Res (color_image F) :=
  match make_image L state.width state.height true with
  | Res.throw e msg => Res.throw e msg
  | Res.undef => Res.undef
  | Res.timeout => Res.timeout
  | Res.ok image =>
    match get_render_inplace L image state with
    | (Res.ok (), image1) => Res.ok image1
    | (Res.throw e msg, _) => Res.throw e msg
    | (Res.undef, _) => Res.undef
    | (Res.timeout, _) => Res.timeout

/-- The state after `k` calls of `raytrace_samples` from `state`, when each of
them returned; `scheds j` is the order `parallel_for` happens to take in the
call after which `j` calls remain. -/
def raytrace_calls (scheds : Nat → Scheduler) (fuel : Nat) (scene : scene_data F) (bvh : B)
    (params : raytrace_params) : Nat → raytrace_state F R → Res (raytrace_state F R)
  | 0, state => Res.ok state
  | k + 1, state =>
    match raytrace_samples L (scheds k) fuel state scene bvh params with
    | (Res.ok (), state1) => raytrace_calls scheds fuel scene bvh params k state1
    | (Res.throw e msg, _) => Res.throw e msg
    | (Res.undef, _) => Res.undef
    | (Res.timeout, _) => Res.timeout

end Renderer

/-! ## Per-pixel view of the scheduler -/

section Slots

variable {F R B : Type} (L : Lib F R B)

/-- The sample that a loop body of `raytrace_samples` adds to pixel `idx` of a
`width` by `height` state whose generator for the pixel is `rng`: the shader's
radiance for the pixel's ray, black when it is not finite, and the generator
as the body leaves it. With `jitter` the ray goes through a jittered position
(the second and third loop), without it through the pixel centre (the first
loop). -/
def pixel_sample (jitter : Bool) (shader : raytrace_shader_func F R B) (scene : scene_data F)
    (bvh : B) (camera : camera_data F) (params : raytrace_params) (width height : Int)
    (idx : Nat) (rng : R) : Res (vec4f F × R) :=
  let i := Int.tmod idx width
  let j := Int.tdiv idx width
  let du := L.rand1f rng
  let dv := L.rand1f du.2
  let u := L.fdiv (L.fadd (L.ofInt i) (if jitter then du.1 else L.dec 5 1)) (L.ofInt width)
  let v := L.fdiv (L.fadd (L.ofInt j) (if jitter then dv.1 else L.dec 5 1)) (L.ofInt height)
  match shader scene bvh (eval_camera L camera ⟨u, v⟩) 0 (if jitter then dv.2 else rng) params with
  | Res.ok (radiance, rng1) =>
    Res.ok (if !isfinite4 L radiance then zero4 L else radiance, rng1)
  | Res.throw e msg => Res.throw e msg
  | Res.undef => Res.undef
  | Res.timeout => Res.timeout

/-- The three per-pixel values of a state at index `i`, when all three vectors
reach that far. -/
def slot {F R : Type} (state : raytrace_state F R) (i : Nat) : Option (vec4f F × Int × R) :=
  match state.image[i]?, state.hits[i]?, state.rngs[i]? with
  | some pixel, some count, some rng => some (pixel, count, rng)
  | _, _, _ => none

/-- Writing three per-pixel values at index `i`. -/
def put {F R : Type} (state : raytrace_state F R) (i : Nat) (v : vec4f F × Int × R) :
    raytrace_state F R :=
  { state with
    rngs := state.rngs.set i v.2.2
    image := state.image.set i v.1
    hits := state.hits.set i v.2.1 }

/-- The per-pixel values after one sample `f i rng` has been accumulated. -/
def slot_next (f : Nat → R → Res (vec4f F × R)) (i : Nat) (v : vec4f F × Int × R) :
    Option (vec4f F × Int × R) :=
  match f i v.2.2 with
  | Res.ok (radiance, rng1) => some (add4 L v.1 radiance, v.2.1 + 1, rng1)
  | _ => none

/-- The master generator `rng_` of `make_state` after `k` further iterations of
the seeding loop, each of which draws once from it. -/
def master_after : Nat → R → R
  | 0, rng_ => rng_
  | k + 1, rng_ => master_after k (L.rand1i rng_ (int32 (1 * 2 ^ 31))).2

/-- The generator that the seeding loop of `make_state` assigns to the slot of
linear index `k`: a function of the two seed constants and of `k` alone. -/
def pixel_rng (k : Nat) : R :=
  L.make_rng 961748941
    (Int.tdiv (L.rand1i (master_after L k (L.make_rng 1301081 1)) (int32 (1 * 2 ^ 31))).1 2 + 1)

/-- Two states have the same width and height and per-pixel vectors of the
same lengths. -/
def same_shape {F R : Type} (s s1 : raytrace_state F R) : Prop :=
  s1.width = s.width ∧ s1.height = s.height ∧ s1.image.length = s.image.length ∧
    s1.hits.length = s.hits.length ∧ s1.rngs.length = s.rngs.length

/-- The size invariant of a render state: the three per-pixel vectors have
exactly as many elements as the `int` product `width * height` says. -/
def sized {F R : Type} (s : raytrace_state F R) : Prop :=
  s.image.length = (int32 (s.width * s.height)).toNat ∧
    s.hits.length = (int32 (s.width * s.height)).toNat ∧
    s.rngs.length = (int32 (s.width * s.height)).toNat

/-- The raster coordinates `i = idx % state.width` and `j = idx / state.width`
that the loop bodies of `raytrace_samples` compute for the pixel index `idx`,
with the truncating division and remainder of C. -/
def pixel_coords (width : Int) (idx : Nat) : Int × Int :=
  (Int.tmod idx width, Int.tdiv idx width)

/-- The loop body of a branch of `raytrace_samples`: `pixel_jitter` with
`jitter`, `pixel_center` without. -/
def pixel_body (jitter : Bool) (shader : raytrace_shader_func F R B) (scene : scene_data F)
    (bvh : B) (camera : camera_data F) (params : raytrace_params) :
    Nat → raytrace_state F R → Res Unit × raytrace_state F R :=
  if jitter then pixel_jitter L shader scene bvh camera params
  else pixel_center L shader scene bvh camera params

/-- The order in which a call of `raytrace_samples` on `n` pixels runs its loop
bodies: index order in the first two branches, the order of the schedule in
the third. -/
def pixel_order (sched : Scheduler) (params : raytrace_params) (n : Nat) : List Nat :=
  if params.samples = 1 then List.range n
  else if params.noparallel then List.range n
  else sched.order n

end Slots

/-! ## A concrete library -/

/-- A library over the integers: exact integer arithmetic stands for float
arithmetic, a counter for the generator, and the intersection oracle reports a
hit on instance 0 for every ray whose direction has a negative `z`. -/
def intLib : Lib Int Nat Unit where
  dec := fun m e => (m : Int) / (10 : Int) ^ e
  ofInt := fun n => n
  roundi := fun x => x
  fadd := fun a b => a + b
  fsub := fun a b => a - b
  fmul := fun a b => a * b
  fdiv := fun a b => Int.tdiv a b
  fneg := fun a => -a
  flt := fun a b => decide (a < b)
  fle := fun a b => decide (a ≤ b)
  feq := fun a b => decide (a = b)
  isfinite := fun _ => true
  sqrt := fun a => a
  pow := fun a b => a ^ b.toNat
  fmod := fun a b => Int.tmod a b
  smoothstep := fun a b x => if x ≤ a then 0 else if b ≤ x then 1 else 0
  dot := fun a b => a.x * b.x + a.y * b.y + a.z * b.z
  normalize := fun a => a
  orthonormalize := fun a _ => a
  reflect := fun w n => ⟨-w.x + 2 * n.x, -w.y + 2 * n.y, -w.z + 2 * n.z⟩
  refract := fun w _ _ => ⟨-w.x, -w.y, -w.z⟩
  fresnel_schlick := fun s _ _ => s
  sample_hemisphere_cos := fun n _ => n
  sample_hemisphere_cospower := fun _ n _ => n
  transform_point := fun f p => ⟨p.x + f.o.x, p.y + f.o.y, p.z + f.o.z⟩
  transform_direction := fun _ d => d
  make_rng := fun seed seq => (seed + seq).toNat
  rand1i := fun rng n => (Int.tmod rng n, rng + 1)
  rand1f := fun rng => (0, rng + 1)
  rand2f := fun rng => (⟨0, 0⟩, rng + 1)
  intersect_bvh := fun _ _ ray =>
    if ray.d.z < 0 then ⟨0, 1, ⟨0, 0⟩, 1, true⟩ else ⟨-1, -1, ⟨0, 0⟩, 0, false⟩
  eval_material := fun scene inst _ _ =>
    match index? scene.materials inst.material with
    | some m => ⟨m.type, m.emission, m.color, 1, 0⟩
    | none => ⟨material_type.matte, ⟨0, 0, 0⟩, ⟨0, 0, 0⟩, 1, 0⟩
  eval_environment := fun _ d => d
  eval_normal := fun _ _ _ => ⟨0, 0, 1⟩
  eval_position := fun _ _ _ => ⟨0, 0, -1⟩
  eval_texcoord := fun _ _ uv => uv

/-- The identity frame. -/
def intFrame : frame3f Int :=
  ⟨⟨1, 0, 0⟩, ⟨0, 1, 0⟩, ⟨0, 0, 1⟩, ⟨0, 0, 0⟩⟩

/-- A scene with one square camera and one triangle instance whose material
has emission `(5, 6, 7)` and colour `(2, 4, 6)`. -/
def intScene : scene_data Int :=
  { cameras := [⟨intFrame, 1, 1, 1⟩]
    instances := [⟨intFrame, 0, 0⟩]
    shapes := [⟨[], [], [(0, 1, 2)]⟩]
    materials := [⟨material_type.matte, ⟨5, 6, 7⟩, ⟨2, 4, 6⟩, 1, 0⟩] }

/-- Parameters for the scene `intScene`: a 2 by 2 image. -/
def intParams (shader : raytrace_shader_type) (samples bounces : Int) (noparallel : Bool) :
    raytrace_params :=
  { camera := 0
    resolution := 2
    shader := shader
    samples := samples
    bounces := bounces
    noparallel := noparallel }

/-- The state that `make_state` returns for `intScene` and `intParams`. -/
def intState : raytrace_state Int Nat :=
  { width := 2
    height := 2
    samples := 0
    image := List.replicate 4 ⟨0, 0, 0, 0⟩
    hits := List.replicate 4 0
    rngs := [962399483, 962399483, 962399484, 962399484] }

/-- The state `intState` after one sample of the colour shader. -/
def intStateColor : raytrace_state Int Nat :=
  { width := 2
    height := 2
    samples := 1
    image := List.replicate 4 ⟨2, 4, 6, 0⟩
    hits := List.replicate 4 1
    rngs := [962399483, 962399483, 962399484, 962399484] }

/-- The state `intState` after two jittered samples of the colour shader: each
sample draws twice from the generator of its pixel. -/
def intStateTwo : raytrace_state Int Nat :=
  { width := 2
    height := 2
    samples := 2
    image := List.replicate 4 ⟨4, 8, 12, 0⟩
    hits := List.replicate 4 2
    rngs := [962399487, 962399487, 962399488, 962399488] }

/-- A library in fixed point with three decimals: the integer `n` stands for
the float `n / 1000`, so `fmod` is the truncated remainder of C and the
literals `0.04` and `0.58` are exact. The scene is a stack of horizontal
planes, one per instance, at the height `frame.o.z` of the instance: a ray
with negative `z` direction hits the first plane of the list that lies
strictly below its origin, with the `x` and `y` of the origin as surface
coordinates. A plane's normal points up, or down when the first triangle of
its shape is wound backwards. Draws of `rand1f` are the generator state
modulo 1000, in thousandths. -/
def milliLib : Lib Int Nat Unit where
  dec := fun m e => ((m : Int) * 1000) / (10 : Int) ^ e
  ofInt := fun n => 1000 * n
  roundi := fun x => (x + 500) / 1000
  fadd := fun a b => a + b
  fsub := fun a b => a - b
  fmul := fun a b => Int.tdiv (a * b) 1000
  fdiv := fun a b => Int.tdiv (a * 1000) b
  fneg := fun a => -a
  flt := fun a b => decide (a < b)
  fle := fun a b => decide (a ≤ b)
  feq := fun a b => decide (a = b)
  isfinite := fun _ => true
  sqrt := fun a => a
  pow := fun a _ => a
  fmod := fun a b => Int.tmod a b
  smoothstep := fun a b x => if x ≤ a then 0 else if b ≤ x then 1000 else 500
  dot := fun a b => Int.tdiv (a.x * b.x + a.y * b.y + a.z * b.z) 1000
  normalize := fun a => a
  orthonormalize := fun a _ => a
  reflect := fun w n =>
    let c := Int.tdiv (n.x * w.x + n.y * w.y + n.z * w.z) 1000
    ⟨-w.x + Int.tdiv (2 * c * n.x) 1000, -w.y + Int.tdiv (2 * c * n.y) 1000,
      -w.z + Int.tdiv (2 * c * n.z) 1000⟩
  refract := fun w _ _ => ⟨-w.x, -w.y, -w.z⟩
  fresnel_schlick := fun s _ _ => s
  sample_hemisphere_cos := fun n _ => n
  sample_hemisphere_cospower := fun _ n _ => n
  transform_point := fun f p => ⟨p.x + f.o.x, p.y + f.o.y, p.z + f.o.z⟩
  transform_direction := fun _ d => d
  make_rng := fun seed seq => (seed + seq).toNat
  rand1i := fun rng n => (Int.tmod rng n, rng + 1)
  rand1f := fun rng => (((rng % 1000 : Nat) : Int), rng + 1)
  rand2f := fun rng => (⟨((rng % 1000 : Nat) : Int), (((rng + 1) % 1000 : Nat) : Int)⟩, rng + 2)
  intersect_bvh := fun _ scene ray =>
    if ray.d.z < 0 then
      match scene.instances.findIdx? (fun inst => decide (inst.frame.o.z < ray.o.z)) with
      | some i => ⟨(i : Int), 1, ⟨ray.o.x, ray.o.y⟩, 1000, true⟩
      | none => ⟨-1, -1, ⟨0, 0⟩, 0, false⟩
    else ⟨-1, -1, ⟨0, 0⟩, 0, false⟩
  eval_material := fun scene inst _ _ =>
    match index? scene.materials inst.material with
    | some m => ⟨m.type, m.emission, m.color, m.opacity, m.roughness⟩
    | none => ⟨material_type.matte, ⟨0, 0, 0⟩, ⟨0, 0, 0⟩, 1000, 0⟩
  eval_environment := fun _ d => d
  eval_normal := fun shape _ _ =>
    match shape.triangles with
    | (_, b, c) :: _ => if b < c then ⟨0, 0, 1000⟩ else ⟨0, 0, -1000⟩
    | [] => ⟨0, 0, 1000⟩
  eval_position := fun _ _ uv => ⟨uv.x, uv.y, 0⟩
  eval_texcoord := fun _ _ uv => uv

/-- The frame with the coordinate axes as axes and origin `(0, 0, z)`, in
thousandths. -/
def milliFrame (z : Int) : frame3f Int :=
  ⟨⟨1000, 0, 0⟩, ⟨0, 1000, 0⟩, ⟨0, 0, 1000⟩, ⟨0, 0, z⟩⟩

/-- Three planes at heights -1, -2 and -3 that share one material of opacity 0
and emission 0.1: every hit takes the opacity skip. -/
def glassScene : scene_data Int :=
  { cameras := [⟨milliFrame 0, 50, 36, 1000⟩]
    instances := [⟨milliFrame (-1000), 0, 0⟩, ⟨milliFrame (-2000), 0, 0⟩,
      ⟨milliFrame (-3000), 0, 0⟩]
    shapes := [⟨[], [], [(0, 1, 2)]⟩]
    materials := [⟨material_type.matte, ⟨100, 100, 100⟩, ⟨500, 500, 500⟩, 0, 0⟩] }

/-- One opaque plane at height -1 whose triangle is wound backwards, so that
its normal `(0, 0, -1)` faces away from a ray that comes down from above; the
material has the given type, emission 0.1 and colour `(0.2, 0.4, 0.6)`. -/
def backScene (type : material_type) : scene_data Int :=
  { cameras := [⟨milliFrame 0, 50, 36, 1000⟩]
    instances := [⟨milliFrame (-1000), 0, 0⟩]
    shapes := [⟨[], [], [(0, 2, 1)]⟩]
    materials := [⟨type, ⟨100, 100, 100⟩, ⟨200, 400, 600⟩, 1000, 0⟩] }

/-- The square root of a rational number whose numerator and denominator are
perfect squares (the integer square roots are taken otherwise). -/
def ratSqrt (q : ℚ) : ℚ :=
  (Nat.sqrt q.num.toNat : ℚ) / (Nat.sqrt q.den : ℚ)

/-- The rational number `q` rounded towards zero. -/
def ratTrunc (q : ℚ) : Int :=
  if 0 ≤ q then Rat.floor q else -Rat.floor (-q)

/-- The dot product of two rational vectors. -/
def ratDot (a b : vec3f ℚ) : ℚ :=
  a.x * b.x + a.y * b.y + a.z * b.z

/-- The library routine `normalize` on rational vectors: the vector divided by
its length, and the vector itself when the length is 0. -/
def ratNormalize (v : vec3f ℚ) : vec3f ℚ :=
  if ratSqrt (ratDot v v) = 0 then v
  else ⟨v.x / ratSqrt (ratDot v v), v.y / ratSqrt (ratDot v v), v.z / ratSqrt (ratDot v v)⟩

/-- A library in exact rational arithmetic, with the vector routines of the
Yocto library computed exactly (square roots as `ratSqrt`, the hemisphere
samplers returning the axis of their lobe) and the scene of planes of
`milliLib`. -/
def ratLib : Lib ℚ Nat Unit where
  dec := fun m e => (m : ℚ) / (10 : ℚ) ^ e
  ofInt := fun n => (n : ℚ)
  roundi := fun x => if 0 ≤ x then Rat.floor (x + 1 / 2) else -Rat.floor (-x + 1 / 2)
  fadd := fun a b => a + b
  fsub := fun a b => a - b
  fmul := fun a b => a * b
  fdiv := fun a b => a / b
  fneg := fun a => -a
  flt := fun a b => decide (a < b)
  fle := fun a b => decide (a ≤ b)
  feq := fun a b => decide (a = b)
  isfinite := fun _ => true
  sqrt := ratSqrt
  pow := fun a b => a ^ (Rat.floor b).toNat
  fmod := fun a b => a - (ratTrunc (a / b) : ℚ) * b
  smoothstep := fun a b x =>
    max 0 (min 1 ((x - a) / (b - a))) * max 0 (min 1 ((x - a) / (b - a)))
      * (3 - 2 * max 0 (min 1 ((x - a) / (b - a))))
  dot := ratDot
  normalize := ratNormalize
  orthonormalize := fun a b =>
    ratNormalize ⟨a.x - b.x * ratDot a b, a.y - b.y * ratDot a b, a.z - b.z * ratDot a b⟩
  reflect := fun w n =>
    ⟨-w.x + 2 * ratDot n w * n.x, -w.y + 2 * ratDot n w * n.y, -w.z + 2 * ratDot n w * n.z⟩
  refract := fun w n eta =>
    if 1 - eta * eta * max 0 (1 - ratDot n w * ratDot n w) < 0 then ⟨0, 0, 0⟩
    else
      ⟨-w.x * eta
          + (eta * ratDot n w
            - ratSqrt (1 - eta * eta * max 0 (1 - ratDot n w * ratDot n w))) * n.x,
        -w.y * eta
          + (eta * ratDot n w
            - ratSqrt (1 - eta * eta * max 0 (1 - ratDot n w * ratDot n w))) * n.y,
        -w.z * eta
          + (eta * ratDot n w
            - ratSqrt (1 - eta * eta * max 0 (1 - ratDot n w * ratDot n w))) * n.z⟩
  fresnel_schlick := fun s n w =>
    ⟨s.x + (1 - s.x) * max 0 (min 1 (1 - |ratDot n w|)) ^ 5,
      s.y + (1 - s.y) * max 0 (min 1 (1 - |ratDot n w|)) ^ 5,
      s.z + (1 - s.z) * max 0 (min 1 (1 - |ratDot n w|)) ^ 5⟩
  sample_hemisphere_cos := fun n _ => n
  sample_hemisphere_cospower := fun _ n _ => n
  transform_point := fun f p =>
    ⟨f.x.x * p.x + f.y.x * p.y + f.z.x * p.z + f.o.x,
      f.x.y * p.x + f.y.y * p.y + f.z.y * p.z + f.o.y,
      f.x.z * p.x + f.y.z * p.y + f.z.z * p.z + f.o.z⟩
  transform_direction := fun f d =>
    ratNormalize
      ⟨f.x.x * d.x + f.y.x * d.y + f.z.x * d.z, f.x.y * d.x + f.y.y * d.y + f.z.y * d.z,
        f.x.z * d.x + f.y.z * d.y + f.z.z * d.z⟩
  make_rng := fun seed seq => (seed + seq).toNat
  rand1i := fun rng n => (Int.tmod rng n, rng + 1)
  rand1f := fun rng => (((rng % 1000 : Nat) : ℚ) / 1000, rng + 1)
  rand2f := fun rng =>
    (⟨((rng % 1000 : Nat) : ℚ) / 1000, (((rng + 1) % 1000 : Nat) : ℚ) / 1000⟩, rng + 2)
  intersect_bvh := fun _ scene ray =>
    if ray.d.z < 0 then
      match scene.instances.findIdx? (fun inst => decide (inst.frame.o.z < ray.o.z)) with
      | some i => ⟨(i : Int), 1, ⟨ray.o.x, ray.o.y⟩, 1, true⟩
      | none => ⟨-1, -1, ⟨0, 0⟩, 0, false⟩
    else ⟨-1, -1, ⟨0, 0⟩, 0, false⟩
  eval_material := fun scene inst _ _ =>
    match index? scene.materials inst.material with
    | some m => ⟨m.type, m.emission, m.color, m.opacity, m.roughness⟩
    | none => ⟨material_type.matte, ⟨0, 0, 0⟩, ⟨0, 0, 0⟩, 1, 0⟩
  eval_environment := fun _ d => d
  eval_normal := fun shape _ _ =>
    match shape.triangles with
    | (_, b, c) :: _ => if b < c then ⟨0, 0, 1⟩ else ⟨0, 0, -1⟩
    | [] => ⟨0, 0, 1⟩
  eval_position := fun _ _ uv => ⟨uv.x, uv.y, 0⟩
  eval_texcoord := fun _ _ uv => uv

/-- A camera at `(1, 2, 3)` with an orthonormal frame that looks along the
negative `y` axis, lens 0.05, film 0.036 and aspect ratio 1. -/
def ratCamera : camera_data ℚ :=
  { frame := ⟨⟨1, 0, 0⟩, ⟨0, 0, -1⟩, ⟨0, 1, 0⟩, ⟨1, 2, 3⟩⟩
    lens := 1 / 20
    film := 9 / 250
    aspect := 1 }

/-! ## Binary32 arithmetic -/

/-- The number of binary digits of `n`, for `n` below `2^512`: the position of
the leading digit is found by halving the range nine times. -/
def bit_length (n : Nat) : Nat :=
  if n = 0 then 0
  else
    ([256, 128, 64, 32, 16, 8, 4, 2, 1].foldl
      (fun (p : Nat × Nat) (k : Nat) => if 2 ^ k ≤ p.1 then (p.1 / 2 ^ k, p.2 + k) else p)
      (n, 0)).2 + 1

/-- Rounding to IEEE 754 binary32, to nearest with ties to even. Every finite
binary32 value is an integer multiple of `2^-149`, and the natural number `n`
stands for the magnitude `n * 2^-149`. `round32 num den` is the binary32
magnitude nearest to the rational `num / den` in these units: the quotient is
cut to 24 binary digits, `s` being the number of digits dropped, and the
remainder decides the last digit. The exponent is not bounded above: overflow
to infinity is not modelled. -/
def round32 (num den : Nat) : Nat :=
  let s := bit_length (num / den) - 24
  let d := den * 2 ^ s
  let c := num / d
  let r := num % d
  if 2 * r < d then c * 2 ^ s
  else if d < 2 * r then (c + 1) * 2 ^ s
  else if c % 2 = 0 then c * 2 ^ s
  else (c + 1) * 2 ^ s

/-- The binary32 value nearest to the rational `num / den`, in units of
`2^-149`; the rounding is symmetric in the sign. -/
def f32 (num : Int) (den : Nat) : Int :=
  if num < 0 then -((round32 num.natAbs den : Nat) : Int)
  else ((round32 num.natAbs den : Nat) : Int)

/-- Newton's iteration for the integer square root, from a start `x` above the
root: the iterates decrease until the root is reached. -/
def isqrt_loop : Nat → Nat → Nat → Nat
  | 0, _, x => x
  | fuel + 1, n, x => if (x + n / x) / 2 < x then isqrt_loop fuel n ((x + n / x) / 2) else x

/-- The integer square root of `n`, for `n` below `2^512`. -/
def isqrt (n : Nat) : Nat :=
  if n = 0 then 0 else isqrt_loop 32 n (2 ^ ((bit_length n + 1) / 2))

/-- The binary32 magnitude nearest to the square root of the magnitude `a`,
both in units of `2^-149`: the root of `a * 2^149` is cut to 24 binary digits
and the comparison of `4 * n` with `(2 * c + 1)^2 * 4^s` decides the last
digit. -/
def sqrt32 (a : Nat) : Nat :=
  let n := a * 2 ^ 149
  let s := bit_length (isqrt n) - 24
  let c := isqrt (n / 4 ^ s)
  if 4 * n < (2 * c + 1) * (2 * c + 1) * 4 ^ s then c * 2 ^ s
  else if (2 * c + 1) * (2 * c + 1) * 4 ^ s < 4 * n then (c + 1) * 2 ^ s
  else if c % 2 = 0 then c * 2 ^ s
  else (c + 1) * 2 ^ s

/-- The binary32 sum `a + b`. -/
def f32_add (a b : Int) : Int := f32 (a + b) 1

/-- The binary32 product `a * b`. -/
def f32_mul (a b : Int) : Int := f32 (a * b) (2 ^ 149)

/-- The binary32 quotient `a / b`; a division by zero, which IEEE 754 answers
with an infinity or a NaN, is not modelled. -/
def f32_div (a b : Int) : Int :=
  if b = 0 then 0 else f32 (a * ((2 ^ 149 : Nat) : Int) * Int.sign b) b.natAbs

/-- The binary32 square root; the root of a negative number, a NaN in IEEE
754, is not modelled. -/
def f32_sqrt (a : Int) : Int :=
  if a < 0 then 0 else ((sqrt32 a.natAbs : Nat) : Int)

/-- The dot product of the Yocto library in binary32,
`a.x * b.x + a.y * b.y + a.z * b.z`, each operation rounded on its own. -/
def f32_dot (a b : vec3f Int) : Int :=
  f32_add (f32_add (f32_mul a.x b.x) (f32_mul a.y b.y)) (f32_mul a.z b.z)

/-- A library in IEEE 754 binary32 arithmetic, over the finite values: the
integer `n` stands for the float `n * 2^-149`, and sums, differences,
products, quotients and square roots are rounded to nearest, ties to even.
Modelled from the Yocto math library, which is not part of the sources:
`transform_point(a, b)` is `a.x * b.x + a.y * b.y + a.z * b.z + a.o`,
`normalize(a)` is `a / l` for `l = sqrt(dot(a, a))` unless `l` is 0, when it
is `a` itself. Negation and the comparisons are exact, those of the integers.
The fields that `eval_camera` does not reach (`pow`, `fmod`, `smoothstep`, the
reflection and sampling routines, `transform_direction`, the generator and the
scene oracles) are those of `milliLib` and carry no meaning here. -/
def f32Lib : Lib Int Nat Unit :=
  { milliLib with
    dec := fun m e => f32 ((m : Int) * ((2 ^ 149 : Nat) : Int)) (10 ^ e)
    ofInt := fun n => f32 (n * ((2 ^ 149 : Nat) : Int)) 1
    roundi := fun x => Int.sign x * (((2 * x.natAbs + 2 ^ 149) / 2 ^ 150 : Nat) : Int)
    fadd := f32_add
    fsub := fun a b => f32 (a - b) 1
    fmul := f32_mul
    fdiv := f32_div
    fneg := fun a => -a
    flt := fun a b => decide (a < b)
    fle := fun a b => decide (a ≤ b)
    feq := fun a b => decide (a = b)
    isfinite := fun a => decide (a.natAbs < 2 ^ 277)
    sqrt := f32_sqrt
    dot := f32_dot
    normalize := fun a =>
      if f32_sqrt (f32_dot a a) = 0 then a
      else ⟨f32_div a.x (f32_sqrt (f32_dot a a)), f32_div a.y (f32_sqrt (f32_dot a a)),
        f32_div a.z (f32_sqrt (f32_dot a a))⟩
    transform_point := fun f p =>
      ⟨f32_add (f32_add (f32_add (f32_mul f.x.x p.x) (f32_mul f.y.x p.y)) (f32_mul f.z.x p.z))
          f.o.x,
        f32_add (f32_add (f32_add (f32_mul f.x.y p.x) (f32_mul f.y.y p.y)) (f32_mul f.z.y p.z))
          f.o.y,
        f32_add (f32_add (f32_add (f32_mul f.x.z p.x) (f32_mul f.y.z p.y)) (f32_mul f.z.z p.z))
          f.o.z⟩ }

/-- A binary32 camera of aspect 1 that stands at `(0, height, 0)` and looks
down: its orthonormal frame has the axes `x = (1, 0, 0)`, `y = (0, 0, -1)` and
`z = (0, 1, 0)`, its lens is `0.05f` and its film `0.036f`. -/
def f32Camera (height : Int) : camera_data Int :=
  { frame := ⟨⟨f32Lib.ofInt 1, 0, 0⟩, ⟨0, 0, f32Lib.ofInt (-1)⟩, ⟨0, f32Lib.ofInt 1, 0⟩,
      ⟨0, f32Lib.ofInt height, 0⟩⟩
    lens := f32Lib.dec 5 2
    film := f32Lib.dec 36 3
    aspect := f32Lib.ofInt 1 }

/-- The schedule that runs the pixels in index order. -/
def inOrder : Scheduler :=
  ⟨fun n => List.range n, fun _ => List.Perm.refl _⟩

/-- The schedule that runs the pixels in reverse index order. -/
def reverseOrder : Scheduler :=
  ⟨fun n => (List.range n).reverse, fun n => List.reverse_perm (List.range n)⟩

/-! ## Lemmas on the pixel loops -/

section LoopLemmas

variable {F R B : Type} (L : Lib F R B)

theorem int32_of_fits (n : Int) (h0 : -(2 ^ 31) ≤ n) (h1 : n < 2 ^ 31) : int32 n = n := by
  unfold int32
  omega

theorem exists_getElem? {α : Type} (l : List α) (i : Nat) (h : i < l.length) :
    ∃ a, l[i]? = some a :=
  ⟨l[i], List.getElem?_eq_getElem h⟩

theorem slot_eq_some {state : raytrace_state F R} {i : Nat} {v : vec4f F × Int × R}
    (h : slot state i = some v) :
    state.image[i]? = some v.1 ∧ state.hits[i]? = some v.2.1 ∧ state.rngs[i]? = some v.2.2 := by
  unfold slot at h
  split at h
  · rename_i pixel count rng h1 h2 h3
    cases h
    exact ⟨h1, h2, h3⟩
  · cases h

theorem slot_of_some {state : raytrace_state F R} {i : Nat} {pixel : vec4f F} {count : Int}
    {rng : R} (h1 : state.image[i]? = some pixel) (h2 : state.hits[i]? = some count)
    (h3 : state.rngs[i]? = some rng) : slot state i = some (pixel, count, rng) := by
  unfold slot
  rw [h1, h2, h3]

theorem pixel_body_ok (jitter : Bool) (shader : raytrace_shader_func F R B)
    (scene : scene_data F) (bvh : B) (camera : camera_data F) (params : raytrace_params)
    (idx : Nat) (state : raytrace_state F R) (v v1 : vec4f F × Int × R)
    (hv : slot state idx = some v)
    (hn : slot_next L (pixel_sample L jitter shader scene bvh camera params
      state.width state.height) idx v = some v1) :
    pixel_body L jitter shader scene bvh camera params idx state = (Res.ok (), put state idx v1) := by
  obtain ⟨h1, h2, h3⟩ := slot_eq_some hv
  unfold slot_next pixel_sample at hn
  cases jitter
  · simp only [pixel_body, pixel_center, trace_pixel, h3, Bool.false_eq_true, if_false] at hn ⊢
    split at hn
    · rename_i radiance rng1 hs
      split at hs <;> try cases hs
      rename_i rad0 rng0 hsh
      simp only [h1, h2]
      cases hn
      rfl
    · cases hn
  · simp only [pixel_body, pixel_jitter, trace_pixel, h3, if_true] at hn ⊢
    split at hn
    · rename_i radiance rng1 hs
      split at hs <;> try cases hs
      rename_i rad0 rng0 hsh
      simp only [h1, h2]
      cases hn
      rfl
    · cases hn


theorem trace_pixel_inv (shader : raytrace_shader_func F R B)
    (scene : scene_data F) (bvh : B) (camera : camera_data F) (params : raytrace_params)
    (idx : Nat) (uv : vec2f F) (rng : R) (state state1 : raytrace_state F R)
    (h : trace_pixel L shader scene bvh camera params idx uv rng state = (Res.ok (), state1)) :
    ∃ pixel count radiance rng1,
      shader scene bvh (eval_camera L camera uv) 0 rng params = Res.ok (radiance, rng1) ∧
      state.image[idx]? = some pixel ∧ state.hits[idx]? = some count := by
  unfold trace_pixel at h
  cases hr : shader scene bvh (eval_camera L camera uv) 0 rng params with
  | ok a =>
    obtain ⟨radiance, rng1⟩ := a
    cases h1 : state.image[idx]? with
    | none => simp [hr, h1] at h
    | some pixel =>
      cases h2 : state.hits[idx]? with
      | none => simp [hr, h1, h2] at h
      | some count => exact ⟨pixel, count, radiance, rng1, rfl, rfl, rfl⟩
  | throw e msg => simp [hr] at h
  | undef => simp [hr] at h
  | timeout => simp [hr] at h

theorem pixel_body_inv (jitter : Bool) (shader : raytrace_shader_func F R B)
    (scene : scene_data F) (bvh : B) (camera : camera_data F) (params : raytrace_params)
    (idx : Nat) (state state1 : raytrace_state F R)
    (h : pixel_body L jitter shader scene bvh camera params idx state = (Res.ok (), state1)) :
    ∃ v v1, slot state idx = some v ∧
      slot_next L (pixel_sample L jitter shader scene bvh camera params
        state.width state.height) idx v = some v1 := by
  cases jitter
  · simp only [pixel_body, pixel_center, Bool.false_eq_true, if_false] at h
    cases h3 : state.rngs[idx]? with
    | none => simp [h3] at h
    | some rng =>
      simp only [h3] at h
      obtain ⟨pixel, count, radiance, rng1, hsh, h1, h2⟩ := trace_pixel_inv L _ _ _ _ _ _ _ _ _ _ h
      refine ⟨(pixel, count, rng),
        (add4 L pixel (if !isfinite4 L radiance then zero4 L else radiance), count + 1, rng1),
        slot_of_some h1 h2 h3, ?_⟩
      simp only [slot_next, pixel_sample, Bool.false_eq_true, if_false, hsh]
  · simp only [pixel_body, pixel_jitter, if_true] at h
    cases h3 : state.rngs[idx]? with
    | none => simp [h3] at h
    | some rng =>
      simp only [h3] at h
      obtain ⟨pixel, count, radiance, rng1, hsh, h1, h2⟩ := trace_pixel_inv L _ _ _ _ _ _ _ _ _ _ h
      refine ⟨(pixel, count, rng),
        (add4 L pixel (if !isfinite4 L radiance then zero4 L else radiance), count + 1, rng1),
        slot_of_some h1 h2 h3, ?_⟩
      simp only [slot_next, pixel_sample, if_true, hsh]

theorem for_pixels_cons_ok (body : Nat → raytrace_state F R → Res Unit × raytrace_state F R)
    (a : Nat) (rest : List Nat) (state state1 : raytrace_state F R)
    (h : body a state = (Res.ok (), state1)) :
    for_pixels body (a :: rest) state = for_pixels body rest state1 := by
  simp only [for_pixels, h]

theorem for_pixels_cons_stop (body : Nat → raytrace_state F R → Res Unit × raytrace_state F R)
    (a : Nat) (rest : List Nat) (state : raytrace_state F R)
    (h : (body a state).1 ≠ Res.ok ()) :
    for_pixels body (a :: rest) state = body a state := by
  unfold for_pixels
  split
  · rename_i state1 hb
    rw [hb] at h
    exact absurd rfl h
  · rfl

theorem slot_put_ne (state : raytrace_state F R) (a i : Nat) (v : vec4f F × Int × R)
    (h : i ≠ a) :
    (put state a v).image[i]? = state.image[i]? ∧ (put state a v).hits[i]? = state.hits[i]? ∧
      (put state a v).rngs[i]? = state.rngs[i]? ∧ slot (put state a v) i = slot state i := by
  have h1 : (put state a v).image[i]? = state.image[i]? := by
    simp [put, List.getElem?_set, Ne.symm h]
  have h2 : (put state a v).hits[i]? = state.hits[i]? := by
    simp [put, List.getElem?_set, Ne.symm h]
  have h3 : (put state a v).rngs[i]? = state.rngs[i]? := by
    simp [put, List.getElem?_set, Ne.symm h]
  refine ⟨h1, h2, h3, ?_⟩
  unfold slot
  rw [h1, h2, h3]

theorem slot_put_same (state : raytrace_state F R) (a : Nat) (v w : vec4f F × Int × R)
    (h : slot state a = some w) :
    (put state a v).image[a]? = some v.1 ∧ (put state a v).hits[a]? = some v.2.1 ∧
      (put state a v).rngs[a]? = some v.2.2 := by
  obtain ⟨h1, h2, h3⟩ := slot_eq_some h
  have l1 : a < state.image.length := (List.getElem?_eq_some_iff.mp h1).1
  have l2 : a < state.hits.length := (List.getElem?_eq_some_iff.mp h2).1
  have l3 : a < state.rngs.length := (List.getElem?_eq_some_iff.mp h3).1
  simp [put, List.getElem?_set, l1, l2, l3]

theorem for_pixels_ok (jitter : Bool) (shader : raytrace_shader_func F R B)
    (scene : scene_data F) (bvh : B) (camera : camera_data F) (params : raytrace_params)
    (l : List Nat) (hnd : l.Nodup) (state : raytrace_state F R)
    (hall : ∀ i ∈ l, ∃ v v1, slot state i = some v ∧
      slot_next L (pixel_sample L jitter shader scene bvh camera params
        state.width state.height) i v = some v1) :
    ∃ state1,
      for_pixels (pixel_body L jitter shader scene bvh camera params) l state
        = (Res.ok (), state1) ∧
      state1.width = state.width ∧ state1.height = state.height ∧
      state1.samples = state.samples ∧
      state1.image.length = state.image.length ∧ state1.hits.length = state.hits.length ∧
      state1.rngs.length = state.rngs.length ∧
      (∀ i, i ∉ l → state1.image[i]? = state.image[i]? ∧ state1.hits[i]? = state.hits[i]? ∧
        state1.rngs[i]? = state.rngs[i]?) ∧
      (∀ i ∈ l, ∀ v, slot state i = some v → ∃ v1,
        slot_next L (pixel_sample L jitter shader scene bvh camera params
          state.width state.height) i v = some v1 ∧
        state1.image[i]? = some v1.1 ∧ state1.hits[i]? = some v1.2.1 ∧
        state1.rngs[i]? = some v1.2.2) := by
  induction l generalizing state with
  | nil =>
    exact ⟨state, rfl, rfl, rfl, rfl, rfl, rfl, rfl, fun i _ => ⟨rfl, rfl, rfl⟩,
      fun i hi => absurd hi (List.not_mem_nil i)⟩
  | cons a rest ih =>
    obtain ⟨ha, hrest⟩ := List.nodup_cons.mp hnd
    obtain ⟨v, v1, hv, hn⟩ := hall a (List.mem_cons_self a rest)
    have hb := pixel_body_ok L jitter shader scene bvh camera params a state v v1 hv hn
    have hall1 : ∀ i ∈ rest, ∃ w w1, slot (put state a v1) i = some w ∧
        slot_next L (pixel_sample L jitter shader scene bvh camera params
          (put state a v1).width (put state a v1).height) i w = some w1 := by
      intro i hi
      obtain ⟨w, w1, hw, hw1⟩ := hall i (List.mem_cons_of_mem a hi)
      have hne : i ≠ a := fun h => ha (h ▸ hi)
      exact ⟨w, w1, by rw [(slot_put_ne state a i v1 hne).2.2.2]; exact hw, hw1⟩
    obtain ⟨state1, hrun, hw, hh, hs, hli, hlh, hlr, hout, hin⟩ := ih hrest (put state a v1) hall1
    refine ⟨state1, ?_, hw, hh, hs, ?_, ?_, ?_, ?_, ?_⟩
    · rw [for_pixels_cons_ok _ a rest state _ hb]; exact hrun
    · rw [hli]; simp [put]
    · rw [hlh]; simp [put]
    · rw [hlr]; simp [put]
    · intro i hi
      have hne : i ≠ a := fun h => hi (h ▸ List.mem_cons_self a rest)
      have hnr : i ∉ rest := fun h => hi (List.mem_cons_of_mem a h)
      obtain ⟨o1, o2, o3⟩ := hout i hnr
      obtain ⟨p1, p2, p3, _⟩ := slot_put_ne state a i v1 hne
      exact ⟨o1.trans p1, o2.trans p2, o3.trans p3⟩
    · intro i hi w hsw
      rcases List.mem_cons.mp hi with hia | hir
      · subst hia
        have hwv : w = v := Option.some.inj (hsw.symm.trans hv)
        subst hwv
        obtain ⟨o1, o2, o3⟩ := hout i ha
        obtain ⟨p1, p2, p3⟩ := slot_put_same state i v1 w hv
        exact ⟨v1, hn, o1.trans p1, o2.trans p2, o3.trans p3⟩
      · have hne : i ≠ a := fun h => ha (h ▸ hir)
        exact hin i hir w (by rw [(slot_put_ne state a i v1 hne).2.2.2]; exact hsw)

theorem for_pixels_inv (jitter : Bool) (shader : raytrace_shader_func F R B)
    (scene : scene_data F) (bvh : B) (camera : camera_data F) (params : raytrace_params)
    (l : List Nat) (hnd : l.Nodup) (state state1 : raytrace_state F R)
    (h : for_pixels (pixel_body L jitter shader scene bvh camera params) l state
      = (Res.ok (), state1)) :
    ∀ i ∈ l, ∃ v v1, slot state i = some v ∧
      slot_next L (pixel_sample L jitter shader scene bvh camera params
        state.width state.height) i v = some v1 := by
  induction l generalizing state with
  | nil => intro i hi; exact absurd hi (List.not_mem_nil i)
  | cons a rest ih =>
    obtain ⟨ha, hrest⟩ := List.nodup_cons.mp hnd
    by_cases hok : (pixel_body L jitter shader scene bvh camera params a state).1 = Res.ok ()
    · have hb0 : pixel_body L jitter shader scene bvh camera params a state
          = (Res.ok (), (pixel_body L jitter shader scene bvh camera params a state).2) :=
        Prod.ext hok rfl
      obtain ⟨v, v1, hv, hn⟩ := pixel_body_inv L jitter shader scene bvh camera params a state _ hb0
      have hb := pixel_body_ok L jitter shader scene bvh camera params a state v v1 hv hn
      rw [for_pixels_cons_ok _ a rest state _ hb] at h
      intro i hi
      rcases List.mem_cons.mp hi with rfl | hi
      · exact ⟨v, v1, hv, hn⟩
      · have hne : i ≠ a := fun h => ha (h ▸ hi)
        obtain ⟨w, w1, hw, hw1⟩ := ih hrest (put state a v1) h i hi
        exact ⟨w, w1, by rw [← (slot_put_ne state a i v1 hne).2.2.2]; exact hw, hw1⟩
    · rw [for_pixels_cons_stop _ a rest state hok] at h
      rw [h] at hok
      exact absurd rfl hok

theorem pixel_order_perm (sched : Scheduler) (params : raytrace_params) (n : Nat) :
    (pixel_order sched params n).Perm (List.range n) := by
  unfold pixel_order
  split
  · exact List.Perm.refl _
  · split
    · exact List.Perm.refl _
    · exact sched.perm n

theorem pixel_order_nodup (sched : Scheduler) (params : raytrace_params) (n : Nat) :
    (pixel_order sched params n).Nodup :=
  (pixel_order_perm sched params n).nodup_iff.mpr (List.nodup_range n)

theorem mem_pixel_order (sched : Scheduler) (params : raytrace_params) (n i : Nat) :
    i ∈ pixel_order sched params n ↔ i < n := by
  rw [(pixel_order_perm sched params n).mem_iff, List.mem_range]

theorem raytrace_samples_run (sched : Scheduler) (fuel : Nat) (state : raytrace_state F R)
    (scene : scene_data F) (bvh : B) (params : raytrace_params) (camera : camera_data F)
    (shader : raytrace_shader_func F R B)
    (hbudget : state.samples < params.samples)
    (hcamera : index? scene.cameras params.camera = some camera)
    (hshader : get_shader L fuel params = Res.ok shader) :
    raytrace_samples L sched fuel state scene bvh params =
      for_pixels (pixel_body L (decide (params.samples ≠ 1)) shader scene bvh camera params)
        (pixel_order sched params (int32 (state.width * state.height)).toNat)
        { state with samples := state.samples + 1 } := by
  unfold raytrace_samples
  rw [if_neg (not_le.mpr hbudget), hcamera, hshader]
  by_cases h1 : params.samples = 1
  · simp [h1, pixel_order, pixel_body]
  · by_cases h2 : params.noparallel = true
    · simp [h1, h2, pixel_order, pixel_body]
    · simp [h1, h2, pixel_order, pixel_body]

theorem write_pixels_ok (scale : F) (state : raytrace_state F R) (l : List Nat)
    (image : color_image F)
    (hl : ∀ i ∈ l, i < state.image.length ∧ i < image.pixels.length) :
    ∃ image1,
      write_pixels L scale state l image = (Res.ok (), image1) ∧
      image1.width = image.width ∧ image1.height = image.height ∧
      image1.linear = image.linear ∧ image1.pixels.length = image.pixels.length ∧
      (∀ i, i ∉ l → image1.pixels[i]? = image.pixels[i]?) ∧
      (∀ i ∈ l, ∀ pixel, state.image[i]? = some pixel →
        image1.pixels[i]? = some (scale4 L pixel scale)) := by
  induction l generalizing image with
  | nil =>
    exact ⟨image, rfl, rfl, rfl, rfl, rfl, fun _ _ => rfl,
      fun i hi => absurd hi (List.not_mem_nil i)⟩
  | cons a rest ih =>
    obtain ⟨ha1, ha2⟩ := hl a (List.mem_cons_self a rest)
    obtain ⟨pixel, hp⟩ := exists_getElem? state.image a ha1
    have hrest : ∀ i ∈ rest, i < state.image.length ∧
        i < ({ image with pixels := image.pixels.set a (scale4 L pixel scale) } :
          color_image F).pixels.length := by
      intro i hi
      obtain ⟨h1, h2⟩ := hl i (List.mem_cons_of_mem a hi)
      exact ⟨h1, by simpa using h2⟩
    obtain ⟨image1, hrun, hw, hh, hlin, hlen, hout, hin⟩ := ih _ hrest
    refine ⟨image1, ?_, hw, hh, hlin, ?_, ?_, ?_⟩
    · simp only [write_pixels, hp, if_pos ha2]
      exact hrun
    · rw [hlen]; simp
    · intro i hi
      have hne : a ≠ i := fun h => hi (h ▸ List.mem_cons_self a rest)
      have hnr : i ∉ rest := fun h => hi (List.mem_cons_of_mem a h)
      rw [hout i hnr]
      simp [List.getElem?_set, hne]
    · intro i hi q hq
      by_cases hir : i ∈ rest
      · exact hin i hir q hq
      · have hia : i = a := by
          rcases List.mem_cons.mp hi with h | h
          · exact h
          · exact absurd h hir
        subst hia
        have hqp : q = pixel := Option.some.inj (hq.symm.trans hp)
        subst hqp
        rw [hout i hir]
        simp [List.getElem?_set, ha2]

theorem write_pixels_no_throw (scale : F) (state : raytrace_state F R) (l : List Nat)
    (image : color_image F) (e : exception) (msg : String) :
    (write_pixels L scale state l image).1 ≠ Res.throw e msg := by
  induction l generalizing image with
  | nil => simp [write_pixels]
  | cons a rest ih =>
    unfold write_pixels
    split
    · simp
    · split
      · exact ih _
      · simp

theorem trace_pixel_frame (shader : raytrace_shader_func F R B) (scene : scene_data F)
    (bvh : B) (camera : camera_data F) (params : raytrace_params) (idx : Nat) (uv : vec2f F)
    (rng : R) (state : raytrace_state F R) :
    same_shape state (trace_pixel L shader scene bvh camera params idx uv rng state).2 ∧
      (trace_pixel L shader scene bvh camera params idx uv rng state).2.samples
        = state.samples := by
  unfold trace_pixel
  cases hr : shader scene bvh (eval_camera L camera uv) 0 rng params with
  | ok a =>
    obtain ⟨radiance, rng1⟩ := a
    cases h1 : state.image[idx]? with
    | none => simp [hr, h1, same_shape]
    | some pixel =>
      cases h2 : state.hits[idx]? with
      | none => simp [hr, h1, h2, same_shape]
      | some count => simp [hr, h1, h2, same_shape]
  | throw e msg => simp [hr, same_shape]
  | undef => simp [hr, same_shape]
  | timeout => simp [hr, same_shape]

theorem pixel_body_frame (jitter : Bool) (shader : raytrace_shader_func F R B)
    (scene : scene_data F) (bvh : B) (camera : camera_data F) (params : raytrace_params)
    (idx : Nat) (state : raytrace_state F R) :
    same_shape state (pixel_body L jitter shader scene bvh camera params idx state).2 ∧
      (pixel_body L jitter shader scene bvh camera params idx state).2.samples
        = state.samples := by
  cases jitter
  · simp only [pixel_body, pixel_center, Bool.false_eq_true, if_false]
    cases h3 : state.rngs[idx]? with
    | none => exact ⟨⟨rfl, rfl, rfl, rfl, rfl⟩, rfl⟩
    | some rng => exact trace_pixel_frame L _ _ _ _ _ _ _ _ _
  · simp only [pixel_body, pixel_jitter, if_true]
    cases h3 : state.rngs[idx]? with
    | none => exact ⟨⟨rfl, rfl, rfl, rfl, rfl⟩, rfl⟩
    | some rng => exact trace_pixel_frame L _ _ _ _ _ _ _ _ _

theorem same_shape_trans {s1 s2 s3 : raytrace_state F R} (h12 : same_shape s1 s2)
    (h23 : same_shape s2 s3) : same_shape s1 s3 := by
  obtain ⟨a1, a2, a3, a4, a5⟩ := h12
  obtain ⟨b1, b2, b3, b4, b5⟩ := h23
  exact ⟨b1.trans a1, b2.trans a2, b3.trans a3, b4.trans a4, b5.trans a5⟩

theorem sized_of_same_shape {s1 s2 : raytrace_state F R} (h : same_shape s1 s2)
    (hs : sized s1) : sized s2 := by
  obtain ⟨a1, a2, a3, a4, a5⟩ := h
  obtain ⟨b1, b2, b3⟩ := hs
  unfold sized
  rw [a1, a2, a3, a4, a5]
  exact ⟨b1, b2, b3⟩

theorem for_pixels_frame (jitter : Bool) (shader : raytrace_shader_func F R B)
    (scene : scene_data F) (bvh : B) (camera : camera_data F) (params : raytrace_params)
    (l : List Nat) (state : raytrace_state F R) :
    same_shape state
        (for_pixels (pixel_body L jitter shader scene bvh camera params) l state).2 ∧
      (for_pixels (pixel_body L jitter shader scene bvh camera params) l state).2.samples
        = state.samples := by
  induction l generalizing state with
  | nil => exact ⟨⟨rfl, rfl, rfl, rfl, rfl⟩, rfl⟩
  | cons a rest ih =>
    have hb := pixel_body_frame L jitter shader scene bvh camera params a state
    by_cases hok : (pixel_body L jitter shader scene bvh camera params a state).1 = Res.ok ()
    · have hb0 : pixel_body L jitter shader scene bvh camera params a state
          = (Res.ok (), (pixel_body L jitter shader scene bvh camera params a state).2) :=
        Prod.ext hok rfl
      rw [for_pixels_cons_ok _ a rest state _ hb0]
      have hr := ih (pixel_body L jitter shader scene bvh camera params a state).2
      exact ⟨same_shape_trans hb.1 hr.1, hr.2.trans hb.2⟩
    · rw [for_pixels_cons_stop _ a rest state hok]
      exact hb

theorem raytrace_samples_frame (sched : Scheduler) (fuel : Nat) (state : raytrace_state F R)
    (scene : scene_data F) (bvh : B) (params : raytrace_params) :
    same_shape state (raytrace_samples L sched fuel state scene bvh params).2 ∧
      ((raytrace_samples L sched fuel state scene bvh params).1 = Res.ok () →
        (raytrace_samples L sched fuel state scene bvh params).2.samples
          = if state.samples ≥ params.samples then state.samples else state.samples + 1) := by
  by_cases hex : state.samples ≥ params.samples
  · have hrun : raytrace_samples L sched fuel state scene bvh params = (Res.ok (), state) := by
      unfold raytrace_samples
      rw [if_pos hex]
    rw [hrun, if_pos hex]
    exact ⟨⟨rfl, rfl, rfl, rfl, rfl⟩, fun _ => rfl⟩
  · rw [if_neg hex]
    cases hcam : index? scene.cameras params.camera with
    | none =>
      have hrun : raytrace_samples L sched fuel state scene bvh params
          = (Res.undef, state) := by
        unfold raytrace_samples
        rw [if_neg hex, hcam]
      rw [hrun]
      exact ⟨⟨rfl, rfl, rfl, rfl, rfl⟩, fun h => by cases h⟩
    | some camera =>
      cases hsh : get_shader L fuel params with
      | ok shader =>
        rw [raytrace_samples_run L sched fuel state scene bvh params camera shader
          (not_le.mp hex) hcam hsh]
        have hf := for_pixels_frame L (decide (params.samples ≠ 1)) shader scene bvh camera
          params (pixel_order sched params (int32 (state.width * state.height)).toNat)
          { state with samples := state.samples + 1 }
        exact ⟨hf.1, fun _ => hf.2⟩
      | throw e msg =>
        have hrun : raytrace_samples L sched fuel state scene bvh params
            = (Res.throw e msg, state) := by
          unfold raytrace_samples
          rw [if_neg hex, hcam, hsh]
        rw [hrun]
        exact ⟨⟨rfl, rfl, rfl, rfl, rfl⟩, fun h => by cases h⟩
      | undef =>
        have hrun : raytrace_samples L sched fuel state scene bvh params
            = (Res.undef, state) := by
          unfold raytrace_samples
          rw [if_neg hex, hcam, hsh]
        rw [hrun]
        exact ⟨⟨rfl, rfl, rfl, rfl, rfl⟩, fun h => by cases h⟩
      | timeout =>
        have hrun : raytrace_samples L sched fuel state scene bvh params
            = (Res.timeout, state) := by
          unfold raytrace_samples
          rw [if_neg hex, hcam, hsh]
        rw [hrun]
        exact ⟨⟨rfl, rfl, rfl, rfl, rfl⟩, fun h => by cases h⟩

theorem length_seed_rngs (n : Nat) (rng : R) : (seed_rngs L n rng).length = n := by
  induction n generalizing rng with
  | zero => rfl
  | succ k ih => simp [seed_rngs, ih]

theorem make_state_eq (scene : scene_data F) (params : raytrace_params)
    (state : raytrace_state F R) (h : make_state L scene params = Res.ok state) :
    0 ≤ int32 (state.width * state.height) ∧ state.samples = 0 ∧
      state.image = List.replicate (int32 (state.width * state.height)).toNat (zero4 L) ∧
      state.hits = List.replicate (int32 (state.width * state.height)).toNat 0 ∧
      state.rngs = seed_rngs L (int32 (state.width * state.height)).toNat (L.make_rng 1301081 1) := by
  unfold make_state at h
  cases hcam : index? scene.cameras params.camera with
  | none => simp [hcam] at h
  | some camera =>
    cases hle : L.fle (L.ofInt 1) camera.aspect with
    | true =>
      simp only [hcam, hle, if_true] at h
      split at h
      · cases h
      · rename_i hneg
        cases h
        exact ⟨not_lt.mp hneg, rfl, rfl, rfl, rfl⟩
    | false =>
      simp only [hcam, hle, Bool.false_eq_true, if_false] at h
      split at h
      · cases h
      · rename_i hneg
        cases h
        exact ⟨not_lt.mp hneg, rfl, rfl, rfl, rfl⟩

theorem seed_rngs_getElem? (n k : Nat) (rng : R) (hk : k < n) :
    (seed_rngs L n rng)[k]? = some (L.make_rng 961748941
      (Int.tdiv (L.rand1i (master_after L k rng) (int32 (1 * 2 ^ 31))).1 2 + 1)) := by
  induction n generalizing k rng with
  | zero => exact absurd hk (Nat.not_lt_zero k)
  | succ m ih =>
    cases k with
    | zero => simp [seed_rngs, master_after]
    | succ j =>
      simp only [seed_rngs, List.getElem?_cons_succ, master_after]
      exact ih j _ (Nat.lt_of_succ_lt_succ hk)

theorem shade_raytrace_noparallel (fuel : Nat) (scene : scene_data F) (bvh : B) (ray : ray3f F)
    (bounce : Int) (rng : R) (params : raytrace_params) (b : Bool) :
    shade_raytrace L fuel scene bvh ray bounce rng { params with noparallel := b }
      = shade_raytrace L fuel scene bvh ray bounce rng params := by
  induction fuel generalizing ray bounce rng with
  | zero => rfl
  | succ k ih => simp only [shade_raytrace, ih]

theorem get_shader_noparallel (fuel : Nat) (params : raytrace_params) (b : Bool)
    (shader : raytrace_shader_func F R B) (h : get_shader L fuel params = Res.ok shader) :
    get_shader L fuel { params with noparallel := b } = Res.ok shader ∧
      ∀ scene bvh ray bounce rng,
        shader scene bvh ray bounce rng { params with noparallel := b }
          = shader scene bvh ray bounce rng params := by
  refine ⟨h, ?_⟩
  intro scene bvh ray bounce rng
  unfold get_shader at h
  split at h
  all_goals first
    | (cases h; rfl)
    | (cases h; exact shade_raytrace_noparallel L fuel scene bvh ray bounce rng params b)
    | cases h

theorem pixel_body_noparallel (jitter : Bool) (shader : raytrace_shader_func F R B)
    (scene : scene_data F) (bvh : B) (camera : camera_data F) (params : raytrace_params)
    (b : Bool)
    (h : ∀ scene bvh ray bounce rng,
      shader scene bvh ray bounce rng { params with noparallel := b }
        = shader scene bvh ray bounce rng params) :
    pixel_body L jitter shader scene bvh camera { params with noparallel := b }
      = pixel_body L jitter shader scene bvh camera params := by
  funext idx state
  cases jitter
  · simp only [pixel_body, pixel_center, trace_pixel, h, Bool.false_eq_true, if_false]
  · simp only [pixel_body, pixel_jitter, trace_pixel, h, if_true]

theorem for_pixels_perm (jitter : Bool) (shader : raytrace_shader_func F R B)
    (scene : scene_data F) (bvh : B) (camera : camera_data F) (params : raytrace_params)
    (l1 l2 : List Nat) (hperm : l1.Perm l2) (hnd : l1.Nodup)
    (state state1 : raytrace_state F R)
    (h : for_pixels (pixel_body L jitter shader scene bvh camera params) l1 state
      = (Res.ok (), state1)) :
    for_pixels (pixel_body L jitter shader scene bvh camera params) l2 state
      = (Res.ok (), state1) := by
  have hnd2 : l2.Nodup := hperm.nodup_iff.mp hnd
  have hall := for_pixels_inv L jitter shader scene bvh camera params l1 hnd state state1 h
  have hall2 : ∀ i ∈ l2, ∃ v v1, slot state i = some v ∧
      slot_next L (pixel_sample L jitter shader scene bvh camera params
        state.width state.height) i v = some v1 :=
    fun i hi => hall i (hperm.mem_iff.mpr hi)
  obtain ⟨s1, hrun1, hw1, hh1, hs1, _, _, _, hout1, hin1⟩ :=
    for_pixels_ok L jitter shader scene bvh camera params l1 hnd state hall
  obtain ⟨s2, hrun2, hw2, hh2, hs2, _, _, _, hout2, hin2⟩ :=
    for_pixels_ok L jitter shader scene bvh camera params l2 hnd2 state hall2
  have e1 : s1 = state1 := by
    have := hrun1.symm.trans h
    exact (Prod.mk.inj this).2
  subst e1
  rw [hrun2]
  have key : ∀ i : Nat, s2.image[i]? = s1.image[i]? ∧ s2.hits[i]? = s1.hits[i]? ∧
      s2.rngs[i]? = s1.rngs[i]? := by
    intro i
    by_cases hi : i ∈ l1
    · obtain ⟨v, _, hv, _⟩ := hall i hi
      obtain ⟨a, ha, a1, a2, a3⟩ := hin1 i hi v hv
      obtain ⟨c, hc, c1, c2, c3⟩ := hin2 i (hperm.mem_iff.mp hi) v hv
      have hac : a = c := Option.some.inj (ha.symm.trans hc)
      subst hac
      exact ⟨c1.trans a1.symm, c2.trans a2.symm, c3.trans a3.symm⟩
    · have hi2 : i ∉ l2 := fun h2 => hi (hperm.mem_iff.mpr h2)
      obtain ⟨a1, a2, a3⟩ := hout1 i hi
      obtain ⟨c1, c2, c3⟩ := hout2 i hi2
      exact ⟨c1.trans a1.symm, c2.trans a2.symm, c3.trans a3.symm⟩
  have himage : s2.image = s1.image := List.ext_getElem? (fun i => (key i).1)
  have hhits : s2.hits = s1.hits := List.ext_getElem? (fun i => (key i).2.1)
  have hrngs : s2.rngs = s1.rngs := List.ext_getElem? (fun i => (key i).2.2)
  have hstate : s2 = s1 := by
    cases s1
    cases s2
    simp only [raytrace_state.mk.injEq]
    exact ⟨hw2.trans hw1.symm, hh2.trans hh1.symm, hs2.trans hs1.symm, himage, hhits, hrngs⟩
  rw [hstate]

theorem raytrace_calls_succ_ok (scheds : Nat → Scheduler) (fuel : Nat) (scene : scene_data F)
    (bvh : B) (params : raytrace_params) (k : Nat) (state result : raytrace_state F R) :
    raytrace_calls L scheds fuel scene bvh params (k + 1) state = Res.ok result ↔
      ∃ state1,
        raytrace_samples L (scheds k) fuel state scene bvh params = (Res.ok (), state1) ∧
        raytrace_calls L scheds fuel scene bvh params k state1 = Res.ok result := by
  constructor
  · intro h
    unfold raytrace_calls at h
    split at h
    · rename_i state1 hrun
      exact ⟨state1, hrun, h⟩
    all_goals cases h
  · intro h
    obtain ⟨state1, hrun, hrest⟩ := h
    simp only [raytrace_calls, hrun]
    exact hrest

theorem raytrace_samples_reorder (sched1 sched2 : Scheduler) (fuel : Nat)
    (state state1 : raytrace_state F R) (scene : scene_data F) (bvh : B)
    (params : raytrace_params) (b1 b2 : Bool)
    (h : raytrace_samples L sched1 fuel state scene bvh { params with noparallel := b1 }
      = (Res.ok (), state1)) :
    raytrace_samples L sched2 fuel state scene bvh { params with noparallel := b2 }
      = (Res.ok (), state1) := by
  by_cases hex : state.samples ≥ params.samples
  · have r1 : ∀ (sched : Scheduler) (b : Bool),
        raytrace_samples L sched fuel state scene bvh { params with noparallel := b }
          = (Res.ok (), state) := by
      intro sched b
      unfold raytrace_samples
      rw [if_pos hex]
    rw [r1 sched1 b1] at h
    rw [r1 sched2 b2]
    exact h
  · cases hcam : index? scene.cameras params.camera with
    | none =>
      exfalso
      unfold raytrace_samples at h
      rw [if_neg hex, hcam] at h
      cases h
    | some camera =>
      cases hsh : get_shader L fuel params with
      | ok shader =>
        obtain ⟨g1, i1⟩ := get_shader_noparallel L fuel params b1 shader hsh
        obtain ⟨g2, i2⟩ := get_shader_noparallel L fuel params b2 shader hsh
        have hr1 := raytrace_samples_run L sched1 fuel state scene bvh
          { params with noparallel := b1 } camera shader (not_le.mp hex) hcam g1
        have hr2 := raytrace_samples_run L sched2 fuel state scene bvh
          { params with noparallel := b2 } camera shader (not_le.mp hex) hcam g2
        rw [hr1, pixel_body_noparallel L _ shader scene bvh camera params b1 i1] at h
        rw [hr2, pixel_body_noparallel L _ shader scene bvh camera params b2 i2]
        exact for_pixels_perm L _ shader scene bvh camera params _ _
          ((pixel_order_perm sched1 _ _).trans (pixel_order_perm sched2 _ _).symm)
          (pixel_order_nodup sched1 _ _) _ _ h
      | throw e msg =>
        exfalso
        have hsh1 : get_shader L fuel { params with noparallel := b1 }
            = (Res.throw e msg : Res (raytrace_shader_func F R B)) := hsh
        unfold raytrace_samples at h
        rw [if_neg hex, hcam, hsh1] at h
        cases h
      | undef =>
        exfalso
        have hsh1 : get_shader L fuel { params with noparallel := b1 }
            = (Res.undef : Res (raytrace_shader_func F R B)) := hsh
        unfold raytrace_samples at h
        rw [if_neg hex, hcam, hsh1] at h
        cases h
      | timeout =>
        exfalso
        have hsh1 : get_shader L fuel { params with noparallel := b1 }
            = (Res.timeout : Res (raytrace_shader_func F R B)) := hsh
        unfold raytrace_samples at h
        rw [if_neg hex, hcam, hsh1] at h
        cases h

theorem raytrace_samples_returns (sched : Scheduler) (fuel : Nat) (state : raytrace_state F R)
    (scene : scene_data F) (bvh : B) (params : raytrace_params) (camera : camera_data F)
    (shader : raytrace_shader_func F R B)
    (hcamera : index? scene.cameras params.camera = some camera)
    (hshader : get_shader L fuel params = Res.ok shader)
    (htotal : ∀ ray rng, ∃ v, shader scene bvh ray 0 rng params = Res.ok v)
    (hsized : sized state) :
    ∃ state1, raytrace_samples L sched fuel state scene bvh params = (Res.ok (), state1) := by
  by_cases hex : state.samples ≥ params.samples
  · refine ⟨state, ?_⟩
    unfold raytrace_samples
    rw [if_pos hex]
  · rw [raytrace_samples_run L sched fuel state scene bvh params camera shader
      (not_le.mp hex) hcamera hshader]
    obtain ⟨hi, hh, hr⟩ := hsized
    obtain ⟨state1, hrun, _⟩ :=
      for_pixels_ok L (decide (params.samples ≠ 1)) shader scene bvh camera params
        (pixel_order sched params (int32 (state.width * state.height)).toNat)
        (pixel_order_nodup sched params _) { state with samples := state.samples + 1 }
        (by
          intro i himem
          have hidx := (mem_pixel_order sched params _ i).mp himem
          obtain ⟨pixel, e1⟩ := exists_getElem? state.image i (hi ▸ hidx)
          obtain ⟨count, e2⟩ := exists_getElem? state.hits i (hh ▸ hidx)
          obtain ⟨rng, e3⟩ := exists_getElem? state.rngs i (hr ▸ hidx)
          refine ⟨(pixel, count, rng), ?_⟩
          have hs : ∃ v, pixel_sample L (decide (params.samples ≠ 1)) shader scene bvh camera
              params state.width state.height i rng = Res.ok v := by
            unfold pixel_sample
            obtain ⟨⟨radiance, rng1⟩, hv⟩ := htotal
              (eval_camera L camera
                ⟨L.fdiv (L.fadd (L.ofInt (Int.tmod i state.width))
                    (if decide (params.samples ≠ 1) = true then (L.rand1f rng).1
                      else L.dec 5 1)) (L.ofInt state.width),
                  L.fdiv (L.fadd (L.ofInt (Int.tdiv i state.width))
                    (if decide (params.samples ≠ 1) = true then (L.rand1f (L.rand1f rng).2).1
                      else L.dec 5 1)) (L.ofInt state.height)⟩)
              (if decide (params.samples ≠ 1) = true then (L.rand1f (L.rand1f rng).2).2
                else rng)
            simp only [hv]
            exact ⟨_, rfl⟩
          obtain ⟨⟨sample, rng1⟩, hs⟩ := hs
          exact ⟨(add4 L pixel sample, count + 1, rng1), slot_of_some e1 e2 e3, by
            simp only [slot_next, hs]⟩)
    exact ⟨state1, hrun⟩

theorem raytrace_calls_returns (scheds : Nat → Scheduler) (fuel : Nat) (scene : scene_data F)
    (bvh : B) (params : raytrace_params) (camera : camera_data F)
    (shader : raytrace_shader_func F R B)
    (hcamera : index? scene.cameras params.camera = some camera)
    (hshader : get_shader L fuel params = Res.ok shader)
    (htotal : ∀ ray rng, ∃ v, shader scene bvh ray 0 rng params = Res.ok v)
    (k : Nat) (state : raytrace_state F R) (hsized : sized state) :
    ∃ result, raytrace_calls L scheds fuel scene bvh params k state = Res.ok result := by
  induction k generalizing state with
  | zero => exact ⟨state, rfl⟩
  | succ j ih =>
    obtain ⟨state1, hrun⟩ := raytrace_samples_returns L (scheds j) fuel state scene bvh params
      camera shader hcamera hshader htotal hsized
    have hshape := (raytrace_samples_frame L (scheds j) fuel state scene bvh params).1
    rw [hrun] at hshape
    obtain ⟨result, hres⟩ := ih state1 (sized_of_same_shape hshape hsized)
    exact ⟨result, (raytrace_calls_succ_ok L scheds fuel scene bvh params j state result).mpr
      ⟨state1, hrun, hres⟩⟩

theorem raytrace_calls_count (scheds : Nat → Scheduler) (fuel : Nat) (scene : scene_data F)
    (bvh : B) (params : raytrace_params) (k j : Nat) (state result : raytrace_state F R)
    (hcount : state.samples = min (j : Int) (max params.samples 0))
    (h : raytrace_calls L scheds fuel scene bvh params k state = Res.ok result) :
    same_shape state result ∧
      result.samples = min ((j + k : Nat) : Int) (max params.samples 0) := by
  induction k generalizing state j with
  | zero =>
    cases h
    exact ⟨⟨rfl, rfl, rfl, rfl, rfl⟩, hcount⟩
  | succ i ih =>
    obtain ⟨state1, hrun, hrest⟩ :=
      (raytrace_calls_succ_ok L scheds fuel scene bvh params i state result).mp h
    obtain ⟨hshape, hsamples⟩ := raytrace_samples_frame L (scheds i) fuel state scene bvh params
    rw [hrun] at hshape hsamples
    have hs1 : state1.samples = min ((j + 1 : Nat) : Int) (max params.samples 0) := by
      have := hsamples rfl
      simp only at this
      split at this
      · rename_i hex
        rw [this]
        omega
      · rename_i hex
        rw [this]
        omega
    obtain ⟨hshape1, hres⟩ := ih (j + 1) state1 hs1 hrest
    refine ⟨same_shape_trans hshape hshape1, ?_⟩
    rw [hres]
    congr 2
    omega

theorem raytrace_samples_slots (sched : Scheduler) (fuel : Nat)
    (state state1 : raytrace_state F R) (scene : scene_data F) (bvh : B)
    (params : raytrace_params) (camera : camera_data F) (shader : raytrace_shader_func F R B)
    (hbudget : state.samples < params.samples)
    (hcamera : index? scene.cameras params.camera = some camera)
    (hshader : get_shader L fuel params = Res.ok shader)
    (hrun : raytrace_samples L sched fuel state scene bvh params = (Res.ok (), state1)) :
    state1.samples = state.samples + 1 ∧
    ∀ idx, idx < (int32 (state.width * state.height)).toNat →
      ∃ pixel count rng sample rng1,
        state.image[idx]? = some pixel ∧ state.hits[idx]? = some count ∧
        state.rngs[idx]? = some rng ∧
        pixel_sample L (decide (params.samples ≠ 1)) shader scene bvh camera params
          state.width state.height idx rng = Res.ok (sample, rng1) ∧
        state1.image[idx]? = some (add4 L pixel sample) ∧
        state1.hits[idx]? = some (count + 1) ∧
        state1.rngs[idx]? = some rng1 := by
  rw [raytrace_samples_run L sched fuel state scene bvh params camera shader hbudget hcamera
    hshader] at hrun
  have hall := for_pixels_inv L (decide (params.samples ≠ 1)) shader scene bvh camera params
    (pixel_order sched params (int32 (state.width * state.height)).toNat)
    (pixel_order_nodup sched params _) { state with samples := state.samples + 1 } state1 hrun
  obtain ⟨s1, hrun1, _, _, hs, _, _, _, _, hin⟩ :=
    for_pixels_ok L (decide (params.samples ≠ 1)) shader scene bvh camera params
      (pixel_order sched params (int32 (state.width * state.height)).toNat)
      (pixel_order_nodup sched params _) { state with samples := state.samples + 1 } hall
  have e1 : s1 = state1 := (Prod.mk.inj (hrun1.symm.trans hrun)).2
  subst e1
  refine ⟨hs, ?_⟩
  intro idx hidx
  have hmem := (mem_pixel_order sched params _ idx).mpr hidx
  obtain ⟨v, _, hv, _⟩ := hall idx hmem
  obtain ⟨v1, hv1, o1, o2, o3⟩ := hin idx hmem v hv
  obtain ⟨a1, a2, a3⟩ := slot_eq_some hv
  unfold slot_next at hv1
  split at hv1
  · rename_i radiance g hsam
    cases hv1
    exact ⟨v.1, v.2.1, v.2.2, radiance, g, a1, a2, a3, hsam, o1, o2, o3⟩
  · cases hv1

theorem raytrace_samples_hits (sched : Scheduler) (fuel : Nat)
    (state state1 : raytrace_state F R) (scene : scene_data F) (bvh : B)
    (params : raytrace_params)
    (hrun : raytrace_samples L sched fuel state scene bvh params = (Res.ok (), state1))
    (hinv : ∀ idx : Nat, idx < (int32 (state.width * state.height)).toNat →
      state.hits[idx]? = some state.samples) :
    ∀ idx : Nat, idx < (int32 (state.width * state.height)).toNat →
      state1.hits[idx]? = some state1.samples := by
  by_cases hex : state.samples ≥ params.samples
  · unfold raytrace_samples at hrun
    rw [if_pos hex] at hrun
    cases hrun
    exact hinv
  · cases hcam : index? scene.cameras params.camera with
    | none =>
      unfold raytrace_samples at hrun
      rw [if_neg hex, hcam] at hrun
      cases hrun
    | some camera =>
      cases hsh : get_shader L fuel params with
      | ok shader =>
        obtain ⟨hs, hall⟩ := raytrace_samples_slots L sched fuel state state1 scene bvh params
          camera shader (not_le.mp hex) hcam hsh hrun
        intro idx hidx
        obtain ⟨pixel, count, rng, sample, rng1, _, hc, _, _, _, hc1, _⟩ := hall idx hidx
        rw [hinv idx hidx] at hc
        cases hc
        rw [hc1, hs]
      | throw e msg =>
        unfold raytrace_samples at hrun
        rw [if_neg hex, hcam, hsh] at hrun
        cases hrun
      | undef =>
        unfold raytrace_samples at hrun
        rw [if_neg hex, hcam, hsh] at hrun
        cases hrun
      | timeout =>
        unfold raytrace_samples at hrun
        rw [if_neg hex, hcam, hsh] at hrun
        cases hrun

theorem raytrace_calls_hits (scheds : Nat → Scheduler) (fuel : Nat) (scene : scene_data F)
    (bvh : B) (params : raytrace_params) (k : Nat) (state result : raytrace_state F R)
    (hinv : ∀ idx : Nat, idx < (int32 (state.width * state.height)).toNat →
      state.hits[idx]? = some state.samples)
    (h : raytrace_calls L scheds fuel scene bvh params k state = Res.ok result) :
    ∀ idx : Nat, idx < (int32 (state.width * state.height)).toNat →
      result.hits[idx]? = some result.samples := by
  induction k generalizing state with
  | zero =>
    cases h
    exact hinv
  | succ i ih =>
    obtain ⟨state1, hrun, hrest⟩ :=
      (raytrace_calls_succ_ok L scheds fuel scene bvh params i state result).mp h
    have hshape := (raytrace_samples_frame L (scheds i) fuel state scene bvh params).1
    rw [hrun] at hshape
    have h1 := raytrace_samples_hits L (scheds i) fuel state state1 scene bvh params hrun hinv
    have h2 := ih state1 (by rw [hshape.1, hshape.2.1]; exact h1) hrest
    rw [hshape.1, hshape.2.1] at h2
    exact h2

theorem pixel_coords_spec (width height : Int) (hw : 0 < width) :
    (∀ idx : Nat, (idx : Int) < width * height →
      0 ≤ (pixel_coords width idx).1 ∧ (pixel_coords width idx).1 < width ∧
      0 ≤ (pixel_coords width idx).2 ∧ (pixel_coords width idx).2 < height ∧
      (pixel_coords width idx).2 * width + (pixel_coords width idx).1 = idx) ∧
    (∀ i j : Int, 0 ≤ i → i < width → 0 ≤ j → j < height →
      ∃ idx : Nat, (idx : Int) < width * height ∧ (idx : Int) = j * width + i ∧
        pixel_coords width idx = (i, j) ∧
        ∀ other : Nat, pixel_coords width other = (i, j) → other = idx) := by
  have hcoords : ∀ idx : Nat,
      pixel_coords width idx = ((idx : Int) % width, (idx : Int) / width) := by
    intro idx
    unfold pixel_coords
    rw [Int.tmod_eq_emod (Int.ofNat_nonneg idx) hw.le,
      Int.tdiv_eq_ediv (Int.ofNat_nonneg idx) hw.le]
  refine ⟨?_, ?_⟩
  · intro idx hidx
    rw [hcoords]
    refine ⟨Int.emod_nonneg _ (ne_of_gt hw), Int.emod_lt_of_pos _ hw,
      Int.ediv_nonneg (Int.ofNat_nonneg idx) hw.le, ?_, ?_⟩
    · exact Int.ediv_lt_of_lt_mul hw (by rw [mul_comm]; exact hidx)
    · have := Int.emod_add_ediv (idx : Int) width
      simp only
      rw [mul_comm]
      omega
  · intro i j hi0 hi hj0 hj
    have hnn : 0 ≤ j * width + i := add_nonneg (mul_nonneg hj0 hw.le) hi0
    refine ⟨(j * width + i).toNat, ?_, Int.toNat_of_nonneg hnn, ?_, ?_⟩
    · rw [Int.toNat_of_nonneg hnn]
      have h1 : j + 1 ≤ height := hj
      have h2 : (j + 1) * width ≤ height * width := Int.mul_le_mul_of_nonneg_right h1 hw.le
      have h3 : height * width = width * height := mul_comm _ _
      have h4 : (j + 1) * width = j * width + width := by ring
      omega
    · rw [hcoords, Int.toNat_of_nonneg hnn]
      have e1 : (j * width + i) % width = i := by
        rw [add_comm, Int.add_mul_emod_self]
        exact Int.emod_eq_of_lt hi0 hi
      have e2 : (j * width + i) / width = j := by
        rw [add_comm, Int.add_mul_ediv_right _ _ (ne_of_gt hw),
          Int.ediv_eq_zero_of_lt hi0 hi, zero_add]
      rw [e1, e2]
    · intro other hother
      rw [hcoords] at hother
      have h1 : (other : Int) % width = i := congrArg Prod.fst hother
      have h2 : (other : Int) / width = j := congrArg Prod.snd hother
      have h3 := Int.emod_add_ediv (other : Int) width
      rw [h1, h2] at h3
      have h4 : j * width + i = (other : Int) := by
        rw [← h3]
        ring
      rw [h4]
      exact (Int.toNat_natCast other).symm

end LoopLemmas

/-! ## Lemmas on the shaders -/

section ShaderLemmas

variable {F R B : Type} (L : Lib F R B)

theorem shade_raytrace_hit (fuel : Nat) (scene : scene_data F) (bvh : B) (ray : ray3f F)
    (bounce : Int) (rng : R) (params : raytrace_params) (inst : instance_data F)
    (shape : shape_data)
    (hhit : (L.intersect_bvh bvh scene ray).hit = true)
    (hinst : index? scene.instances (L.intersect_bvh bvh scene ray).instance_ = some inst)
    (hshape : index? scene.shapes inst.shape = some shape) :
    shade_raytrace L (fuel + 1) scene bvh ray bounce rng params =
      if L.flt (L.rand1f rng).1
          (L.fsub (L.ofInt 1)
            (L.eval_material scene inst (L.intersect_bvh bvh scene ray).element
              (L.intersect_bvh bvh scene ray).uv).opacity) = true
      then
        shade_raytrace L fuel scene bvh
          ⟨L.transform_point inst.frame
            (L.eval_position shape (L.intersect_bvh bvh scene ray).element
              (L.intersect_bvh bvh scene ray).uv), ray.d⟩
          (bounce + 1) (L.rand1f rng).2 params
      else
        shade_surface L (shade_raytrace L fuel) scene bvh ray bounce (L.rand1f rng).2 params
          (L.eval_material scene inst (L.intersect_bvh bvh scene ray).element
            (L.intersect_bvh bvh scene ray).uv)
          (L.transform_point inst.frame
            (L.eval_position shape (L.intersect_bvh bvh scene ray).element
              (L.intersect_bvh bvh scene ray).uv))
          (facing_normal L shape ray
            (L.transform_direction inst.frame
              (L.eval_normal shape (L.intersect_bvh bvh scene ray).element
                (L.intersect_bvh bvh scene ray).uv))) := by
  simp only [shade_raytrace, shade_surface, hhit, Bool.not_true, Bool.false_eq_true, if_false,
    hinst, hshape]

theorem accumulate_ok (barabozzo weight : vec4f F) (r : Res (vec4f F × R)) (v : vec4f F)
    (rng1 : R) (h : accumulate L barabozzo weight r = Res.ok (v, rng1)) :
    ∃ rad, r = Res.ok (rad, rng1) ∧ v = add4 L barabozzo (mul4 L weight rad) := by
  cases r with
  | ok a =>
    obtain ⟨rad, g⟩ := a
    simp only [accumulate, Res.ok.injEq, Prod.mk.injEq] at h
    obtain ⟨h1, h2⟩ := h
    subst h1 h2
    exact ⟨rad, rfl, rfl⟩
  | throw e msg => simp [accumulate] at h
  | undef => simp [accumulate] at h
  | timeout => simp [accumulate] at h

theorem accumulate_plain_ok (barabozzo : vec4f F) (r : Res (vec4f F × R)) (v : vec4f F)
    (rng1 : R) (h : accumulate_plain L barabozzo r = Res.ok (v, rng1)) :
    ∃ rad, r = Res.ok (rad, rng1) ∧ v = add4 L barabozzo rad := by
  cases r with
  | ok a =>
    obtain ⟨rad, g⟩ := a
    simp only [accumulate_plain, Res.ok.injEq, Prod.mk.injEq] at h
    obtain ⟨h1, h2⟩ := h
    subst h1 h2
    exact ⟨rad, rfl, rfl⟩
  | throw e msg => simp [accumulate_plain] at h
  | undef => simp [accumulate_plain] at h
  | timeout => simp [accumulate_plain] at h

theorem accumulate_alpha (barabozzo weight : vec4f F) (r : Res (vec4f F × R)) (v : vec4f F)
    (rng1 : R)
    (h00 : L.fadd (L.ofInt 0) (L.ofInt 0) = L.ofInt 0)
    (hw : L.fmul weight.w (L.ofInt 0) = L.ofInt 0)
    (hb : barabozzo.w = L.ofInt 0)
    (hr : ∀ rad g, r = Res.ok (rad, g) → rad.w = L.ofInt 0)
    (h : accumulate L barabozzo weight r = Res.ok (v, rng1)) : v.w = L.ofInt 0 := by
  obtain ⟨rad, h1, h2⟩ := accumulate_ok L barabozzo weight r v rng1 h
  rw [h2]
  simp only [add4, mul4, hb, hr rad rng1 h1, hw, h00]

theorem accumulate_plain_alpha (barabozzo : vec4f F) (r : Res (vec4f F × R)) (v : vec4f F)
    (rng1 : R)
    (h00 : L.fadd (L.ofInt 0) (L.ofInt 0) = L.ofInt 0)
    (hb : barabozzo.w = L.ofInt 0)
    (hr : ∀ rad g, r = Res.ok (rad, g) → rad.w = L.ofInt 0)
    (h : accumulate_plain L barabozzo r = Res.ok (v, rng1)) : v.w = L.ofInt 0 := by
  obtain ⟨rad, h1, h2⟩ := accumulate_plain_ok L barabozzo r v rng1 h
  rw [h2]
  simp only [add4, hb, hr rad rng1 h1, h00]

theorem shade_surface_alpha (call : raytrace_shader_func F R B) (scene : scene_data F)
    (bvh : B) (ray : ray3f F) (bounce : Int) (rng1 : R) (params : raytrace_params)
    (material : material_point F) (position normal : vec3f F) (v : vec4f F) (rng2 : R)
    (h00 : L.fadd (L.ofInt 0) (L.ofInt 0) = L.ofInt 0)
    (h10 : L.fmul (L.ofInt 1) (L.ofInt 0) = L.ofInt 0)
    (hz0 : L.fmul (L.ofInt 0) (L.ofInt 0) = L.ofInt 0)
    (hcall : ∀ ray1 b g rad g1, call scene bvh ray1 b g params = Res.ok (rad, g1) →
      rad.w = L.ofInt 0)
    (h : shade_surface L call scene bvh ray bounce rng1 params material position normal
      = Res.ok (v, rng2)) : v.w = L.ofInt 0 := by
  have hc : ∀ (r : Res (vec4f F × R)) (ray1 : ray3f F) (b : Int) (g : R),
      r = call scene bvh ray1 b g params → ∀ rad g1, r = Res.ok (rad, g1) → rad.w = L.ofInt 0 :=
    fun r ray1 b g hr rad g1 h1 => hcall ray1 b g rad g1 (hr ▸ h1)
  unfold shade_surface at h
  by_cases hb : bounce ≥ params.bounces
  · simp only [if_pos hb] at h
    cases h
    rfl
  by_cases hm : material.type = material_type.matte
  · simp only [if_neg hb, if_pos hm] at h
    exact accumulate_alpha L _ _ _ v rng2 h00 h10 rfl (hc _ _ _ _ rfl) h
  by_cases hr0 : material.type = material_type.reflective
      ∧ L.feq material.roughness (L.ofInt 0) = true
  · simp only [if_neg hb, if_neg hm, if_pos hr0] at h
    exact accumulate_alpha L _ _ _ v rng2 h00 hz0 rfl (hc _ _ _ _ rfl) h
  by_cases hr1 : material.type = material_type.reflective
      ∧ L.feq material.roughness (L.ofInt 0) = false
  · simp only [if_neg hb, if_neg hm, if_neg hr0, if_pos hr1] at h
    exact accumulate_alpha L _ _ _ v rng2 h00 hz0 rfl (hc _ _ _ _ rfl) h
  by_cases hg : material.type = material_type.glossy
  · simp only [if_neg hb, if_neg hm, if_neg hr0, if_neg hr1, if_pos hg] at h
    split_ifs at h
    · exact accumulate_plain_alpha L _ _ v rng2 h00 rfl (hc _ _ _ _ rfl) h
    · exact accumulate_alpha L _ _ _ v rng2 h00 h10 rfl (hc _ _ _ _ rfl) h
  by_cases ht : material.type = material_type.transparent
  · simp only [if_neg hb, if_neg hm, if_neg hr0, if_neg hr1, if_neg hg, if_pos ht] at h
    split_ifs at h
    · exact accumulate_plain_alpha L _ _ v rng2 h00 rfl (hc _ _ _ _ rfl) h
    · exact accumulate_alpha L _ _ _ v rng2 h00 h10 rfl (hc _ _ _ _ rfl) h
  by_cases hf : material.type = material_type.refractive
  · simp only [if_neg hb, if_neg hm, if_neg hr0, if_neg hr1, if_neg hg, if_neg ht,
      if_pos hf] at h
    split_ifs at h
    · exact accumulate_plain_alpha L _ _ v rng2 h00 rfl (hc _ _ _ _ rfl) h
    · exact accumulate_alpha L _ _ _ v rng2 h00 hz0 rfl (hc _ _ _ _ rfl) h
    · exact accumulate_alpha L _ _ _ v rng2 h00 hz0 rfl (hc _ _ _ _ rfl) h
  · simp only [if_neg hb, if_neg hm, if_neg hr0, if_neg hr1, if_neg hg, if_neg ht,
      if_neg hf] at h
    cases h

theorem ratSqrt_mul_self (l : ℚ) (h : 0 < l) : ratSqrt (l * l) = l := by
  unfold ratSqrt
  rw [Rat.mul_self_num, Rat.mul_self_den]
  have hnum : 0 < l.num := Rat.num_pos.mpr h
  obtain ⟨n, hn⟩ := Int.eq_ofNat_of_zero_le hnum.le
  rw [hn]
  have h1 : ((n : Int) * (n : Int)).toNat = n * n := by
    rw [← Nat.cast_mul, Int.toNat_natCast]
  rw [h1, Nat.sqrt_eq, Nat.sqrt_eq]
  have := Rat.num_div_den l
  rw [hn, Int.cast_natCast] at this
  exact this

theorem ratNormalize_eq (v : vec3f ℚ) (l : ℚ) (hl : 0 < l)
    (h : l * l = v.x * v.x + v.y * v.y + v.z * v.z) :
    ratNormalize v = ⟨v.x / l, v.y / l, v.z / l⟩ := by
  have hs : ratSqrt (ratDot v v) = l := by
    unfold ratDot
    rw [← h]
    exact ratSqrt_mul_self l hl
  unfold ratNormalize
  rw [hs, if_neg (ne_of_gt hl)]

theorem shade_surface_cases (P : Res (vec4f F × R) → Prop)
    (call : raytrace_shader_func F R B) (scene : scene_data F)
    (bvh : B) (ray : ray3f F) (bounce : Int) (rng1 : R) (params : raytrace_params)
    (material : material_point F) (position normal : vec3f F)
    (hok : ∀ v, P (Res.ok v))
    (hacc : ∀ b w r, P r → P (accumulate L b w r))
    (hplain : ∀ b r, P r → P (accumulate_plain L b r))
    (hundef : (∃ tag, material.type = material_type.other tag) → P Res.undef)
    (hcall : bounce < params.bounces → ∀ ray1 g, P (call scene bvh ray1 (bounce + 1) g params)) :
    P (shade_surface L call scene bvh ray bounce rng1 params material position normal) := by
  unfold shade_surface
  by_cases hb : bounce ≥ params.bounces
  · simp only [if_pos hb]
    exact hok _
  have hc := hcall (not_le.mp hb)
  by_cases hm : material.type = material_type.matte
  · simp only [if_neg hb, if_pos hm]
    exact hacc _ _ _ (hc _ _)
  by_cases hr0 : material.type = material_type.reflective
      ∧ L.feq material.roughness (L.ofInt 0) = true
  · simp only [if_neg hb, if_neg hm, if_pos hr0]
    exact hacc _ _ _ (hc _ _)
  by_cases hr1 : material.type = material_type.reflective
      ∧ L.feq material.roughness (L.ofInt 0) = false
  · simp only [if_neg hb, if_neg hm, if_neg hr0, if_pos hr1]
    exact hacc _ _ _ (hc _ _)
  by_cases hg : material.type = material_type.glossy
  · simp only [if_neg hb, if_neg hm, if_neg hr0, if_neg hr1, if_pos hg]
    split_ifs
    · exact hplain _ _ (hc _ _)
    · exact hacc _ _ _ (hc _ _)
  by_cases ht : material.type = material_type.transparent
  · simp only [if_neg hb, if_neg hm, if_neg hr0, if_neg hr1, if_neg hg, if_pos ht]
    split_ifs
    · exact hplain _ _ (hc _ _)
    · exact hacc _ _ _ (hc _ _)
  by_cases hf : material.type = material_type.refractive
  · simp only [if_neg hb, if_neg hm, if_neg hr0, if_neg hr1, if_neg hg, if_neg ht,
      if_pos hf]
    split_ifs
    · exact hplain _ _ (hc _ _)
    · exact hacc _ _ _ (hc _ _)
    · exact hacc _ _ _ (hc _ _)
  · simp only [if_neg hb, if_neg hm, if_neg hr0, if_neg hr1, if_neg hg, if_neg ht,
      if_neg hf]
    apply hundef
    cases hty : material.type with
    | matte => exact absurd hty hm
    | glossy => exact absurd hty hg
    | reflective =>
      cases hq : L.feq material.roughness (L.ofInt 0) with
      | true => exact absurd ⟨hty, hq⟩ hr0
      | false => exact absurd ⟨hty, hq⟩ hr1
    | transparent => exact absurd hty ht
    | refractive => exact absurd hty hf
    | other tag => exact ⟨tag, rfl⟩

theorem accumulate_ne_timeout (b w : vec4f F) (r : Res (vec4f F × R))
    (h : r ≠ Res.timeout) : accumulate L b w r ≠ Res.timeout := by
  cases r with
  | ok a => simp [accumulate]
  | throw e msg => simp [accumulate]
  | undef => simp [accumulate]
  | timeout => exact absurd rfl h

theorem accumulate_plain_ne_timeout (b : vec4f F) (r : Res (vec4f F × R))
    (h : r ≠ Res.timeout) : accumulate_plain L b r ≠ Res.timeout := by
  cases r with
  | ok a => simp [accumulate_plain]
  | throw e msg => simp [accumulate_plain]
  | undef => simp [accumulate_plain]
  | timeout => exact absurd rfl h

theorem accumulate_returns (b w : vec4f F) (r : Res (vec4f F × R))
    (h : ∃ v, r = Res.ok v) : ∃ v, accumulate L b w r = Res.ok v := by
  obtain ⟨⟨rad, g⟩, rfl⟩ := h
  exact ⟨_, rfl⟩

theorem accumulate_plain_returns (b : vec4f F) (r : Res (vec4f F × R))
    (h : ∃ v, r = Res.ok v) : ∃ v, accumulate_plain L b r = Res.ok v := by
  obtain ⟨⟨rad, g⟩, rfl⟩ := h
  exact ⟨_, rfl⟩

theorem facing_normal_exiting (shape : shape_data) (ray : ray3f F) (normal0 : vec3f F)
    (hpoints : shape.points = []) (hlines : shape.lines = [])
    (htriangles : shape.triangles ≠ [])
    (hexit : L.flt (L.dot (neg3 L ray.d) normal0) (L.ofInt 0) = true) :
    facing_normal L shape ray normal0 = neg3 L normal0 := by
  have ht : shape.triangles.isEmpty = false := by
    cases hl : shape.triangles with
    | nil => exact absurd hl htriangles
    | cons a rest => rfl
  simp [facing_normal, hpoints, hlines, ht, hexit]

end ShaderLemmas

/-! ## The scheduler -/

section SchedulerTheorems

variable {F R B : Type} (L : Lib F R B)

/-- C1: in a state with budget left (`state.samples < params.samples`), with a
recognized shader tag (`get_shader` returns `shader`), a valid camera index,
the three per-pixel vectors of length `width * height` and a shader that
returns on every pixel, one call of `raytrace_samples` returns and the new
state has `samples` increased by exactly 1, the same `width`, `height` and
vector lengths, and for every pixel index `idx` below `width * height`:
`hits[idx]` increased by exactly 1, `image[idx]` increased by exactly the one
shader sample `pixel_sample` of that pixel, and `rngs[idx]` advanced as that
sample left it. -/
theorem raytrace_samples_adds_one_sample (sched : Scheduler) (fuel : Nat)
    (state : raytrace_state F R) (scene : scene_data F) (bvh : B) (params : raytrace_params)
    (camera : camera_data F) (shader : raytrace_shader_func F R B)
    (hbudget : state.samples < params.samples)
    (hcamera : index? scene.cameras params.camera = some camera)
    (hshader : get_shader L fuel params = Res.ok shader)
    (hsize : state.image.length = (int32 (state.width * state.height)).toNat ∧
      state.hits.length = (int32 (state.width * state.height)).toNat ∧
      state.rngs.length = (int32 (state.width * state.height)).toNat)
    (hreturns : ∀ idx rng, state.rngs[idx]? = some rng →
      ∃ sample, pixel_sample L (decide (params.samples ≠ 1)) shader scene bvh camera params
        state.width state.height idx rng = Res.ok sample) :
    ∃ state1,
      raytrace_samples L sched fuel state scene bvh params = (Res.ok (), state1) ∧
      state1.samples = state.samples + 1 ∧
      state1.width = state.width ∧ state1.height = state.height ∧
      state1.image.length = state.image.length ∧ state1.hits.length = state.hits.length ∧
      state1.rngs.length = state.rngs.length ∧
      ∀ idx, idx < (int32 (state.width * state.height)).toNat →
        ∃ pixel count rng sample rng1,
          state.image[idx]? = some pixel ∧ state.hits[idx]? = some count ∧
          state.rngs[idx]? = some rng ∧
          pixel_sample L (decide (params.samples ≠ 1)) shader scene bvh camera params
            state.width state.height idx rng = Res.ok (sample, rng1) ∧
          state1.image[idx]? = some (add4 L pixel sample) ∧
          state1.hits[idx]? = some (count + 1) ∧
          state1.rngs[idx]? = some rng1 := by
  obtain ⟨hi, hh, hr⟩ := hsize
  have hslot : ∀ idx, idx < (int32 (state.width * state.height)).toNat →
      ∃ pixel count rng sample rng1,
        state.image[idx]? = some pixel ∧ state.hits[idx]? = some count ∧
        state.rngs[idx]? = some rng ∧
        pixel_sample L (decide (params.samples ≠ 1)) shader scene bvh camera params
          state.width state.height idx rng = Res.ok (sample, rng1) := by
    intro idx hidx
    obtain ⟨pixel, e1⟩ := exists_getElem? state.image idx (hi ▸ hidx)
    obtain ⟨count, e2⟩ := exists_getElem? state.hits idx (hh ▸ hidx)
    obtain ⟨rng, e3⟩ := exists_getElem? state.rngs idx (hr ▸ hidx)
    obtain ⟨⟨sample, rng1⟩, hs⟩ := hreturns idx rng e3
    exact ⟨pixel, count, rng, sample, rng1, e1, e2, e3, hs⟩
  rw [raytrace_samples_run L sched fuel state scene bvh params camera shader
    hbudget hcamera hshader]
  obtain ⟨state1, hrun, hw, hht, hs, hli, hlh, hlr, _, hin⟩ :=
    for_pixels_ok L (decide (params.samples ≠ 1)) shader scene bvh camera params
      (pixel_order sched params (int32 (state.width * state.height)).toNat)
      (pixel_order_nodup sched params _) { state with samples := state.samples + 1 }
      (by
        intro i himem
        obtain ⟨pixel, count, rng, sample, rng1, e1, e2, e3, hs⟩ :=
          hslot i ((mem_pixel_order sched params _ i).mp himem)
        refine ⟨(pixel, count, rng), (add4 L pixel sample, count + 1, rng1),
          slot_of_some e1 e2 e3, ?_⟩
        simp only [slot_next, hs])
  refine ⟨state1, hrun, hs, hw, hht, hli, hlh, hlr, ?_⟩
  intro idx hidx
  obtain ⟨pixel, count, rng, sample, rng1, e1, e2, e3, hsam⟩ := hslot idx hidx
  obtain ⟨v1, hv1, o1, o2, o3⟩ := hin idx ((mem_pixel_order sched params _ idx).mpr hidx)
    (pixel, count, rng) (slot_of_some e1 e2 e3)
  simp only [slot_next, hsam] at hv1
  cases hv1
  exact ⟨pixel, count, rng, sample, rng1, e1, e2, e3, hsam, o1, o2, o3⟩

/-- Witness of C1 on the 2 by 2 state `intState`, two samples of budget, the
colour shader and the reverse schedule. -/
theorem raytrace_samples_adds_one_sample_witness :
    ∃ state1,
      raytrace_samples intLib reverseOrder 0 intState intScene ()
        (intParams raytrace_shader_type.color 2 0 false) = (Res.ok (), state1) ∧
      state1.samples = intState.samples + 1 := by
  obtain ⟨state1, h1, h2, _⟩ :=
    raytrace_samples_adds_one_sample intLib reverseOrder 0 intState intScene ()
      (intParams raytrace_shader_type.color 2 0 false) ⟨intFrame, 1, 1, 1⟩ (shade_color intLib)
      (by decide) rfl rfl (by decide) (fun idx rng _ => ⟨_, rfl⟩)
  exact ⟨state1, h1, h2⟩

/-- C2: in a state whose budget is exhausted (`state.samples >= params.samples`)
a call of `raytrace_samples` returns and leaves the whole state as it was:
sample counter, radiance accumulator, hit counters and every generator. No
shader runs: the equation holds for every shader tag, the unrecognized ones
included, for every scene and with no recursion fuel at all. -/
theorem raytrace_samples_exhausted_noop (sched : Scheduler) (fuel : Nat)
    (state : raytrace_state F R) (scene : scene_data F) (bvh : B) (params : raytrace_params)
    (hexhausted : state.samples ≥ params.samples) :
    raytrace_samples L sched fuel state scene bvh params = (Res.ok (), state) ∧
      raytrace_samples L sched 0 state scene bvh params = (Res.ok (), state) := by
  constructor
  · unfold raytrace_samples
    rw [if_pos hexhausted]
  · unfold raytrace_samples
    rw [if_pos hexhausted]

/-- Witness of C2: a state with no budget and an unrecognized shader tag. -/
theorem raytrace_samples_exhausted_noop_witness :
    intState.samples ≥ (intParams (raytrace_shader_type.other 7) 0 0 false).samples ∧
      raytrace_samples intLib reverseOrder 3 intState intScene ()
        (intParams (raytrace_shader_type.other 7) 0 0 false) = (Res.ok (), intState) :=
  ⟨by decide,
    (raytrace_samples_exhausted_noop intLib reverseOrder 3 intState intScene ()
      (intParams (raytrace_shader_type.other 7) 0 0 false) (by decide)).1⟩

/-- C5: the size invariant of the render state. Whenever `make_state`
returns, the `image`, `hits` and `rngs` vectors of the state have exactly
`state.width * state.height` elements, the product being the `int` product
that the code writes: it is `width * height` whenever
`0 <= width * height < 2^31`, and its 32-bit wrap otherwise; `image` is filled
with `{0, 0, 0, 0}`, `hits` with 0 and `samples` is 0. With a valid camera
index `make_state` does return, unless the `int` product is negative and
`vector::assign` throws `std::length_error`. A call of `raytrace_samples` on a
state with the invariant, however the call ends, leaves `width` and `height`
as they were and the three vectors at that many elements. -/
theorem render_state_size_invariant :
    (∀ (scene : scene_data F) (params : raytrace_params) (state : raytrace_state F R),
      make_state L scene params = Res.ok state →
        state.image.length = (int32 (state.width * state.height)).toNat ∧
        state.hits.length = (int32 (state.width * state.height)).toNat ∧
        state.rngs.length = (int32 (state.width * state.height)).toNat ∧
        state.samples = 0 ∧
        (∀ pixel ∈ state.image, pixel = zero4 L) ∧ (∀ count ∈ state.hits, count = 0) ∧
        (0 ≤ state.width * state.height → state.width * state.height < 2 ^ 31 →
          state.image.length = (state.width * state.height).toNat ∧
          state.hits.length = (state.width * state.height).toNat ∧
          state.rngs.length = (state.width * state.height).toNat)) ∧
    (∀ (scene : scene_data F) (params : raytrace_params) (camera : camera_data F),
      index? scene.cameras params.camera = some camera →
        (∃ state : raytrace_state F R, make_state L scene params = Res.ok state ∧
          0 ≤ int32 (state.width * state.height)) ∨
        (make_state L scene params : Res (raytrace_state F R))
          = Res.throw exception.length_error "vector") ∧
    (∀ (sched : Scheduler) (fuel : Nat) (state : raytrace_state F R) (scene : scene_data F)
      (bvh : B) (params : raytrace_params),
      state.image.length = (int32 (state.width * state.height)).toNat →
      state.hits.length = (int32 (state.width * state.height)).toNat →
      state.rngs.length = (int32 (state.width * state.height)).toNat →
        (raytrace_samples L sched fuel state scene bvh params).2.width = state.width ∧
        (raytrace_samples L sched fuel state scene bvh params).2.height = state.height ∧
        (raytrace_samples L sched fuel state scene bvh params).2.image.length
          = (int32 (state.width * state.height)).toNat ∧
        (raytrace_samples L sched fuel state scene bvh params).2.hits.length
          = (int32 (state.width * state.height)).toNat ∧
        (raytrace_samples L sched fuel state scene bvh params).2.rngs.length
          = (int32 (state.width * state.height)).toNat) := by
  refine ⟨?_, ?_, ?_⟩
  · intro scene params state h
    obtain ⟨_, hs, hi, hh, hr⟩ := make_state_eq L scene params state h
    have hli : state.image.length = (int32 (state.width * state.height)).toNat := by
      rw [hi, List.length_replicate]
    have hlh : state.hits.length = (int32 (state.width * state.height)).toNat := by
      rw [hh, List.length_replicate]
    have hlr : state.rngs.length = (int32 (state.width * state.height)).toNat := by
      rw [hr, length_seed_rngs]
    refine ⟨hli, hlh, hlr, hs, ?_, ?_, ?_⟩
    · intro pixel hp
      rw [hi] at hp
      exact List.eq_of_mem_replicate hp
    · intro count hc
      rw [hh] at hc
      exact List.eq_of_mem_replicate hc
    · intro h0 h1
      have e : int32 (state.width * state.height) = state.width * state.height :=
        int32_of_fits _ (by omega) h1
      rw [e] at hli hlh hlr
      exact ⟨hli, hlh, hlr⟩
  · intro scene params camera hcam
    cases hres : (make_state L scene params : Res (raytrace_state F R)) with
    | ok state =>
      exact Or.inl ⟨state, rfl, (make_state_eq L scene params state hres).1⟩
    | throw e msg =>
      right
      simp only [make_state, hcam] at hres
      split_ifs at hres
      all_goals exact hres.symm
    | undef =>
      simp only [make_state, hcam] at hres
      split_ifs at hres
    | timeout =>
      simp only [make_state, hcam] at hres
      split_ifs at hres
  · intro sched fuel state scene bvh params hi hh hr
    obtain ⟨hw, hht, hli, hlh, hlr⟩ :=
      (raytrace_samples_frame L sched fuel state scene bvh params).1
    exact ⟨hw, hht, hli.trans hi, hlh.trans hh, hlr.trans hr⟩

/-- Witness of C5: `make_state` on the scene `intScene` returns the 2 by 2
state `intState`, which has four pixels, and a call of `raytrace_samples`
keeps four pixels; at the resolution 65536 the `int` product
`65536 * 65536` is 0 and `make_state` returns empty vectors. -/
theorem render_state_size_invariant_witness :
    (make_state intLib intScene (intParams raytrace_shader_type.color 2 0 false)
        = Res.ok intState) ∧
      intState.image.length = (intState.width * intState.height).toNat ∧
      (raytrace_samples intLib reverseOrder 0 intState intScene ()
        (intParams raytrace_shader_type.color 2 0 false)).2.image.length
          = (int32 (intState.width * intState.height)).toNat ∧
      make_state intLib intScene
          { intParams raytrace_shader_type.color 1 0 true with resolution := 65536 }
        = Res.ok ⟨65536, 65536, 0, [], [], []⟩ ∧
      ([] : List (vec4f Int)).length = (int32 ((65536 : Int) * 65536)).toNat :=
  ⟨rfl,
    (((render_state_size_invariant intLib).1 intScene
      (intParams raytrace_shader_type.color 2 0 false) intState rfl).2.2.2.2.2.2
        (by decide) (by decide)).1,
    ((render_state_size_invariant intLib).2.2 reverseOrder 0 intState intScene ()
      (intParams raytrace_shader_type.color 2 0 false) rfl rfl rfl).2.2.1,
    by decide,
    ((render_state_size_invariant intLib).1 intScene
      { intParams raytrace_shader_type.color 1 0 true with resolution := 65536 }
      ⟨65536, 65536, 0, [], [], []⟩ (by decide)).1⟩

/-- C6: for a fixed scene, accelerator, initial state and parameters apart
from the flag `noparallel`, `n` calls of `raytrace_samples` end in the same
state whether the pixels are run in index order (`noparallel` set) or by
`parallel_for` in whatever order each call happens to take: for any two
settings of the flag and any two families of schedules, one run returns a
state exactly when the other run returns, and it is the identical state. -/
theorem raytrace_calls_order_independent (scheds1 scheds2 : Nat → Scheduler) (fuel : Nat)
    (scene : scene_data F) (bvh : B) (params : raytrace_params) (b1 b2 : Bool) (n : Nat)
    (state result : raytrace_state F R) :
    raytrace_calls L scheds1 fuel scene bvh { params with noparallel := b1 } n state
        = Res.ok result ↔
      raytrace_calls L scheds2 fuel scene bvh { params with noparallel := b2 } n state
        = Res.ok result := by
  induction n generalizing state with
  | zero => exact Iff.rfl
  | succ k ih =>
    rw [raytrace_calls_succ_ok, raytrace_calls_succ_ok]
    constructor
    · intro h
      obtain ⟨state1, hrun, hrest⟩ := h
      exact ⟨state1,
        raytrace_samples_reorder L (scheds1 k) (scheds2 k) fuel state state1 scene bvh params
          b1 b2 hrun,
        (ih state1).mp hrest⟩
    · intro h
      obtain ⟨state1, hrun, hrest⟩ := h
      exact ⟨state1,
        raytrace_samples_reorder L (scheds2 k) (scheds1 k) fuel state state1 scene bvh params
          b2 b1 hrun,
        (ih state1).mpr hrest⟩

/-- An instance of C6: four calls of the path tracer on the 2 by 2 state
`intState` with three samples of budget, run by `parallel_for` in reverse
index order, end in the state that the sequential run ends in. -/
theorem raytrace_calls_order_independent_witness :
    raytrace_calls intLib (fun _ => reverseOrder) 5 intScene ()
        (intParams raytrace_shader_type.raytrace 3 2 false) 4 intState
      = Res.ok
        { width := 2
          height := 2
          samples := 3
          image := List.replicate 4 ⟨15, 18, 39, 0⟩
          hits := List.replicate 4 3
          rngs := [962399495, 962399495, 962399496, 962399496] } :=
  (raytrace_calls_order_independent intLib (fun _ => inOrder) (fun _ => reverseOrder) 5
    intScene () (intParams raytrace_shader_type.raytrace 3 2 false) true false 4 intState
    _).mp (by decide)

/-- C7: `make_state` seeds the per-pixel generators as a function of the fixed
seed constants and of the pixel's linear index only. For any two scenes and
parameter sets on which `make_state` returns, and any index `k` inside both
`rngs` vectors, both states hold at `rngs[k]` the same generator, namely
`pixel_rng k`, an expression in which no width, height, camera or other
parameter occurs. -/
theorem make_state_seeds_by_index (scene1 scene2 : scene_data F)
    (params1 params2 : raytrace_params) (state1 state2 : raytrace_state F R) (k : Nat)
    (h1 : make_state L scene1 params1 = Res.ok state1)
    (h2 : make_state L scene2 params2 = Res.ok state2)
    (hk1 : k < state1.rngs.length) (hk2 : k < state2.rngs.length) :
    state1.rngs[k]? = some (pixel_rng L k) ∧ state2.rngs[k]? = some (pixel_rng L k) ∧
      state1.rngs[k]? = state2.rngs[k]? := by
  have key : ∀ (scene : scene_data F) (params : raytrace_params) (state : raytrace_state F R),
      make_state L scene params = Res.ok state → k < state.rngs.length →
        state.rngs[k]? = some (pixel_rng L k) := by
    intro scene params state h hk
    obtain ⟨_, _, _, _, hr⟩ := make_state_eq L scene params state h
    rw [hr, length_seed_rngs] at hk
    rw [hr]
    exact seed_rngs_getElem? L _ k _ hk
  have e1 := key scene1 params1 state1 h1 hk1
  have e2 := key scene2 params2 state2 h2 hk2
  exact ⟨e1, e2, e1.trans e2.symm⟩

/-- Witness of C7: the 2 by 2 state and the 3 by 3 state of the scene
`intScene` hold the same generator at index 3. -/
theorem make_state_seeds_by_index_witness :
    intState.rngs[3]? = some (pixel_rng intLib 3) :=
  (make_state_seeds_by_index intLib intScene intScene
    (intParams raytrace_shader_type.color 2 0 false)
    { intParams raytrace_shader_type.matte 1 0 true with resolution := 3 }
    intState
    { width := 3
      height := 3
      samples := 0
      image := List.replicate 9 ⟨0, 0, 0, 0⟩
      hits := List.replicate 9 0
      rngs := [962399483, 962399483, 962399484, 962399484, 962399485, 962399485, 962399486,
        962399486, 962399487] }
    3 rfl rfl (by decide) (by decide)).1

/-- C8: `get_shader` returns a shader for each of the eight recognized tags
and throws `std::runtime_error("sampler unknown")` for every other tag; and a
call of `raytrace_samples` with budget left, a valid camera index and an
unrecognized tag throws that exception with the whole render state (sample
counter, accumulator, hit counters, generators) as it was before the call;
whatever the camera index and the budget are, a call with an unrecognized tag
leaves the render state as it was. -/
theorem get_shader_unknown_tag_fails_first (fuel : Nat) :
    (∀ params : raytrace_params, params.shader = raytrace_shader_type.matcap →
      get_shader L fuel params = Res.ok (matcap L)) ∧
    (∀ params : raytrace_params, params.shader = raytrace_shader_type.raytrace →
      get_shader L fuel params = Res.ok (shade_raytrace L fuel)) ∧
    (∀ params : raytrace_params, params.shader = raytrace_shader_type.matte →
      get_shader L fuel params = Res.ok (shade_matte L)) ∧
    (∀ params : raytrace_params, params.shader = raytrace_shader_type.eyelight →
      get_shader L fuel params = Res.ok (shade_eyelight L)) ∧
    (∀ params : raytrace_params, params.shader = raytrace_shader_type.normal →
      get_shader L fuel params = Res.ok (shade_normal L)) ∧
    (∀ params : raytrace_params, params.shader = raytrace_shader_type.texcoord →
      get_shader L fuel params = Res.ok (shade_texcoord L)) ∧
    (∀ params : raytrace_params, params.shader = raytrace_shader_type.color →
      get_shader L fuel params = Res.ok (shade_color L)) ∧
    (∀ params : raytrace_params, params.shader = raytrace_shader_type.cellshading →
      get_shader L fuel params = Res.ok (cellshading L)) ∧
    (∀ (params : raytrace_params) (tag : Nat),
      params.shader = raytrace_shader_type.other tag →
        (get_shader L fuel params : Res (raytrace_shader_func F R B))
          = Res.throw exception.runtime_error "sampler unknown") ∧
    (∀ (sched : Scheduler) (state : raytrace_state F R) (scene : scene_data F) (bvh : B)
      (params : raytrace_params) (camera : camera_data F) (tag : Nat),
      state.samples < params.samples →
      index? scene.cameras params.camera = some camera →
      params.shader = raytrace_shader_type.other tag →
        raytrace_samples L sched fuel state scene bvh params
          = (Res.throw exception.runtime_error "sampler unknown", state)) ∧
    (∀ (sched : Scheduler) (state : raytrace_state F R) (scene : scene_data F) (bvh : B)
      (params : raytrace_params) (tag : Nat),
      params.shader = raytrace_shader_type.other tag →
        (raytrace_samples L sched fuel state scene bvh params).2 = state) := by
  refine ⟨?_, ?_, ?_, ?_, ?_, ?_, ?_, ?_, ?_, ?_, ?_⟩
  · intro params h
    simp only [get_shader, h]
  · intro params h
    simp only [get_shader, h]
  · intro params h
    simp only [get_shader, h]
  · intro params h
    simp only [get_shader, h]
  · intro params h
    simp only [get_shader, h]
  · intro params h
    simp only [get_shader, h]
  · intro params h
    simp only [get_shader, h]
  · intro params h
    simp only [get_shader, h]
  · intro params tag h
    simp only [get_shader, h]
  · intro sched state scene bvh params camera tag hbudget hcam h
    have hsh : (get_shader L fuel params : Res (raytrace_shader_func F R B))
        = Res.throw exception.runtime_error "sampler unknown" := by
      simp only [get_shader, h]
    unfold raytrace_samples
    rw [if_neg (not_le.mpr hbudget), hcam, hsh]
  · intro sched state scene bvh params tag h
    have hsh : (get_shader L fuel params : Res (raytrace_shader_func F R B))
        = Res.throw exception.runtime_error "sampler unknown" := by
      simp only [get_shader, h]
    unfold raytrace_samples
    split
    · rfl
    · cases index? scene.cameras params.camera with
      | none => rfl
      | some camera => simp only [hsh]

/-- Witness of C8: the state `intState` with budget left and the unrecognized
tag 7. -/
theorem get_shader_unknown_tag_fails_first_witness :
    raytrace_samples intLib reverseOrder 5 intState intScene ()
        (intParams (raytrace_shader_type.other 7) 2 0 false)
      = (Res.throw exception.runtime_error "sampler unknown", intState) :=
  (get_shader_unknown_tag_fails_first intLib 5).2.2.2.2.2.2.2.2.2.1 reverseOrder intState intScene
    () (intParams (raytrace_shader_type.other 7) 2 0 false) ⟨intFrame, 1, 1, 1⟩ 7
    (by decide) rfl rfl

/-- C20: the pixel addressing of the scheduler is row-major. For a state with
`width > 0` and `height > 0` whose number of pixels `width * height` fits in
an `int`, and a call of `raytrace_samples` with budget left, a valid camera
index and a recognized shader tag: the coordinates `i = idx % width` and
`j = idx / width` that the loop bodies compute (`pixel_coords`) satisfy
`0 <= i < width`, `0 <= j < height` and `j * width + i = idx` for every `idx`
in `[0, width * height)`; every pixel `(i, j)` of the raster is the image of
exactly one index, `j * width + i`; the call is the run of its loop body over
an arrangement of the indices `0, ..., width * height - 1` in which each of
them occurs exactly once and no other index occurs; when the call returns,
every index has received exactly one sample, that of its own pixel: one
radiance added to `image[idx]`, 1 added to `hits[idx]`, `rngs[idx]` advanced;
and the call does return on a state with the size invariant when the shader
returns on every ray. -/
theorem raytrace_samples_row_major (sched : Scheduler) (fuel : Nat)
    (state : raytrace_state F R) (scene : scene_data F) (bvh : B) (params : raytrace_params)
    (camera : camera_data F) (shader : raytrace_shader_func F R B)
    (hw : 0 < state.width) (hh : 0 < state.height)
    (hfit : state.width * state.height < 2 ^ 31)
    (hbudget : state.samples < params.samples)
    (hcamera : index? scene.cameras params.camera = some camera)
    (hshader : get_shader L fuel params = Res.ok shader) :
    (∀ idx : Nat, (idx : Int) < state.width * state.height →
      0 ≤ (pixel_coords state.width idx).1 ∧ (pixel_coords state.width idx).1 < state.width ∧
      0 ≤ (pixel_coords state.width idx).2 ∧ (pixel_coords state.width idx).2 < state.height ∧
      (pixel_coords state.width idx).2 * state.width + (pixel_coords state.width idx).1 = idx) ∧
    (∀ i j : Int, 0 ≤ i → i < state.width → 0 ≤ j → j < state.height →
      ∃ idx : Nat, (idx : Int) < state.width * state.height ∧
        (idx : Int) = j * state.width + i ∧ pixel_coords state.width idx = (i, j) ∧
        ∀ other : Nat, pixel_coords state.width other = (i, j) → other = idx) ∧
    (∃ order : List Nat,
      order.Perm (List.range (state.width * state.height).toNat) ∧
      (∀ idx : Nat, (idx : Int) < state.width * state.height → order.count idx = 1) ∧
      (∀ idx : Nat, state.width * state.height ≤ (idx : Int) → order.count idx = 0) ∧
      raytrace_samples L sched fuel state scene bvh params =
        for_pixels
          (if params.samples = 1 then pixel_center L shader scene bvh camera params
            else pixel_jitter L shader scene bvh camera params)
          order { state with samples := state.samples + 1 }) ∧
    (∀ state1, raytrace_samples L sched fuel state scene bvh params = (Res.ok (), state1) →
      ∀ idx : Nat, (idx : Int) < state.width * state.height →
        ∃ pixel count rng sample rng1,
          state.image[idx]? = some pixel ∧ state.hits[idx]? = some count ∧
          state.rngs[idx]? = some rng ∧
          pixel_sample L (decide (params.samples ≠ 1)) shader scene bvh camera params
            state.width state.height idx rng = Res.ok (sample, rng1) ∧
          state1.image[idx]? = some (add4 L pixel sample) ∧
          state1.hits[idx]? = some (count + 1) ∧
          state1.rngs[idx]? = some rng1) ∧
    (sized state → (∀ ray rng, ∃ v, shader scene bvh ray 0 rng params = Res.ok v) →
      ∃ state1, raytrace_samples L sched fuel state scene bvh params = (Res.ok (), state1)) ∧
    (∀ (idx : Nat) (rng : R) (st : raytrace_state F R), st.rngs[idx]? = some rng →
        pixel_center L shader scene bvh camera params idx st
          = trace_pixel L shader scene bvh camera params idx
            ⟨L.fdiv (L.fadd (L.ofInt (pixel_coords st.width idx).1) (L.dec 5 1))
                (L.ofInt st.width),
              L.fdiv (L.fadd (L.ofInt (pixel_coords st.width idx).2) (L.dec 5 1))
                (L.ofInt st.height)⟩ rng st ∧
        pixel_jitter L shader scene bvh camera params idx st
          = trace_pixel L shader scene bvh camera params idx
            ⟨L.fdiv (L.fadd (L.ofInt (pixel_coords st.width idx).1) (L.rand1f rng).1)
                (L.ofInt st.width),
              L.fdiv
                (L.fadd (L.ofInt (pixel_coords st.width idx).2)
                  (L.rand1f (L.rand1f rng).2).1)
                (L.ofInt st.height)⟩ (L.rand1f (L.rand1f rng).2).2 st) := by
  have hpos : 0 ≤ state.width * state.height := (mul_pos hw hh).le
  have hfits : int32 (state.width * state.height) = state.width * state.height :=
    int32_of_fits _ (by omega) hfit
  have hlt : ∀ idx : Nat, (idx : Int) < state.width * state.height ↔
      idx < (int32 (state.width * state.height)).toNat := by
    intro idx
    rw [hfits]
    omega
  obtain ⟨hc1, hc2⟩ := pixel_coords_spec state.width state.height hw
  refine ⟨hc1, hc2, ?_, ?_, ?_, ?_⟩
  · refine ⟨pixel_order sched params (int32 (state.width * state.height)).toNat, ?_, ?_, ?_, ?_⟩
    · rw [hfits]
      exact pixel_order_perm sched params _
    · intro idx hidx
      exact List.count_eq_one_of_mem (pixel_order_nodup sched params _)
        ((mem_pixel_order sched params _ idx).mpr ((hlt idx).mp hidx))
    · intro idx hidx
      refine List.count_eq_zero_of_not_mem ?_
      intro hmem
      have := (hlt idx).mpr ((mem_pixel_order sched params _ idx).mp hmem)
      omega
    · rw [raytrace_samples_run L sched fuel state scene bvh params camera shader hbudget
        hcamera hshader]
      by_cases h1 : params.samples = 1
      · simp [h1, pixel_body]
      · simp [h1, pixel_body]
  · intro state1 hrun idx hidx
    exact (raytrace_samples_slots L sched fuel state state1 scene bvh params camera shader
      hbudget hcamera hshader hrun).2 idx ((hlt idx).mp hidx)
  · intro hsized htotal
    exact raytrace_samples_returns L sched fuel state scene bvh params camera shader hcamera
      hshader htotal hsized
  · intro idx rng st hrng
    constructor
    · simp only [pixel_center, hrng, pixel_coords]
    · simp only [pixel_jitter, hrng, pixel_coords]

/-- Witness of C20: in the 2 by 2 state `intState` the index 3 is the pixel
`(1, 1)`, and a call that runs its pixels in reverse order adds 1 to
`hits[3]`. -/
theorem raytrace_samples_row_major_witness :
    pixel_coords intState.width 3 = (1, 1) ∧
      (pixel_coords intState.width 3).2 * intState.width + (pixel_coords intState.width 3).1
        = ((3 : Nat) : Int) ∧
      ∃ count, intState.hits[3]? = some count ∧
        (raytrace_samples intLib reverseOrder 0 intState intScene ()
          (intParams raytrace_shader_type.color 2 0 false)).2.hits[3]? = some (count + 1) := by
  have h := raytrace_samples_row_major intLib reverseOrder 0 intState intScene ()
    (intParams raytrace_shader_type.color 2 0 false) ⟨intFrame, 1, 1, 1⟩ (shade_color intLib)
    (by decide) (by decide) (by decide) (by decide) (by decide) rfl
  refine ⟨by decide, (h.1 3 (by decide)).2.2.2.2, ?_⟩
  obtain ⟨_, count, _, _, _, _, h2, _, _, _, h6, _⟩ :=
    h.2.2.2.1 _ (by decide :
      raytrace_samples intLib reverseOrder 0 intState intScene ()
        (intParams raytrace_shader_type.color 2 0 false)
      = (Res.ok (), (raytrace_samples intLib reverseOrder 0 intState intScene ()
        (intParams raytrace_shader_type.color 2 0 false)).2)) 3 (by decide)
  exact ⟨count, h2, h6⟩

/-- C21: the counters of a reachable state agree. In every state that
`make_state` followed by `K` calls of `raytrace_samples` that return reaches,
with fixed scene and parameters and whatever orders the parallel branch takes,
the vector of hit counters has `width * height` elements and each of them
equals the sample counter; the sample counter is at most
`max(params.samples, 0)` and equals `min(K, max(params.samples, 0))`. The `K`
calls do return when the camera index is valid, the shader tag is recognized
and the shader returns on every ray. -/
theorem raytrace_calls_hits_equal_samples (scheds : Nat → Scheduler) (fuel : Nat)
    (scene : scene_data F) (bvh : B) (params : raytrace_params) (K : Nat)
    (state0 : raytrace_state F R)
    (hinit : make_state L scene params = Res.ok state0) :
    (∀ state, raytrace_calls L scheds fuel scene bvh params K state0 = Res.ok state →
      state.hits.length = (int32 (state.width * state.height)).toNat ∧
      (∀ idx : Nat, idx < state.hits.length → state.hits[idx]? = some state.samples) ∧
      state.samples ≤ max params.samples 0 ∧
      state.samples = min (K : Int) (max params.samples 0)) ∧
    (∀ camera shader, index? scene.cameras params.camera = some camera →
      get_shader L fuel params = Res.ok shader →
      (∀ ray rng, ∃ v, shader scene bvh ray 0 rng params = Res.ok v) →
      ∃ state, raytrace_calls L scheds fuel scene bvh params K state0 = Res.ok state) := by
  obtain ⟨_, hs0, hi0, hh0, hr0⟩ := make_state_eq L scene params state0 hinit
  have hsized0 : sized state0 := by
    refine ⟨?_, ?_, ?_⟩
    · rw [hi0, List.length_replicate]
    · rw [hh0, List.length_replicate]
    · rw [hr0, length_seed_rngs]
  constructor
  · intro state hcalls
    obtain ⟨hshape, hsamples⟩ := raytrace_calls_count L scheds fuel scene bvh params K 0
      state0 state (by rw [hs0]; omega) hcalls
    have hsamples1 : state.samples = min (K : Int) (max params.samples 0) := by
      rw [hsamples]
      congr 2
      omega
    obtain ⟨_, hlen, _⟩ := sized_of_same_shape hshape hsized0
    have hinv0 : ∀ idx : Nat, idx < (int32 (state0.width * state0.height)).toNat →
        state0.hits[idx]? = some state0.samples := by
      intro idx hidx
      rw [hh0, hs0, List.getElem?_replicate, if_pos hidx]
    have hall := raytrace_calls_hits L scheds fuel scene bvh params K state0 state hinv0 hcalls
    refine ⟨hlen, ?_, ?_, hsamples1⟩
    · intro idx hidx
      rw [hlen, hshape.1, hshape.2.1] at hidx
      exact hall idx hidx
    · rw [hsamples1]
      exact min_le_right _ _
  · intro camera shader hcamera hshader htotal
    exact raytrace_calls_returns L scheds fuel scene bvh params camera shader hcamera hshader
      htotal K state0 hsized0

/-- Witness of C21: three calls with a budget of two samples, the parallel
branch running its pixels in reverse order, reach `intStateTwo`, whose four
hit counters and sample counter are all `2 = min(3, 2)`. -/
theorem raytrace_calls_hits_equal_samples_witness :
    make_state intLib intScene (intParams raytrace_shader_type.color 2 0 false)
        = Res.ok intState ∧
      raytrace_calls intLib (fun _ => reverseOrder) 0 intScene ()
        (intParams raytrace_shader_type.color 2 0 false) 3 intState = Res.ok intStateTwo ∧
      intStateTwo.hits = [2, 2, 2, 2] ∧
      (∀ idx : Nat, idx < intStateTwo.hits.length →
        intStateTwo.hits[idx]? = some intStateTwo.samples) ∧
      intStateTwo.samples = min ((3 : Nat) : Int) (max 2 0) :=
  ⟨by decide, by decide, rfl,
    ((raytrace_calls_hits_equal_samples intLib (fun _ => reverseOrder) 0 intScene ()
      (intParams raytrace_shader_type.color 2 0 false) 3 intState (by decide)).1 intStateTwo
        (by decide)).2.1,
    ((raytrace_calls_hits_equal_samples intLib (fun _ => reverseOrder) 0 intScene ()
      (intParams raytrace_shader_type.color 2 0 false) 3 intState (by decide)).1 intStateTwo
        (by decide)).2.2.2⟩

end SchedulerTheorems

/-! ## The path tracer -/

section PathTracerTheorems

variable {F R B : Type} (L : Lib F R B)

/-- C9: for every ray on which the intersection oracle reports no hit, and
every bounce index, generator and parameter set, `shade_raytrace` returns the
environment lookup for the ray direction as RGB with alpha 0 and the generator
untouched (nothing was drawn); the result needs nesting depth 1 only, that is,
no recursive call is made. -/
theorem shade_raytrace_miss (fuel : Nat) (scene : scene_data F) (bvh : B) (ray : ray3f F)
    (bounce : Int) (rng : R) (params : raytrace_params)
    (hmiss : (L.intersect_bvh bvh scene ray).hit = false) :
    shade_raytrace L (fuel + 1) scene bvh ray bounce rng params
        = Res.ok (⟨(L.eval_environment scene ray.d).x, (L.eval_environment scene ray.d).y,
            (L.eval_environment scene ray.d).z, L.ofInt 0⟩, rng) ∧
      shade_raytrace L 1 scene bvh ray bounce rng params
        = Res.ok (⟨(L.eval_environment scene ray.d).x, (L.eval_environment scene ray.d).y,
            (L.eval_environment scene ray.d).z, L.ofInt 0⟩, rng) := by
  constructor
  · simp only [shade_raytrace, hmiss, Bool.not_false, if_true]
  · simp only [shade_raytrace, hmiss, Bool.not_false, if_true]

/-- Witness of C9: a ray pointing up the `z` axis misses the scene
`intScene`. -/
theorem shade_raytrace_miss_witness :
    shade_raytrace intLib 1 intScene () ⟨⟨0, 0, 0⟩, ⟨0, 0, 1⟩⟩ 3 11
        (intParams raytrace_shader_type.raytrace 2 4 false)
      = Res.ok (⟨0, 0, 1, 0⟩, 11) :=
  (shade_raytrace_miss intLib 0 intScene () ⟨⟨0, 0, 0⟩, ⟨0, 0, 1⟩⟩ 3 11
    (intParams raytrace_shader_type.raytrace 2 4 false) rfl).1

/-- C10: for every hit (the instance and shape indices of the hit being valid)
whose opacity skip is not taken and whose bounce index is at least
`params.bounces`, `shade_raytrace` returns exactly the emission of the
resolved material as RGB with alpha 0, at nesting depth 1, that is, with no
recursive call; the generator has advanced by the one draw of the opacity
test. In particular, with `params.bounces = 0`, bounce index 0 and opacity 1,
in a float arithmetic where `1 - 1` is `0` and no draw of `rand1f` is below
`0`, the radiance of a primary ray that hits is the emission, whatever the
material type is. -/
theorem shade_raytrace_depth_cutoff (fuel : Nat) (scene : scene_data F) (bvh : B)
    (ray : ray3f F) (bounce : Int) (rng : R) (params : raytrace_params)
    (inst : instance_data F) (shape : shape_data)
    (hhit : (L.intersect_bvh bvh scene ray).hit = true)
    (hinst : index? scene.instances (L.intersect_bvh bvh scene ray).instance_ = some inst)
    (hshape : index? scene.shapes inst.shape = some shape) :
    (L.flt (L.rand1f rng).1
        (L.fsub (L.ofInt 1)
          (L.eval_material scene inst (L.intersect_bvh bvh scene ray).element
            (L.intersect_bvh bvh scene ray).uv).opacity) = false →
      bounce ≥ params.bounces →
      shade_raytrace L (fuel + 1) scene bvh ray bounce rng params
        = Res.ok (⟨(L.eval_material scene inst (L.intersect_bvh bvh scene ray).element
              (L.intersect_bvh bvh scene ray).uv).emission.x,
            (L.eval_material scene inst (L.intersect_bvh bvh scene ray).element
              (L.intersect_bvh bvh scene ray).uv).emission.y,
            (L.eval_material scene inst (L.intersect_bvh bvh scene ray).element
              (L.intersect_bvh bvh scene ray).uv).emission.z, L.ofInt 0⟩, (L.rand1f rng).2)) ∧
    ((L.eval_material scene inst (L.intersect_bvh bvh scene ray).element
        (L.intersect_bvh bvh scene ray).uv).opacity = L.ofInt 1 →
      L.fsub (L.ofInt 1) (L.ofInt 1) = L.ofInt 0 →
      (∀ g : R, L.flt (L.rand1f g).1 (L.ofInt 0) = false) →
      params.bounces = 0 → bounce = 0 →
      shade_raytrace L (fuel + 1) scene bvh ray bounce rng params
        = Res.ok (⟨(L.eval_material scene inst (L.intersect_bvh bvh scene ray).element
              (L.intersect_bvh bvh scene ray).uv).emission.x,
            (L.eval_material scene inst (L.intersect_bvh bvh scene ray).element
              (L.intersect_bvh bvh scene ray).uv).emission.y,
            (L.eval_material scene inst (L.intersect_bvh bvh scene ray).element
              (L.intersect_bvh bvh scene ray).uv).emission.z, L.ofInt 0⟩, (L.rand1f rng).2)) := by
  have main : L.flt (L.rand1f rng).1
        (L.fsub (L.ofInt 1)
          (L.eval_material scene inst (L.intersect_bvh bvh scene ray).element
            (L.intersect_bvh bvh scene ray).uv).opacity) = false →
      bounce ≥ params.bounces →
      shade_raytrace L (fuel + 1) scene bvh ray bounce rng params
        = Res.ok (⟨(L.eval_material scene inst (L.intersect_bvh bvh scene ray).element
              (L.intersect_bvh bvh scene ray).uv).emission.x,
            (L.eval_material scene inst (L.intersect_bvh bvh scene ray).element
              (L.intersect_bvh bvh scene ray).uv).emission.y,
            (L.eval_material scene inst (L.intersect_bvh bvh scene ray).element
              (L.intersect_bvh bvh scene ray).uv).emission.z, L.ofInt 0⟩, (L.rand1f rng).2) := by
    intro hskip hdepth
    simp only [shade_raytrace, hhit, Bool.not_true, Bool.false_eq_true, if_false, hinst,
      hshape, hskip, if_pos hdepth]
  refine ⟨main, ?_⟩
  intro hfull hsub hdraw hbounces hbounce
  apply main
  · rw [hfull, hsub]
    exact hdraw rng
  · rw [hbounces, hbounce]

/-- Witness of C10: a primary ray down the `z` axis hits the opaque emitter of
`intScene`; with zero bounces the radiance is its emission `(5, 6, 7)`. -/
theorem shade_raytrace_depth_cutoff_witness :
    shade_raytrace intLib 1 intScene () ⟨⟨0, 0, 0⟩, ⟨0, 0, -1⟩⟩ 0 11
        (intParams raytrace_shader_type.raytrace 2 0 false)
      = Res.ok (⟨5, 6, 7, 0⟩, 12) :=
  (shade_raytrace_depth_cutoff intLib 0 intScene () ⟨⟨0, 0, 0⟩, ⟨0, 0, -1⟩⟩ 0 11
    (intParams raytrace_shader_type.raytrace 2 0 false) ⟨intFrame, 0, 0⟩ ⟨[], [], [(0, 1, 2)]⟩
    (by decide) (by decide) (by decide)).2 (by decide) (by decide) (fun _ => by
      show decide ((0 : Int) < 0) = false
      decide)
    (by decide) (by decide)

/-- C11: for every hit (the instance and shape indices of the hit being valid)
whose resolved material has opacity 1, and for every generator state, the
opacity test `rand1f(rng) < 1 - material.opacity` of `shade_raytrace` is false
and the call continues with the depth cutoff and the material dispatch
(`shade_surface`), not with the skip; this in any float arithmetic where
`1 - 1` is `0` and no draw of `rand1f`, a variate in `[0, 1)`, is below `0`. -/
theorem shade_raytrace_opaque_never_skips (fuel : Nat) (scene : scene_data F) (bvh : B)
    (ray : ray3f F) (bounce : Int) (rng : R) (params : raytrace_params)
    (inst : instance_data F) (shape : shape_data)
    (hhit : (L.intersect_bvh bvh scene ray).hit = true)
    (hinst : index? scene.instances (L.intersect_bvh bvh scene ray).instance_ = some inst)
    (hshape : index? scene.shapes inst.shape = some shape)
    (hfull : (L.eval_material scene inst (L.intersect_bvh bvh scene ray).element
      (L.intersect_bvh bvh scene ray).uv).opacity = L.ofInt 1)
    (hsub : L.fsub (L.ofInt 1) (L.ofInt 1) = L.ofInt 0)
    (hdraw : ∀ g : R, L.flt (L.rand1f g).1 (L.ofInt 0) = false) :
    L.flt (L.rand1f rng).1
        (L.fsub (L.ofInt 1)
          (L.eval_material scene inst (L.intersect_bvh bvh scene ray).element
            (L.intersect_bvh bvh scene ray).uv).opacity) = false ∧
      shade_raytrace L (fuel + 1) scene bvh ray bounce rng params =
        shade_surface L (shade_raytrace L fuel) scene bvh ray bounce (L.rand1f rng).2 params
          (L.eval_material scene inst (L.intersect_bvh bvh scene ray).element
            (L.intersect_bvh bvh scene ray).uv)
          (L.transform_point inst.frame
            (L.eval_position shape (L.intersect_bvh bvh scene ray).element
              (L.intersect_bvh bvh scene ray).uv))
          (facing_normal L shape ray
            (L.transform_direction inst.frame
              (L.eval_normal shape (L.intersect_bvh bvh scene ray).element
                (L.intersect_bvh bvh scene ray).uv))) := by
  have htest : L.flt (L.rand1f rng).1
      (L.fsub (L.ofInt 1)
        (L.eval_material scene inst (L.intersect_bvh bvh scene ray).element
          (L.intersect_bvh bvh scene ray).uv).opacity) = false := by
    rw [hfull, hsub]
    exact hdraw rng
  refine ⟨htest, ?_⟩
  rw [shade_raytrace_hit L fuel scene bvh ray bounce rng params inst shape hhit hinst hshape,
    htest]
  simp only [Bool.false_eq_true, if_false]

/-- Witness of C11: the opaque surface of `intScene`, hit by a ray down the
`z` axis, is not skipped. -/
theorem shade_raytrace_opaque_never_skips_witness :
    intLib.flt (intLib.rand1f 11).1
        (intLib.fsub (intLib.ofInt 1)
          (intLib.eval_material intScene ⟨intFrame, 0, 0⟩ 1 ⟨0, 0⟩).opacity) = false :=
  (shade_raytrace_opaque_never_skips intLib 0 intScene () ⟨⟨0, 0, 0⟩, ⟨0, 0, -1⟩⟩ 0 11
    (intParams raytrace_shader_type.raytrace 2 2 false) ⟨intFrame, 0, 0⟩
    ⟨[], [], [(0, 1, 2)]⟩ (by decide) (by decide) (by decide) (by decide) (by decide)
    (fun _ => by
      show decide ((0 : Int) < 0) = false
      decide)).1

/-- C12: every value that `shade_raytrace` returns has alpha channel exactly
0, for every scene, ray, bounce index, generator state and parameter set, in
any float arithmetic where `0 + 0`, `1 * 0` and `0 * 0` are `0`: the miss and
the depth cutoff return alpha 0, the opacity skip returns what its recursive
call returns, and every branch for the materials matte, reflective, glossy,
transparent and refractive adds to alpha 0 the recursive alpha times the alpha
1 of `rgb_to_rgba` or times 0. (For a material outside these five no value is
returned at all.) -/
theorem shade_raytrace_alpha_zero
    (h00 : L.fadd (L.ofInt 0) (L.ofInt 0) = L.ofInt 0)
    (h10 : L.fmul (L.ofInt 1) (L.ofInt 0) = L.ofInt 0)
    (hz0 : L.fmul (L.ofInt 0) (L.ofInt 0) = L.ofInt 0)
    (fuel : Nat) (scene : scene_data F) (bvh : B) (ray : ray3f F) (bounce : Int) (rng : R)
    (params : raytrace_params) (v : vec4f F) (rng1 : R)
    (h : shade_raytrace L fuel scene bvh ray bounce rng params = Res.ok (v, rng1)) :
    v.w = L.ofInt 0 := by
  induction fuel generalizing ray bounce rng v rng1 with
  | zero => simp [shade_raytrace] at h
  | succ k ih =>
    cases hhit : (L.intersect_bvh bvh scene ray).hit with
    | false =>
      simp only [shade_raytrace, hhit, Bool.not_false, if_true, Res.ok.injEq,
        Prod.mk.injEq] at h
      rw [← h.1]
    | true =>
      cases hinst : index? scene.instances (L.intersect_bvh bvh scene ray).instance_ with
      | none => simp [shade_raytrace, hhit, hinst] at h
      | some inst =>
        cases hshape : index? scene.shapes inst.shape with
        | none => simp [shade_raytrace, hhit, hinst, hshape] at h
        | some shape =>
          rw [shade_raytrace_hit L k scene bvh ray bounce rng params inst shape hhit hinst
            hshape] at h
          split at h
          · exact ih _ _ _ v rng1 h
          · exact shade_surface_alpha L (shade_raytrace L k) scene bvh ray bounce _ params _ _ _
              v rng1 h00 h10 hz0 (fun ray1 b g rad g1 hr => ih ray1 b g rad g1 hr) h

/-- Witness of C12: a path of two nested calls in `intScene`, a matte bounce
into the environment, returns alpha 0. -/
theorem shade_raytrace_alpha_zero_witness :
    shade_raytrace intLib 5 intScene () ⟨⟨0, 0, 0⟩, ⟨0, 0, -1⟩⟩ 0 11
        (intParams raytrace_shader_type.raytrace 2 2 false) = Res.ok (⟨5, 6, 13, 0⟩, 13) ∧
      (⟨5, 6, 13, 0⟩ : vec4f Int).w = intLib.ofInt 0 :=
  ⟨by decide,
    shade_raytrace_alpha_zero intLib (by decide) (by decide) (by decide) 5 intScene ()
      ⟨⟨0, 0, 0⟩, ⟨0, 0, -1⟩⟩ 0 11 (intParams raytrace_shader_type.raytrace 2 2 false)
      ⟨5, 6, 13, 0⟩ 13 (by decide)⟩

/-- Counterexample to C18 as stated: in `glassScene`, three planes of opacity 0
under the camera, with `params.bounces = 0`, a call started at bounce 0 takes
the opacity skip three times: it does not end within nesting depth
`bounces + 1 = 1`, nor within depth 3, it ends at depth 4, and its innermost
call, the one that misses, runs at bounce index 3, above `params.bounces`. -/
theorem shade_raytrace_depth_counterexample :
    (intParams raytrace_shader_type.raytrace 2 0 false).bounces ≥ 0 ∧
    shade_raytrace milliLib 1 glassScene () ⟨⟨0, 0, 0⟩, ⟨0, 0, -1000⟩⟩ 0 7
        (intParams raytrace_shader_type.raytrace 2 0 false) = Res.timeout ∧
    shade_raytrace milliLib 3 glassScene () ⟨⟨0, 0, 0⟩, ⟨0, 0, -1000⟩⟩ 0 7
        (intParams raytrace_shader_type.raytrace 2 0 false) = Res.timeout ∧
    shade_raytrace milliLib 4 glassScene () ⟨⟨0, 0, 0⟩, ⟨0, 0, -1000⟩⟩ 0 7
        (intParams raytrace_shader_type.raytrace 2 0 false)
      = Res.ok (⟨0, 0, -1000, 0⟩, 10) ∧
    shade_raytrace milliLib 4 glassScene () ⟨⟨0, 0, 0⟩, ⟨0, 0, -1000⟩⟩ 0 7
        (intParams raytrace_shader_type.raytrace 2 0 false)
      = shade_raytrace milliLib 1 glassScene () ⟨⟨0, 0, -3000⟩, ⟨0, 0, -1000⟩⟩ 3 10
        (intParams raytrace_shader_type.raytrace 2 0 false) := by
  decide

/-- C18, amended: along paths that never take the opacity-skip branch (the
opacity test is false at every hit, as it is when every material is opaque)
the recursion of `shade_raytrace` is bounded by the bounce limit: for every
ray, generator state and bounce index, the call ends within nesting depth
`max(bounces - bounce, 0) + 1`, so a call started at bounce 0 with
`bounces >= 0` nests at most `bounces + 1` deep and makes no recursive call
with a bounce index above `params.bounces`; and it returns a value when,
moreover, every hit carries valid instance and shape indices and every
material type is one of the five of the dispatch. (The skip branch itself
recurses with `bounce + 1` before the depth test: every skip taken adds one
level that the bounce limit does not bound.) -/
theorem shade_raytrace_depth_bounded_without_skip (scene : scene_data F) (bvh : B)
    (params : raytrace_params)
    (hnoskip : ∀ inst element uv g,
      L.flt (L.rand1f g).1
        (L.fsub (L.ofInt 1) (L.eval_material scene inst element uv).opacity) = false)
    (fuel : Nat) (ray : ray3f F) (bounce : Int) (rng : R)
    (hfuel : (params.bounces - bounce).toNat + 1 ≤ fuel) :
    shade_raytrace L fuel scene bvh ray bounce rng params ≠ Res.timeout ∧
    ((∀ ray1, (L.intersect_bvh bvh scene ray1).hit = true →
        ∃ inst shape,
          index? scene.instances (L.intersect_bvh bvh scene ray1).instance_ = some inst ∧
          index? scene.shapes inst.shape = some shape) →
      (∀ inst element uv tag,
        (L.eval_material scene inst element uv).type ≠ material_type.other tag) →
      ∃ v, shade_raytrace L fuel scene bvh ray bounce rng params = Res.ok v) := by
  constructor
  · induction fuel generalizing ray bounce rng with
    | zero => omega
    | succ k ih =>
      cases hhit : (L.intersect_bvh bvh scene ray).hit with
      | false => simp [shade_raytrace, hhit]
      | true =>
        cases hinst : index? scene.instances (L.intersect_bvh bvh scene ray).instance_ with
        | none => simp [shade_raytrace, hhit, hinst]
        | some inst =>
          cases hshape : index? scene.shapes inst.shape with
          | none => simp [shade_raytrace, hhit, hinst, hshape]
          | some shape =>
            rw [shade_raytrace_hit L k scene bvh ray bounce rng params inst shape hhit hinst
              hshape, hnoskip]
            simp only [Bool.false_eq_true, if_false]
            exact shade_surface_cases L (fun r => r ≠ Res.timeout) (shade_raytrace L k) scene
              bvh ray bounce _ params _ _ _ (fun v => by simp)
              (fun b w r hr => accumulate_ne_timeout L b w r hr)
              (fun b r hr => accumulate_plain_ne_timeout L b r hr) (fun _ => by simp)
              (fun hlt ray1 g => ih ray1 (bounce + 1) g (by omega))
  · intro hvalid hfive
    induction fuel generalizing ray bounce rng with
    | zero => omega
    | succ k ih =>
      cases hhit : (L.intersect_bvh bvh scene ray).hit with
      | false =>
        exact ⟨(⟨(L.eval_environment scene ray.d).x, (L.eval_environment scene ray.d).y,
          (L.eval_environment scene ray.d).z, L.ofInt 0⟩, rng), by
            simp only [shade_raytrace, hhit, Bool.not_false, if_true]⟩
      | true =>
        obtain ⟨inst, shape, hinst, hshape⟩ := hvalid ray hhit
        rw [shade_raytrace_hit L k scene bvh ray bounce rng params inst shape hhit hinst
          hshape, hnoskip]
        simp only [Bool.false_eq_true, if_false]
        exact shade_surface_cases L (fun r => ∃ v, r = Res.ok v) (shade_raytrace L k) scene
          bvh ray bounce _ params _ _ _ (fun v => ⟨v, rfl⟩)
          (fun b w r hr => accumulate_returns L b w r hr)
          (fun b r hr => accumulate_plain_returns L b r hr)
          (fun htag => by
            obtain ⟨tag, htag⟩ := htag
            exact absurd htag (hfive _ _ _ tag))
          (fun hlt ray1 g => ih ray1 (bounce + 1) g (by omega))

/-- Witness of the amended C18: in `intScene`, whose one material is opaque,
a call started at bounce 0 with `bounces = 2` does not run out of nesting
depth 3. -/
theorem shade_raytrace_depth_bounded_without_skip_witness :
    shade_raytrace intLib 3 intScene () ⟨⟨0, 0, 0⟩, ⟨0, 0, -1⟩⟩ 0 11
        (intParams raytrace_shader_type.raytrace 2 2 false) ≠ Res.timeout :=
  (shade_raytrace_depth_bounded_without_skip intLib intScene ()
    (intParams raytrace_shader_type.raytrace 2 2 false)
    (fun inst element uv g => by
      show decide ((0 : Int) < 1 - (intLib.eval_material intScene inst element uv).opacity)
        = false
      have h : (intLib.eval_material intScene inst element uv).opacity = (1 : Int) := by
        show (match index? intScene.materials inst.material with
          | some m => (⟨m.type, m.emission, m.color, 1, 0⟩ : material_point Int)
          | none => ⟨material_type.matte, ⟨0, 0, 0⟩, ⟨0, 0, 0⟩, 1, 0⟩).opacity = (1 : Int)
        cases index? intScene.materials inst.material <;> rfl
      rw [h]
      decide)
    3 ⟨⟨0, 0, 0⟩, ⟨0, 0, -1⟩⟩ 0 11 (by decide)).1

/-- C19, the code at the failing input: at a hit on a triangle-backed shape
whose refractive material takes the refraction (non-reflecting) outcome, with
the ray exiting the medium (the reversed ray direction has a negative dot
product with the surface normal `normal0` that the shape evaluates to),
`shade_raytrace` refracts about the reversed normal with the ratio `0.58`,
the ratio of an entering ray, not with `1 / 0.58`: the normal was flipped to
face the ray before the material dispatch, so the exit test of the refractive
branch, made on the flipped normal, is false. This in any float arithmetic
where the dot product with a negated vector is the negated dot product and
the negation of a value below 0 is not below 0. -/
theorem shade_raytrace_refraction_ratio (fuel : Nat) (scene : scene_data F) (bvh : B)
    (ray : ray3f F) (bounce : Int) (rng : R) (params : raytrace_params)
    (inst : instance_data F) (shape : shape_data)
    (hhit : (L.intersect_bvh bvh scene ray).hit = true)
    (hinst : index? scene.instances (L.intersect_bvh bvh scene ray).instance_ = some inst)
    (hshape : index? scene.shapes inst.shape = some shape)
    (hpoints : shape.points = []) (hlines : shape.lines = [])
    (htriangles : shape.triangles ≠ [])
    (hdotneg : ∀ a n, L.dot a (neg3 L n) = L.fneg (L.dot a n))
    (hnegative : ∀ x, L.flt x (L.ofInt 0) = true → L.flt (L.fneg x) (L.ofInt 0) = false)
    (hskip : L.flt (L.rand1f rng).1
      (L.fsub (L.ofInt 1)
        (L.eval_material scene inst (L.intersect_bvh bvh scene ray).element
          (L.intersect_bvh bvh scene ray).uv).opacity) = false)
    (hdepth : bounce < params.bounces)
    (htype : (L.eval_material scene inst (L.intersect_bvh bvh scene ray).element
      (L.intersect_bvh bvh scene ray).uv).type = material_type.refractive)
    (hexit : L.flt
      (L.dot (neg3 L ray.d)
        (L.transform_direction inst.frame
          (L.eval_normal shape (L.intersect_bvh bvh scene ray).element
            (L.intersect_bvh bvh scene ray).uv))) (L.ofInt 0) = true)
    (hrefract : L.flt (L.rand1f (L.rand1f rng).2).1
      (L.fresnel_schlick ⟨L.dec 4 2, L.dec 4 2, L.dec 4 2⟩
        (neg3 L (L.transform_direction inst.frame
          (L.eval_normal shape (L.intersect_bvh bvh scene ray).element
            (L.intersect_bvh bvh scene ray).uv)))
        (neg3 L ray.d)).x = false) :
    shade_raytrace L (fuel + 1) scene bvh ray bounce rng params =
      accumulate L
        ⟨(L.eval_material scene inst (L.intersect_bvh bvh scene ray).element
            (L.intersect_bvh bvh scene ray).uv).emission.x,
          (L.eval_material scene inst (L.intersect_bvh bvh scene ray).element
            (L.intersect_bvh bvh scene ray).uv).emission.y,
          (L.eval_material scene inst (L.intersect_bvh bvh scene ray).element
            (L.intersect_bvh bvh scene ray).uv).emission.z, L.ofInt 0⟩
        ⟨(L.eval_material scene inst (L.intersect_bvh bvh scene ray).element
            (L.intersect_bvh bvh scene ray).uv).color.x,
          (L.eval_material scene inst (L.intersect_bvh bvh scene ray).element
            (L.intersect_bvh bvh scene ray).uv).color.y,
          (L.eval_material scene inst (L.intersect_bvh bvh scene ray).element
            (L.intersect_bvh bvh scene ray).uv).color.z, L.ofInt 0⟩
        (shade_raytrace L fuel scene bvh
          ⟨L.transform_point inst.frame
              (L.eval_position shape (L.intersect_bvh bvh scene ray).element
                (L.intersect_bvh bvh scene ray).uv),
            L.refract (neg3 L ray.d)
              (neg3 L (L.transform_direction inst.frame
                (L.eval_normal shape (L.intersect_bvh bvh scene ray).element
                  (L.intersect_bvh bvh scene ray).uv)))
              (L.dec 58 2)⟩
          (bounce + 1) (L.rand1f (L.rand1f rng).2).2 params) := by
  have hface := facing_normal_exiting L shape ray _ hpoints hlines htriangles hexit
  have htest : L.flt
      (L.dot (neg3 L ray.d)
        (neg3 L (L.transform_direction inst.frame
          (L.eval_normal shape (L.intersect_bvh bvh scene ray).element
            (L.intersect_bvh bvh scene ray).uv)))) (L.ofInt 0) = false := by
    rw [hdotneg]
    exact hnegative _ hexit
  rw [shade_raytrace_hit L fuel scene bvh ray bounce rng params inst shape hhit hinst hshape,
    hskip, hface]
  simp only [Bool.false_eq_true, if_false, shade_surface, if_neg (not_le.mpr hdepth), htype,
    reduceCtorEq, false_and, hrefract, htest, if_true]

/-- The failing input of C19: the plane of `backScene` with a refractive
material, hit from above by a ray that exits through it (the dot product of
the reversed direction and the surface normal `(0, 0, -1)` is -1). The call
refracts about the reversed normal `(0, 0, 1)` with the ratio 0.58, where
`1 / 0.58` is 1.724 in thousandths. -/
theorem shade_raytrace_refraction_ratio_witness :
    milliLib.dot (neg3 milliLib ⟨0, 0, -1000⟩) ⟨0, 0, -1000⟩ = -1000 ∧
    milliLib.fdiv (milliLib.dec 10 1) (milliLib.dec 58 2) = 1724 ∧
    shade_raytrace milliLib 5 (backScene material_type.refractive) ()
        ⟨⟨0, 0, 0⟩, ⟨0, 0, -1000⟩⟩ 0 100 (intParams raytrace_shader_type.raytrace 2 3 false)
      = accumulate milliLib ⟨100, 100, 100, 0⟩ ⟨200, 400, 600, 0⟩
        (shade_raytrace milliLib 4 (backScene material_type.refractive) ()
          ⟨⟨0, 0, -1000⟩, milliLib.refract ⟨0, 0, 1000⟩ ⟨0, 0, 1000⟩ 580⟩ 1 102
          (intParams raytrace_shader_type.raytrace 2 3 false)) :=
  ⟨by decide, by decide,
    (shade_raytrace_refraction_ratio milliLib 4 (backScene material_type.refractive) ()
      ⟨⟨0, 0, 0⟩, ⟨0, 0, -1000⟩⟩ 0 100 (intParams raytrace_shader_type.raytrace 2 3 false)
      ⟨milliFrame (-1000), 0, 0⟩ ⟨[], [], [(0, 2, 1)]⟩ (by decide) (by decide) (by decide)
      rfl rfl (by decide)
      (fun a n => by
        show Int.tdiv (a.x * -n.x + a.y * -n.y + a.z * -n.z) 1000
          = -Int.tdiv (a.x * n.x + a.y * n.y + a.z * n.z) 1000
        rw [← Int.neg_tdiv]
        congr 1
        ring)
      (fun x hx => by
        have h1 : x < 1000 * 0 := of_decide_eq_true hx
        show decide (-x < 1000 * 0) = false
        exact decide_eq_false (by omega))
      (by decide) (by decide) (by decide) (by decide) (by decide)).trans (by decide)⟩

end PathTracerTheorems

/-! ## The camera -/

section CameraTheorems

set_option maxRecDepth 4000

/-- Counterexample to C16 as stated: in binary32 arithmetic the camera
`f32Camera 2000000` has aspect 1, a positive lens `0.05f` and an orthonormal
frame, but its origin `(0, 2000000, 0)` absorbs the lens: `2000000 + 0.05f` is
`2000000`, so the points `e` and `q` of `eval_camera` coincide at
`uv = (0.5, 0.5)`, `normalize` is handed the zero vector, and the ray has the
direction `(0, 0, 0)`, not the forward axis `-z = (0, -1, 0)`. -/
theorem eval_camera_center_counterexample :
    (f32Camera 2000000).aspect = f32Lib.ofInt 1 ∧
    f32Lib.flt (f32Lib.ofInt 0) (f32Camera 2000000).lens = true ∧
    f32Lib.dot (f32Camera 2000000).frame.x (f32Camera 2000000).frame.x = f32Lib.ofInt 1 ∧
    f32Lib.dot (f32Camera 2000000).frame.y (f32Camera 2000000).frame.y = f32Lib.ofInt 1 ∧
    f32Lib.dot (f32Camera 2000000).frame.z (f32Camera 2000000).frame.z = f32Lib.ofInt 1 ∧
    f32Lib.dot (f32Camera 2000000).frame.x (f32Camera 2000000).frame.y = f32Lib.ofInt 0 ∧
    f32Lib.dot (f32Camera 2000000).frame.x (f32Camera 2000000).frame.z = f32Lib.ofInt 0 ∧
    f32Lib.dot (f32Camera 2000000).frame.y (f32Camera 2000000).frame.z = f32Lib.ofInt 0 ∧
    f32Lib.fadd (f32Lib.ofInt 2000000) (f32Lib.dec 5 2) = f32Lib.ofInt 2000000 ∧
    eval_camera f32Lib (f32Camera 2000000) ⟨f32Lib.dec 5 1, f32Lib.dec 5 1⟩
      = ⟨(f32Camera 2000000).frame.o, ⟨0, 0, 0⟩⟩ ∧
    neg3 f32Lib (f32Camera 2000000).frame.z = ⟨0, f32Lib.ofInt (-1), 0⟩ ∧
    (⟨0, 0, 0⟩ : vec3f Int) ≠ neg3 f32Lib (f32Camera 2000000).frame.z := by
  decide

/-- C16, amended: at `uv = (0.5, 0.5)` the film size does not enter the ray of
`eval_camera`. In any arithmetic in which `0.5f - 0.5f` is 0 and the film
size, its quotient by the aspect and its product with the aspect give 0 when
multiplied by 0 (binary32 included, for a finite film and aspect), the ray has
the origin `e = transform_point(frame, (0, 0, 0))` and the direction
`normalize(e - q)` with `q = transform_point(frame, (0, 0, lens))`, for every
aspect. In exact arithmetic (the operations and the library routines
`transform_point` and `normalize` taken as those of an ordered field), for a
positive lens and a frame whose `z` axis has unit length, this ray is the
origin of the camera frame with exactly the negated `z` axis as direction. In
binary32 the direction is the negated `z` axis only as far as the roundings in
`transform_point` and `normalize` allow. -/
theorem eval_camera_center :
    (∀ (F R B : Type) (L : Lib F R B) (camera : camera_data F),
      L.fsub (L.dec 5 1) (L.dec 5 1) = L.ofInt 0 →
      (∀ x ∈ [camera.film, L.fdiv camera.film camera.aspect, L.fmul camera.film camera.aspect],
        L.fmul x (L.ofInt 0) = L.ofInt 0) →
      eval_camera L camera ⟨L.dec 5 1, L.dec 5 1⟩ =
        ⟨L.transform_point camera.frame ⟨L.ofInt 0, L.ofInt 0, L.ofInt 0⟩,
          L.normalize
            (sub3 L (L.transform_point camera.frame ⟨L.ofInt 0, L.ofInt 0, L.ofInt 0⟩)
              (L.transform_point camera.frame ⟨L.ofInt 0, L.ofInt 0, camera.lens⟩))⟩) ∧
    (∀ (K : Type) [LinearOrderedField K] (R B : Type) (L : Lib K R B) (camera : camera_data K),
      (∀ a b, L.fsub a b = a - b) → (∀ a b, L.fmul a b = a * b) → L.ofInt 0 = 0 →
      (∀ (f : frame3f K) (p : vec3f K), L.transform_point f p =
        ⟨f.x.x * p.x + f.y.x * p.y + f.z.x * p.z + f.o.x,
          f.x.y * p.x + f.y.y * p.y + f.z.y * p.z + f.o.y,
          f.x.z * p.x + f.y.z * p.y + f.z.z * p.z + f.o.z⟩) →
      (∀ (v : vec3f K) (l : K), 0 < l →
        l * l = v.x * v.x + v.y * v.y + v.z * v.z →
        L.normalize v = ⟨v.x / l, v.y / l, v.z / l⟩) →
      0 < camera.lens →
      camera.frame.z.x * camera.frame.z.x + camera.frame.z.y * camera.frame.z.y
        + camera.frame.z.z * camera.frame.z.z = 1 →
      eval_camera L camera ⟨L.dec 5 1, L.dec 5 1⟩
        = ⟨camera.frame.o, ⟨-camera.frame.z.x, -camera.frame.z.y, -camera.frame.z.z⟩⟩) := by
  constructor
  · intro F R B L camera hhalf hfilm
    have h1 := hfilm camera.film (by simp)
    have h2 := hfilm (L.fdiv camera.film camera.aspect) (by simp)
    have h3 := hfilm (L.fmul camera.film camera.aspect) (by simp)
    unfold eval_camera
    by_cases hle : L.fle (L.ofInt 1) camera.aspect = true
    · simp only [hle, if_true, hhalf, h1, h2]
    · simp only [hle, Bool.false_eq_true, if_false, hhalf, h1, h3]
  · intro K _ R B L camera hsub hmul hzero htransform hnormalize hlens hunit
    have hne : camera.lens ≠ 0 := ne_of_gt hlens
    unfold eval_camera
    simp only [hsub, hmul, sub_self, mul_zero, htransform, hzero, zero_add, sub3]
    rw [hnormalize _ camera.lens hlens (by
      simp only
      have := congrArg (fun t => camera.lens * camera.lens * t) hunit
      simp only [mul_one] at this
      rw [← this]
      ring)]
    have e1 : (camera.frame.o.x - (camera.frame.z.x * camera.lens + camera.frame.o.x))
        / camera.lens = -camera.frame.z.x := by
      field_simp
    have e2 : (camera.frame.o.y - (camera.frame.z.y * camera.lens + camera.frame.o.y))
        / camera.lens = -camera.frame.z.y := by
      field_simp
    have e3 : (camera.frame.o.z - (camera.frame.z.z * camera.lens + camera.frame.o.z))
        / camera.lens = -camera.frame.z.z := by
      field_simp
    simp only [e1, e2, e3]

/-- Witness of the amended C16: in binary32 the camera `f32Camera 0`, which
stands at the origin, gives exactly the negated `z` axis, and so does the
camera `ratCamera` in exact rational arithmetic. -/
theorem eval_camera_center_witness :
    eval_camera f32Lib (f32Camera 0) ⟨f32Lib.dec 5 1, f32Lib.dec 5 1⟩
        = ⟨(f32Camera 0).frame.o, neg3 f32Lib (f32Camera 0).frame.z⟩ ∧
      eval_camera ratLib ratCamera ⟨ratLib.dec 5 1, ratLib.dec 5 1⟩
        = ⟨ratCamera.frame.o,
          ⟨-ratCamera.frame.z.x, -ratCamera.frame.z.y, -ratCamera.frame.z.z⟩⟩ :=
  ⟨(eval_camera_center.1 Int Nat Unit f32Lib (f32Camera 0) (by decide) (by decide)).trans
      (by decide),
    eval_camera_center.2 ℚ Nat Unit ratLib ratCamera (fun _ _ => rfl) (fun _ _ => rfl)
      Int.cast_zero (fun _ _ => rfl) ratNormalize_eq (by norm_num [ratCamera])
      (by norm_num [ratCamera])⟩

end CameraTheorems

/-! ## The debug shaders -/

section DebugShaderTheorems

variable {F R B : Type} (L : Lib F R B)

/-- Counterexample to C13 as stated: on the plane of `backScene`, whose normal
`(0, 0, -1)` faces away from the ray that comes down on it, the cosine is -1
and `shade_eyelight` returns the material colour `(0.2, 0.4, 0.6)` times -1,
three negative components: not the colour times `max(0, -1) = 0`. -/
theorem shade_eyelight_clamps_counterexample :
    shade_eyelight milliLib (backScene material_type.matte) ()
        ⟨⟨0, 0, 0⟩, ⟨0, 0, -1000⟩⟩ 0 7 (intParams raytrace_shader_type.eyelight 1 0 true)
      = Res.ok (⟨-200, -400, -600, 0⟩, 7) ∧
    milliLib.dot (milliLib.transform_direction (milliFrame (-1000))
        (milliLib.eval_normal ⟨[], [], [(0, 2, 1)]⟩ 1 ⟨0, 0⟩))
      (neg3 milliLib ⟨0, 0, -1000⟩) = -1000 ∧
    (⟨-200, -400, -600, 0⟩ : vec4f Int)
      ≠ scale4 milliLib ⟨200, 400, 600, 0⟩ (max (milliLib.ofInt 0) (-1000)) ∧
    (-200 : Int) < milliLib.ofInt 0 := by
  decide

/-- C13, amended: for every hit (the instance, material and shape indices of
the hit being valid) `shade_eyelight` returns the colour of the instance's
material, with alpha 0, times `cos θ`, the dot product of the world-space
surface normal and the reversed ray direction, as it is: there is no clamp at
0, and the generator is not touched. -/
theorem shade_eyelight_scales_by_cosine (scene : scene_data F) (bvh : B) (ray : ray3f F)
    (bounce : Int) (rng : R) (params : raytrace_params) (inst : instance_data F)
    (material : material_data F) (shape : shape_data)
    (hhit : (L.intersect_bvh bvh scene ray).hit = true)
    (hinst : index? scene.instances (L.intersect_bvh bvh scene ray).instance_ = some inst)
    (hmaterial : index? scene.materials inst.material = some material)
    (hshape : index? scene.shapes inst.shape = some shape) :
    shade_eyelight L scene bvh ray bounce rng params
      = Res.ok
        (scale4 L ⟨material.color.x, material.color.y, material.color.z, L.ofInt 0⟩
          (L.dot
            (L.transform_direction inst.frame
              (L.eval_normal shape (L.intersect_bvh bvh scene ray).element
                (L.intersect_bvh bvh scene ray).uv))
            (neg3 L ray.d)), rng) := by
  simp only [shade_eyelight, hhit, Bool.not_true, Bool.false_eq_true, if_false, hinst,
    hmaterial, hshape]

/-- Witness of the amended C13 on the plane of `backScene`. -/
theorem shade_eyelight_scales_by_cosine_witness :
    shade_eyelight milliLib (backScene material_type.matte) ()
        ⟨⟨0, 0, 0⟩, ⟨0, 0, -1000⟩⟩ 0 7 (intParams raytrace_shader_type.eyelight 1 0 true)
      = Res.ok (scale4 milliLib ⟨200, 400, 600, milliLib.ofInt 0⟩ (-1000), 7) :=
  shade_eyelight_scales_by_cosine milliLib (backScene material_type.matte) ()
    ⟨⟨0, 0, 0⟩, ⟨0, 0, -1000⟩⟩ 0 7 (intParams raytrace_shader_type.eyelight 1 0 true)
    ⟨milliFrame (-1000), 0, 0⟩ ⟨material_type.matte, ⟨100, 100, 100⟩, ⟨200, 400, 600⟩, 1000, 0⟩
    ⟨[], [], [(0, 2, 1)]⟩ (by decide) (by decide) (by decide) (by decide)

/-- C14, the code at the failing input: for every hit (the instance and shape
indices being valid) `shade_texcoord` returns `(fmod(u, 1), fmod(v, 1), 0, 0)`
for the texture coordinate `(u, v)` of the surface; and at a hit with the
texture coordinate `(-0.25, 0.5)`, with `fmod` the truncated remainder of C,
that is `(-0.25, 0.5, 0, 0)`: the first component is below 0, where the
fractional part wrapped into `[0, 1)` would be 0.75. -/
theorem shade_texcoord_uses_fmod :
    (∀ (L : Lib F R B) (scene : scene_data F) (bvh : B) (ray : ray3f F) (bounce : Int)
      (rng : R) (params : raytrace_params) (inst : instance_data F) (shape : shape_data),
      index? scene.instances (L.intersect_bvh bvh scene ray).instance_ = some inst →
      index? scene.shapes inst.shape = some shape →
      shade_texcoord L scene bvh ray bounce rng params
        = Res.ok
          (⟨L.fmod (L.eval_texcoord shape (L.intersect_bvh bvh scene ray).element
                (L.intersect_bvh bvh scene ray).uv).x (L.ofInt 1),
            L.fmod (L.eval_texcoord shape (L.intersect_bvh bvh scene ray).element
                (L.intersect_bvh bvh scene ray).uv).y (L.ofInt 1),
            L.ofInt 0, L.ofInt 0⟩, rng)) ∧
    (milliLib.intersect_bvh () (backScene material_type.matte)
        ⟨⟨-250, 500, 0⟩, ⟨0, 0, -1000⟩⟩).hit = true ∧
    milliLib.eval_texcoord ⟨[], [], [(0, 2, 1)]⟩ 1 ⟨-250, 500⟩ = ⟨-250, 500⟩ ∧
    shade_texcoord milliLib (backScene material_type.matte) ()
        ⟨⟨-250, 500, 0⟩, ⟨0, 0, -1000⟩⟩ 0 7 (intParams raytrace_shader_type.texcoord 1 0 true)
      = Res.ok (⟨-250, 500, 0, 0⟩, 7) ∧
    (-250 : Int) < milliLib.ofInt 0 := by
  refine ⟨?_, by decide, by decide, by decide, by decide⟩
  intro L scene bvh ray bounce rng params inst shape hinst hshape
  simp only [shade_texcoord, hinst, hshape]

/-- The failing input of C14: a hit on the plane of `backScene` at the surface
coordinates `(-0.25, 0.5)`. -/
theorem shade_texcoord_uses_fmod_witness :
    shade_texcoord milliLib (backScene material_type.matte) ()
        ⟨⟨-250, 500, 0⟩, ⟨0, 0, -1000⟩⟩ 0 7 (intParams raytrace_shader_type.texcoord 1 0 true)
      = Res.ok
        (⟨milliLib.fmod (-250) (milliLib.ofInt 1), milliLib.fmod 500 (milliLib.ofInt 1),
          milliLib.ofInt 0, milliLib.ofInt 0⟩, 7) :=
  (shade_texcoord_uses_fmod (F := Int) (R := Nat) (B := Unit)).1 milliLib
    (backScene material_type.matte) () ⟨⟨-250, 500, 0⟩, ⟨0, 0, -1000⟩⟩ 0 7
    (intParams raytrace_shader_type.texcoord 1 0 true) ⟨milliFrame (-1000), 0, 0⟩
    ⟨[], [], [(0, 2, 1)]⟩ (by decide) (by decide)

/-- C15, the code at the failing input: on a ray for which the intersection
oracle reports no hit, the six shaders `shade_matte`, `shade_eyelight`,
`shade_normal`, `shade_color`, `matcap` and `cellshading` return black
`(0, 0, 0, 0)` with the generator untouched, before any indexing; but
`shade_texcoord` has no test of `isec.hit` and reads `scene.instances` at the
instance index of the miss record: with that index outside the vector the call
has no defined behaviour, and with an index inside it the shader returns the
wrapped texture coordinate of that instance, not black. -/
theorem debug_shaders_on_miss (scene : scene_data F) (bvh : B) (ray : ray3f F) (bounce : Int)
    (rng : R) (params : raytrace_params)
    (hmiss : (L.intersect_bvh bvh scene ray).hit = false) :
    shade_matte L scene bvh ray bounce rng params = Res.ok (zero4 L, rng) ∧
    shade_eyelight L scene bvh ray bounce rng params = Res.ok (zero4 L, rng) ∧
    shade_normal L scene bvh ray bounce rng params = Res.ok (zero4 L, rng) ∧
    shade_color L scene bvh ray bounce rng params = Res.ok (zero4 L, rng) ∧
    matcap L scene bvh ray bounce rng params = Res.ok (zero4 L, rng) ∧
    cellshading L scene bvh ray bounce rng params = Res.ok (zero4 L, rng) ∧
    (index? scene.instances (L.intersect_bvh bvh scene ray).instance_ = none →
      shade_texcoord L scene bvh ray bounce rng params = Res.undef) ∧
    (∀ inst shape,
      index? scene.instances (L.intersect_bvh bvh scene ray).instance_ = some inst →
      index? scene.shapes inst.shape = some shape →
      shade_texcoord L scene bvh ray bounce rng params
        = Res.ok
          (⟨L.fmod (L.eval_texcoord shape (L.intersect_bvh bvh scene ray).element
                (L.intersect_bvh bvh scene ray).uv).x (L.ofInt 1),
            L.fmod (L.eval_texcoord shape (L.intersect_bvh bvh scene ray).element
                (L.intersect_bvh bvh scene ray).uv).y (L.ofInt 1),
            L.ofInt 0, L.ofInt 0⟩, rng)) := by
  refine ⟨rfl, ?_, ?_, ?_, ?_, ?_, ?_, ?_⟩
  · simp only [shade_eyelight, hmiss, Bool.not_false, if_true]
  · simp only [shade_normal, hmiss, Bool.not_false, if_true]
  · simp only [shade_color, hmiss, Bool.not_false, if_true]
  · simp only [matcap, hmiss, Bool.not_false, if_true]
  · simp only [cellshading, hmiss, Bool.not_false, if_true]
  · intro hnone
    simp only [shade_texcoord, hnone]
  · intro inst shape hinst hshape
    simp only [shade_texcoord, hinst, hshape]

/-- The failing input of C15: a ray that points up misses the scene `intScene`,
the miss record carries the instance index -1, and `shade_texcoord` reads
`scene.instances[-1]`. -/
theorem debug_shaders_on_miss_witness :
    (intLib.intersect_bvh () intScene ⟨⟨0, 0, 0⟩, ⟨0, 0, 1⟩⟩).instance_ = -1 ∧
      shade_texcoord intLib intScene () ⟨⟨0, 0, 0⟩, ⟨0, 0, 1⟩⟩ 0 7
        (intParams raytrace_shader_type.texcoord 1 0 true) = Res.undef :=
  ⟨by decide,
    (debug_shaders_on_miss intLib intScene () ⟨⟨0, 0, 0⟩, ⟨0, 0, 1⟩⟩ 0 7
      (intParams raytrace_shader_type.texcoord 1 0 true) (by decide)).2.2.2.2.2.2.1
      (by decide)⟩

/-- C22, the code at the failing input: `cellshading` reads
`scene.instances[intersezione.instance]` and
`scene.materials[instance2.material]` right after the shadow query, before and
independently of the test `intersezione.hit`. On a primary ray that hits, with
valid instance, shape and material indices, the call has no defined behaviour
as soon as the instance index carried by the shadow-ray intersection is
outside `scene.instances` (as the index of a missed intersection is), or the
material index found there is outside `scene.materials`; it returns a value
exactly when both lookups are in range, whatever the hit flag of the shadow
ray. -/
theorem cellshading_shadow_lookup_unguarded (scene : scene_data F) (bvh : B) (ray : ray3f F)
    (bounce : Int) (rng : R) (params : raytrace_params) (inst : instance_data F)
    (shape : shape_data) (material : material_data F) (intersezione : bvh_intersection F)
    (hhit : (L.intersect_bvh bvh scene ray).hit = true)
    (hinst : index? scene.instances (L.intersect_bvh bvh scene ray).instance_ = some inst)
    (hshape : index? scene.shapes inst.shape = some shape)
    (hmaterial : index? scene.materials inst.material = some material)
    (hshadow : L.intersect_bvh bvh scene
      ⟨L.transform_point inst.frame
          (L.eval_position shape (L.intersect_bvh bvh scene ray).element
            (L.intersect_bvh bvh scene ray).uv),
        ⟨L.dec 4 1, L.dec 8 1, L.dec 8 1⟩⟩ = intersezione) :
    (index? scene.instances intersezione.instance_ = none →
      cellshading L scene bvh ray bounce rng params = Res.undef) ∧
    (∀ instance2, index? scene.instances intersezione.instance_ = some instance2 →
      index? scene.materials instance2.material = none →
      cellshading L scene bvh ray bounce rng params = Res.undef) ∧
    (∀ instance2 materiale, index? scene.instances intersezione.instance_ = some instance2 →
      index? scene.materials instance2.material = some materiale →
      ∃ v, cellshading L scene bvh ray bounce rng params = Res.ok v) := by
  refine ⟨?_, ?_, ?_⟩
  · intro hnone
    simp only [cellshading, hhit, Bool.not_true, Bool.false_eq_true, if_false, hinst, hshape,
      hmaterial, hshadow, hnone]
  · intro instance2 h2 hnone
    simp only [cellshading, hhit, Bool.not_true, Bool.false_eq_true, if_false, hinst, hshape,
      hmaterial, hshadow, h2, hnone]
  · intro instance2 materiale h2 h3
    simp only [cellshading, hhit, Bool.not_true, Bool.false_eq_true, if_false, hinst, hshape,
      hmaterial, hshadow, h2, h3]
    split
    · exact ⟨_, rfl⟩
    · exact ⟨_, rfl⟩

/-- Witness of C22: a ray that comes down on the plane of `backScene` hits it
at `(0, 0, -1)`; the shadow ray from there towards the light `(0.4, 0.8, 0.8)`
misses and its intersection record carries the instance index `-1`, with which
`cellshading` indexes `scene.instances`. -/
theorem cellshading_shadow_lookup_unguarded_witness :
    (milliLib.intersect_bvh () (backScene material_type.matte)
        ⟨⟨0, 0, 0⟩, ⟨0, 0, -1000⟩⟩).hit = true ∧
      milliLib.intersect_bvh () (backScene material_type.matte)
        ⟨⟨0, 0, -1000⟩, ⟨400, 800, 800⟩⟩ = ⟨-1, -1, ⟨0, 0⟩, 0, false⟩ ∧
      cellshading milliLib (backScene material_type.matte) () ⟨⟨0, 0, 0⟩, ⟨0, 0, -1000⟩⟩ 0 7
        (intParams raytrace_shader_type.cellshading 1 0 true) = Res.undef :=
  ⟨by decide, by decide,
    (cellshading_shadow_lookup_unguarded milliLib (backScene material_type.matte) ()
      ⟨⟨0, 0, 0⟩, ⟨0, 0, -1000⟩⟩ 0 7 (intParams raytrace_shader_type.cellshading 1 0 true)
      ⟨milliFrame (-1000), 0, 0⟩ ⟨[], [], [(0, 2, 1)]⟩
      ⟨material_type.matte, ⟨100, 100, 100⟩, ⟨200, 400, 600⟩, 1000, 0⟩
      ⟨-1, -1, ⟨0, 0⟩, 0, false⟩ (by decide) (by decide) (by decide) (by decide)
      (by decide)).1 (by decide)⟩

end DebugShaderTheorems

/-! ## The extractor -/

section ExtractorTheorems

variable {F R B : Type} (L : Lib F R B)

/-- C4: the in-place `get_render(image, state)` throws `std::invalid_argument`
if and only if `image.width != state.width`, or `image.height != state.height`,
or the image is not tagged linear; whenever it throws, the target image is
left as it was; and when the check passes (the pixel vectors reaching
`width * height`) it returns, keeps the size and the tag, writes
`state.image[idx] * (1.0f / (float)state.samples)` to every pixel `idx` below
`width * height` and leaves any further pixel alone. -/
theorem get_render_inplace_checks (image : color_image F) (state : raytrace_state F R) :
    ((∃ msg, (get_render_inplace L image state).1
        = Res.throw exception.invalid_argument msg) ↔
      (image.width ≠ state.width ∨ image.height ≠ state.height ∨ image.linear = false)) ∧
    (∀ e msg, (get_render_inplace L image state).1 = Res.throw e msg →
      e = exception.invalid_argument ∧ (get_render_inplace L image state).2 = image) ∧
    (image.width = state.width → image.height = state.height → image.linear = true →
      (int32 (state.width * state.height)).toNat ≤ image.pixels.length →
      (int32 (state.width * state.height)).toNat ≤ state.image.length →
      ∃ image1,
        get_render_inplace L image state = (Res.ok (), image1) ∧
        image1.width = image.width ∧ image1.height = image.height ∧
        image1.linear = image.linear ∧ image1.pixels.length = image.pixels.length ∧
        (∀ idx, idx < (int32 (state.width * state.height)).toNat →
          ∃ pixel, state.image[idx]? = some pixel ∧
            image1.pixels[idx]? = some
              (scale4 L pixel (L.fdiv (L.dec 10 1) (L.ofInt state.samples)))) ∧
        (∀ idx, (int32 (state.width * state.height)).toNat ≤ idx →
          image1.pixels[idx]? = image.pixels[idx]?)) := by
  by_cases hsize : image.width ≠ state.width ∨ image.height ≠ state.height
  · have hrun : get_render_inplace L image state
        = (Res.throw exception.invalid_argument "image should have the same size", image) := by
      simp only [get_render_inplace, check_image, if_pos hsize]
    refine ⟨?_, ?_, ?_⟩
    · rw [hrun]
      constructor
      · intro _
        rcases hsize with h | h
        · exact Or.inl h
        · exact Or.inr (Or.inl h)
      · intro _
        exact ⟨_, rfl⟩
    · intro e msg h
      rw [hrun] at h ⊢
      cases h
      exact ⟨rfl, rfl⟩
    · intro hw hh
      rcases hsize with h | h
      · exact absurd hw h
      · exact absurd hh h
  · by_cases hlin : image.linear = true
    · have hcheck : check_image image state.width state.height true = Res.ok () := by
        simp only [check_image, if_neg hsize, hlin, ne_eq, not_true_eq_false, if_false]
      have hrun : get_render_inplace L image state
          = write_pixels L (L.fdiv (L.dec 10 1) (L.ofInt state.samples)) state
              (List.range (int32 (state.width * state.height)).toNat) image := by
        simp only [get_render_inplace, hcheck]
      have hnot : ¬ (image.width ≠ state.width ∨ image.height ≠ state.height ∨
          image.linear = false) := by
        intro h
        rcases h with h | h | h
        · exact hsize (Or.inl h)
        · exact hsize (Or.inr h)
        · rw [hlin] at h
          cases h
      refine ⟨?_, ?_, ?_⟩
      · constructor
        · intro h
          obtain ⟨msg, h⟩ := h
          rw [hrun] at h
          exact absurd h (write_pixels_no_throw L _ _ _ _ _ _)
        · intro h
          exact absurd h hnot
      · intro e msg h
        rw [hrun] at h
        exact absurd h (write_pixels_no_throw L _ _ _ _ _ _)
      · intro _ _ _ hpix himg
        obtain ⟨image1, h1, hw, hh, hl, hlen, hout, hin⟩ :=
          write_pixels_ok L (L.fdiv (L.dec 10 1) (L.ofInt state.samples)) state
            (List.range (int32 (state.width * state.height)).toNat) image
            (fun i hi => ⟨lt_of_lt_of_le (List.mem_range.mp hi) himg,
              lt_of_lt_of_le (List.mem_range.mp hi) hpix⟩)
        refine ⟨image1, hrun.trans h1, hw, hh, hl, hlen, ?_, ?_⟩
        · intro idx hidx
          obtain ⟨pixel, hp⟩ := exists_getElem? state.image idx (lt_of_lt_of_le hidx himg)
          exact ⟨pixel, hp, hin idx (List.mem_range.mpr hidx) pixel hp⟩
        · intro idx hidx
          exact hout idx (fun h => absurd (List.mem_range.mp h) (not_lt.mpr hidx))
    · have hlin2 : image.linear = false := by
        cases h : image.linear
        · rfl
        · exact absurd h hlin
      have hrun : get_render_inplace L image state
          = (Res.throw exception.invalid_argument "expected linear image", image) := by
        simp [get_render_inplace, check_image, if_neg hsize, hlin2]
      refine ⟨?_, ?_, ?_⟩
      · rw [hrun]
        constructor
        · intro _
          exact Or.inr (Or.inr hlin2)
        · intro _
          exact ⟨_, rfl⟩
      · intro e msg h
        rw [hrun] at h ⊢
        cases h
        exact ⟨rfl, rfl⟩
      · intro _ _ h
        exact absurd h hlin

/-- Witness of C4: a linear 2 by 2 target for the 2 by 2 state `intState`
passes the check, and an image tagged sRGB is refused and left as it was. -/
theorem get_render_inplace_checks_witness :
    (∃ image1, get_render_inplace intLib ⟨2, 2, true, List.replicate 4 ⟨9, 9, 9, 9⟩⟩ intState
        = (Res.ok (), image1)) ∧
      (get_render_inplace intLib ⟨2, 2, false, List.replicate 4 ⟨9, 9, 9, 9⟩⟩ intState).2
        = ⟨2, 2, false, List.replicate 4 ⟨9, 9, 9, 9⟩⟩ := by
  constructor
  · obtain ⟨image1, h, _⟩ :=
      (get_render_inplace_checks intLib ⟨2, 2, true, List.replicate 4 ⟨9, 9, 9, 9⟩⟩
        intState).2.2 rfl rfl rfl (by decide) (by decide)
    exact ⟨image1, h⟩
  · exact ((get_render_inplace_checks intLib ⟨2, 2, false, List.replicate 4 ⟨9, 9, 9, 9⟩⟩
      intState).2.1 exception.invalid_argument "expected linear image" rfl).2

/-- Counterexample to C3 as stated: with a budget of one sample
(`params.samples = 1`) and `K = 2` calls after `make_state`, the second call
is a no-op, the state holds one sample, `(2, 4, 6, 0)`, at pixel 0, and
`get_render` returns that radiance divided by 1: not the radiance divided by
`K = 2` componentwise, and not the radiance scaled by `1 / K` either. -/
theorem get_render_divides_by_calls_counterexample :
    make_state intLib intScene (intParams raytrace_shader_type.color 1 0 true)
        = Res.ok intState ∧
      raytrace_calls intLib (fun _ => inOrder) 0 intScene ()
        (intParams raytrace_shader_type.color 1 0 true) 2 intState = Res.ok intStateColor ∧
      intStateColor.image[0]? = some ⟨2, 4, 6, 0⟩ ∧
      get_render intLib intStateColor
        = Res.ok ⟨2, 2, true, List.replicate 4 ⟨2, 4, 6, 0⟩⟩ ∧
      (⟨2, 4, 6, 0⟩ : vec4f Int)
        ≠ ⟨intLib.fdiv 2 (intLib.ofInt 2), intLib.fdiv 4 (intLib.ofInt 2),
            intLib.fdiv 6 (intLib.ofInt 2), intLib.fdiv 0 (intLib.ofInt 2)⟩ ∧
      (⟨2, 4, 6, 0⟩ : vec4f Int)
        ≠ scale4 intLib ⟨2, 4, 6, 0⟩ (intLib.fdiv (intLib.dec 10 1) (intLib.ofInt 2)) := by
  decide

/-- C3, amended: after `make_state` followed by `K` calls of
`raytrace_samples` with fixed scene and parameters, the sample counter is
`min(K, max(params.samples, 0))`, and `get_render(state)` returns an image of
the state's size whose every pixel is the accumulated radiance
`state.image[idx]` times `1.0f / (float)state.samples`: the divisor is the
sample counter, which is `K` only while `K <= params.samples`. The `K` calls
do return when the camera index is valid, the shader tag is recognized and
the shader returns on every ray. -/
theorem get_render_divides_by_samples (scheds : Nat → Scheduler) (fuel : Nat)
    (scene : scene_data F) (bvh : B) (params : raytrace_params) (K : Nat)
    (state0 : raytrace_state F R)
    (hinit : make_state L scene params = Res.ok state0) :
    (∀ state, raytrace_calls L scheds fuel scene bvh params K state0 = Res.ok state →
      state.samples = min (K : Int) (max params.samples 0) ∧
      ∃ image,
        get_render L state = Res.ok image ∧
        image.width = state.width ∧ image.height = state.height ∧ image.linear = true ∧
        image.pixels.length = (int32 (state.width * state.height)).toNat ∧
        ∀ idx, idx < (int32 (state.width * state.height)).toNat →
          ∃ pixel, state.image[idx]? = some pixel ∧
            image.pixels[idx]? = some (scale4 L pixel
              (L.fdiv (L.dec 10 1) (L.ofInt (min (K : Int) (max params.samples 0)))))) ∧
    (∀ camera shader, index? scene.cameras params.camera = some camera →
      get_shader L fuel params = Res.ok shader →
      (∀ ray rng, ∃ v, shader scene bvh ray 0 rng params = Res.ok v) →
      ∃ state, raytrace_calls L scheds fuel scene bvh params K state0 = Res.ok state) := by
  obtain ⟨hnonneg, hs0, hi0, hh0, hr0⟩ := make_state_eq L scene params state0 hinit
  have hsized0 : sized state0 := by
    refine ⟨?_, ?_, ?_⟩
    · rw [hi0, List.length_replicate]
    · rw [hh0, List.length_replicate]
    · rw [hr0, length_seed_rngs]
  constructor
  · intro state hcalls
    obtain ⟨hshape, hsamples⟩ := raytrace_calls_count L scheds fuel scene bvh params K 0
      state0 state (by rw [hs0]; omega) hcalls
    have hsamples1 : state.samples = min (K : Int) (max params.samples 0) := by
      rw [hsamples]
      congr 2
      omega
    refine ⟨hsamples1, ?_⟩
    obtain ⟨himg, _, _⟩ := sized_of_same_shape hshape hsized0
    have hnn : ¬ int32 (state.width * state.height) < 0 := by
      rw [hshape.1, hshape.2.1]
      exact not_lt.mpr hnonneg
    obtain ⟨image1, h1, hw, hh, hl, hlen, hout, hin⟩ :=
      write_pixels_ok L (L.fdiv (L.dec 10 1) (L.ofInt state.samples)) state
        (List.range (int32 (state.width * state.height)).toNat)
        { width := state.width
          height := state.height
          linear := true
          pixels := List.replicate (int32 (state.width * state.height)).toNat (zero4 L) }
        (fun i hi => ⟨by rw [himg]; exact List.mem_range.mp hi,
          by rw [List.length_replicate]; exact List.mem_range.mp hi⟩)
    have hrun : get_render L state = Res.ok image1 := by
      simp only [get_render, make_image, if_neg hnn, get_render_inplace, check_image, ne_eq,
        not_true_eq_false, or_self, if_false, h1]
    refine ⟨image1, hrun, hw, hh, hl, ?_, ?_⟩
    · rw [hlen, List.length_replicate]
    · intro idx hidx
      obtain ⟨pixel, hp⟩ := exists_getElem? state.image idx (by rw [himg]; exact hidx)
      refine ⟨pixel, hp, ?_⟩
      rw [← hsamples1]
      exact hin idx (List.mem_range.mpr hidx) pixel hp
  · intro camera shader hcamera hshader htotal
    exact raytrace_calls_returns L scheds fuel scene bvh params camera shader hcamera hshader
      htotal K state0 hsized0

/-- Witness of the amended C3: two calls with a budget of one sample leave the
sample counter of `intStateColor` at `min(2, 1) = 1`. -/
theorem get_render_divides_by_samples_witness :
    make_state intLib intScene (intParams raytrace_shader_type.color 1 0 true)
        = Res.ok intState ∧
      intStateColor.samples = min ((2 : Nat) : Int) (max 1 0) :=
  ⟨rfl,
    ((get_render_divides_by_samples intLib (fun _ => inOrder) 0 intScene ()
      (intParams raytrace_shader_type.color 1 0 true) 2 intState rfl).1 intStateColor
        (by decide)).1⟩

end ExtractorTheorems

end yocto
